import Mathlib

/-!
# Heartbeat PWA: foreground page (`app.js`) and background worker (`service-worker.js`)

A shallow embedding of the heartbeat engine, the notification gate, the beat
counter shared through IndexedDB, the log store, the configuration manager with
its secrets codec, the heartbeat timer and page startup, and the push
subscription manager, followed by the properties proved about them.

Modelling conventions
* Wall-clock readings (`Date.now()`, `new Date()`) are integers in milliseconds;
  every reading a function takes is an explicit argument, in source order.
  Log timestamps are ISO-8601 strings in the source; their string order is the
  order of the instants, so they are kept as the millisecond instants.
* `Math.random()` is an explicit argument, a fraction in `[0, 1)`.
* The beat counter is a natural number (counts stay far below `2 ^ 53`).
* The outcome of `fetch` is an explicit argument: a response with a status
  code, or a rejection (network error).
* IndexedDB transactions on an opened connection are taken to complete, in the
  order in which they are created (the IndexedDB ordering rule for overlapping
  scopes). An unset foreground connection (`db` undefined) is modelled.
* Whether `indexedDB.open` resolves follows from the version of the database
  and the version asked for (the page asks for 2, the worker for 1); for the
  worker, the platform's storage may moreover be unavailable.
-/

namespace Heartbeat

/-! ## Data model -/

/-- The module-level `config` object of `app.js`. -/
structure Config where
  serverUrl : String
  authToken : String
  deviceName : String
  vapidPublicKey : String
  enabled : Bool
  activityDetection : Bool
  pushEnabled : Bool
  deriving DecidableEq

/-- Initial value of `config` (`app.js` lines 10-18). -/
def Config.initial : Config :=
  { serverUrl := "", authToken := "", deviceName := "PWA Device", vapidPublicKey := "",
    enabled := false, activityDetection := true, pushEnabled := false }

/-- The record kept under `'settings'` in the `config` object store:
`{ ...config }` with the two secrets possibly replaced by ciphertext and the
matching flags set (`saveConfig`). An absent flag is `false`. -/
structure StoredConfig where
  serverUrl : String
  authToken : String
  deviceName : String
  vapidPublicKey : String
  enabled : Bool
  activityDetection : Bool
  pushEnabled : Bool
  authTokenEncrypted : Bool
  vapidKeyEncrypted : Bool
  deriving DecidableEq

/-- One value of the `logs` object store: `{ message, timestamp }`. -/
structure LogEntry where
  message : String
  timestamp : Int
  deriving DecidableEq

/-- The IndexedDB database `HeartbeatDB`, shared by both contexts.
`logs` lists the values of the auto-increment `logs` store in primary-key
order, which is insertion order: the position of an entry in the list stands
for its primary key (keys only ever matter through their relative order). -/
structure Store where
  settings : Option StoredConfig
  beatCount : Option Nat
  lastActivity : Option Int
  logs : List LogEntry
  deriving DecidableEq

/-- The value of `Notification.permission`. -/
inductive Permission where
  | granted
  | denied
  | default
  deriving DecidableEq

/-- A byte sequence (`Uint8Array`, `ArrayBuffer`). -/
abbrev Bytes := List (Fin 256)

/-- The `keys` object of a push subscription. A missing key is the empty
string (both are falsy). -/
structure SubscriptionKeys where
  p256dh : String
  auth : String
  deriving DecidableEq

/-- The JSON bodies the page sends: the object handed to `JSON.stringify`. -/
inductive RequestBody where
  | pushSubscribe (endpoint : String) (keys : SubscriptionKeys) (encoding : String)
      (deviceName : String)
  | pushUnsubscribe (endpoint : String) (deviceName : String)
  deriving DecidableEq

/-- A request handed to `fetch`. -/
structure Request where
  url : String
  method : String
  headers : List (String × String)
  body : Option RequestBody
  deriving DecidableEq

/-- What `await fetch(...)` produces: a response carrying a status code, or a
rejection whose error has the given message. -/
inductive FetchResult where
  | response (status : Nat)
  | networkError (message : String)
  deriving DecidableEq

/-- The `ok` flag of a response: status in the range 200-299. -/
def responseOk (status : Nat) : Bool :=
  decide (200 ≤ status) && decide (status ≤ 299)

/-- A notification handed to the platform, with the instant at which it was
handed over. -/
structure Notice where
  title : String
  body : String
  tag : String
  shownAt : Int
  deriving DecidableEq

/-- A message the worker posts to its clients (`client.postMessage`). In a
`heartbeat-sent` message the `beatCount` property may be missing. -/
inductive ClientMessage where
  | heartbeatSent (timestamp : Int) (source : String) (beatCount : Option Nat)
  | pushSubscriptionExpired (message : String)
  deriving DecidableEq

/-- An AES-GCM key (`CryptoKey`), identified by its key material. -/
structure CryptoKey where
  material : Bytes
  deriving DecidableEq

/-- Module state and the DOM fields of the foreground page that the heartbeat
engine writes. `db` tells whether `initDB` has assigned the connection,
`heartbeatInterval` holds the handle of the recurring timer (`undefined` and
`null` are both `none`); the `input...` fields are the values of the settings
form, the two toggle fields the `active` class of the toggles. -/
structure Page where
  db : Bool
  config : Config
  lastActivity : Int
  beatCount : Nat
  lastNotificationTime : Int
  statusDotClass : List String
  statusText : String
  beatCountText : String
  lastBeat : Option Int
  logEntries : List LogEntry
  cryptoKey : Option CryptoKey
  heartbeatInterval : Option Nat
  inputServerUrl : String
  inputAuthToken : String
  inputDeviceName : String
  inputVapidPublicKey : String
  enableToggleActive : Bool
  activityToggleActive : Bool
  deriving DecidableEq

/-- The browser's push subscription of the worker registration. `keys` is the
`keys` property of the object (`none` when missing), `jsonKeys` the `keys` of
`JSON.parse(JSON.stringify(subscription))` (`none` when missing; the
conversion is taken not to throw), `encoding` the `encoding` property. -/
structure PushSubscription where
  endpoint : String
  keys : Option SubscriptionKeys
  jsonKeys : Option SubscriptionKeys
  encoding : Option String
  deriving DecidableEq

/-- The record `saveConfig` writes to `localStorage` under `heartbeat-config`. -/
structure SanitizedConfig where
  serverUrl : String
  deviceName : String
  enabled : Bool
  activityDetection : Bool
  pushEnabled : Bool
  deriving DecidableEq

/-- The two `localStorage` items of the page: `heartbeat-crypto-key` and
`heartbeat-config` (the latter as the record its JSON text stands for). -/
structure LocalStorage where
  cryptoKey : Option String
  config : Option SanitizedConfig
  deriving DecidableEq

/-- A service worker registration as the page reads it. -/
structure SwRegistration where
  active : Bool
  waiting : Bool
  deriving DecidableEq

/-- A scheduled `setInterval` timer: its handle and its period in milliseconds. -/
structure Timer where
  handle : Nat
  period : Nat
  deriving DecidableEq

/-- Version and object store names of the IndexedDB database `HeartbeatDB`;
version 0 stands for a database that does not exist yet. -/
structure Database where
  version : Nat
  objectStores : List String
  deriving DecidableEq

/-- A call on the push manager or on a subscription. -/
inductive PushOp where
  | unsubscribe (endpoint : String)
  | subscribe (applicationServerKey : Bytes)
  deriving DecidableEq

/-- The foreground page together with everything it shares with the platform
and the background worker.
* `serviceWorker`: `'serviceWorker' in navigator`; the registration is then
  taken to be ready. `syncSupported`: `'sync' in registration`.
* `requests`: the requests handed to `fetch`, oldest first.
* `syncTags`: the one-shot background-sync tags currently registered.
* `notifications`: the notifications shown by the platform, oldest first.
* `showNotificationCalls`: a ghost trace of the calls of the foreground
  `showNotification` (title and body); no code reads it.
* `timers`: the scheduled `setInterval` timers that call `sendHeartbeat`;
  `nextTimerId`: the handle the next `setInterval` returns.
* `database`: version and object stores of `HeartbeatDB`, whose contents are
  in `store`.
* `ticksStarted`: a ghost count of the `sendHeartbeat()` calls made by
  `startHeartbeat`; the run of such a call is a `sendHeartbeat` step of its own.
* `registration`: what `navigator.serviceWorker.getRegistration()` yields;
  `controller`: whether `navigator.serviceWorker.controller` is set;
  `pushManager`: `'PushManager' in window`.
* `pushTrace`: a ghost trace of the calls on the push manager and on
  subscriptions. -/
structure World where
  page : Page
  store : Store
  permission : Permission
  serviceWorker : Bool
  syncSupported : Bool
  pushSubscription : Option PushSubscription
  requests : List Request
  syncTags : List String
  notifications : List Notice
  showNotificationCalls : List (String × String)
  localStorage : LocalStorage
  timers : List Timer
  nextTimerId : Nat
  database : Database
  ticksStarted : Nat
  registration : Option SwRegistration
  controller : Bool
  pushManager : Bool
  pushTrace : List PushOp
  deriving DecidableEq

/-- A page whose script has just been evaluated, at clock reading `loadedAt`
(`app.js` lines 1-18), with the DOM fields still empty. -/
def Page.initial (loadedAt : Int) : Page :=
  { db := false, config := Config.initial, lastActivity := loadedAt, beatCount := 0,
    lastNotificationTime := 0, statusDotClass := ["status-dot"], statusText := "",
    beatCountText := "0", lastBeat := none, logEntries := [], cryptoKey := none,
    heartbeatInterval := none, inputServerUrl := "", inputAuthToken := "",
    inputDeviceName := "", inputVapidPublicKey := "", enableToggleActive := false,
    activityToggleActive := false }

/-- An empty database. -/
def Store.empty : Store :=
  { settings := none, beatCount := none, lastActivity := none, logs := [] }

/-- A freshly loaded page over a given database and permission, on a platform
with an active, controlling service worker, background sync and push, an empty
`localStorage`, the database at version 2 with its three object stores,
nothing requested, scheduled or shown yet. -/
def World.initial (loadedAt : Int) (store : Store) (permission : Permission) : World :=
  { page := Page.initial loadedAt, store := store, permission := permission,
    serviceWorker := true, syncSupported := true, pushSubscription := none,
    requests := [], syncTags := [], notifications := [], showNotificationCalls := [],
    localStorage := { cryptoKey := none, config := none }, timers := [], nextTimerId := 1,
    database := { version := 2, objectStores := ["config", "logs", "stats"] },
    ticksStarted := 0, registration := some { active := true, waiting := false },
    controller := true, pushManager := true, pushTrace := [] }

/-- A value of `Math.random()`: the fraction `num / den`. -/
structure Draw where
  num : Nat
  den : Nat
  deriving DecidableEq

/-- The comparison `draw < p / q` of a draw with the fraction `p / q`. -/
def Draw.lt (d : Draw) (p q : Nat) : Bool := decide (d.num * q < p * d.den)

/-- JavaScript truthiness of a string: non-empty. -/
def truthy (s : String) : Bool := s != ""

/-! ## Platform operations -/

/-- Platform side of `registration.showNotification` and `new Notification`: the
Notifications API shows the notification when permission is granted and
refuses (rejects) otherwise. -/
def platformNotify (n : Notice) (w : World) : World :=
  if w.permission = Permission.granted then { w with notifications := w.notifications ++ [n] }
  else w

/-- Platform side of `registration.sync.register(tag)`: registering a tag that
is already registered leaves the registration as it is. -/
def syncRegister (tag : String) (w : World) : World :=
  if tag ∈ w.syncTags then w else { w with syncTags := w.syncTags ++ [tag] }

/-! ## The `logs` object store and its `timestamp` index -/

/-- Order of the records of the `timestamp` index: by index key (timestamp),
then by primary key (position in the store). -/
def indexLE (p q : Nat × LogEntry) : Prop :=
  p.2.timestamp < q.2.timestamp ∨ (p.2.timestamp = q.2.timestamp ∧ p.1 ≤ q.1)

instance : DecidableRel indexLE := fun p q =>
  inferInstanceAs (Decidable (p.2.timestamp < q.2.timestamp ∨
    (p.2.timestamp = q.2.timestamp ∧ p.1 ≤ q.1)))

/-- The records of the `timestamp` index in ascending order, each with its
primary key. -/
def timestampIndex (logs : List LogEntry) : List (Nat × LogEntry) :=
  logs.enum.insertionSort indexLE

/-- The records visited by `index.openCursor(null, 'prev')`, in visiting order:
the index read backwards. -/
def cursorPrev (logs : List LogEntry) : List (Nat × LogEntry) :=
  (timestampIndex logs).reverse

/-- Timestamps that do not decrease in insertion order (ties allowed). -/
def Chronological (logs : List LogEntry) : Prop :=
  logs.Pairwise (fun a b => a.timestamp ≤ b.timestamp)

/-- The constant `maxLogs`. -/
def maxLogs : Nat := 50

/-- The constant `displayLogs`. -/
def displayLogs : Nat := 10

/-- The cursor loop of `cleanOldLogs` on the store contents: every record
visited after the first `maxLogs` ones is deleted (by primary key). -/
def pruneLogs (logs : List LogEntry) : List LogEntry :=
  let deleted := ((cursorPrev logs).drop maxLogs).map Prod.fst
  (logs.enum.filter (fun p => decide (p.1 ∉ deleted))).map Prod.snd

/-- The cursor loop of `refreshLogDisplay` on the store contents: the first
`displayLogs` records visited, in visiting order. -/
def recentLogs (logs : List LogEntry) : List LogEntry :=
  ((cursorPrev logs).take displayLogs).map Prod.snd

/-! ## Foreground page (`app.js`) -/

namespace App

/-- `loadBeatCount`: with no connection `db.transaction` throws and the error is
caught; otherwise a stored value replaces the in-memory counter and its display. -/
def loadBeatCount (w : World) : World :=
  if w.page.db then
    match w.store.beatCount with
    | some c => { w with page := { w.page with beatCount := c, beatCountText := toString c } }
    | none => w
  else w

/-- `saveBeatCount`: puts the in-memory counter under `'beatCount'` in `stats`;
with no connection the error is caught and the write is lost. -/
def saveBeatCount (w : World) : World :=
  if w.page.db then { w with store := { w.store with beatCount := some w.page.beatCount } }
  else w

/-- `refreshLogDisplay`: the log panel is emptied and refilled with the first
`displayLogs` records of the backwards index cursor; with no connection the
error is caught before the panel is touched. -/
def refreshLogDisplay (w : World) : World :=
  if w.page.db then { w with page := { w.page with logEntries := recentLogs w.store.logs } }
  else w

/-- `cleanOldLogs`: deletes what the backwards index cursor visits after the
first `maxLogs` records; with no connection the error is caught. -/
def cleanOldLogs (w : World) : World :=
  if w.page.db then { w with store := { w.store with logs := pruneLogs w.store.logs } }
  else w

/-- `addLog(message)`: `stamp` is the reading of `new Date()`, `draw` the value
of `Math.random()`. -/
def addLog (message : String) (stamp : Int) (draw : Draw) (w : World) : World :=
  let w1 :=
    if w.page.db then
      let w2 := { w with store := { w.store with logs := w.store.logs ++ [⟨message, stamp⟩] } }
      if draw.lt 5 100 then cleanOldLogs w2 else w2
    else w
  refreshLogDisplay w1

/-- One call of `addLog`: the message, the reading of `new Date()` and the value
of `Math.random()`. -/
structure LogCall where
  message : String
  stamp : Int
  draw : Draw

/-- The entry a call of `addLog` puts into the store. -/
def LogCall.entry (c : LogCall) : LogEntry := ⟨c.message, c.stamp⟩

/-- A sequence of `addLog` calls, one after the other. -/
def addLogAll (w : World) : List LogCall → World
  | [] => w
  | c :: cs => addLogAll (addLog c.message c.stamp c.draw w) cs

/-- `updateStatus(type, text)`. -/
def updateStatus (type text : String) (w : World) : World :=
  let cls :=
    if type = "active" then ["status-dot", "active"]
    else if type = "error" then ["status-dot", "error"]
    else ["status-dot"]
  { w with page := { w.page with statusDotClass := cls, statusText := text } }

/-- `trackActivity`: `now` is the reading of `Date.now()`. -/
def trackActivity (now : Int) (w : World) : World :=
  let w1 := { w with page := { w.page with lastActivity := now } }
  if w1.page.db then { w1 with store := { w1.store with lastActivity := some now } } else w1

/-- `showNotification(title, body)`: `now` is the reading of `Date.now()`. The
first line records the call in the ghost trace. -/
def showNotification (title body : String) (now : Int) (w : World) : World :=
  let w1 := { w with showNotificationCalls := w.showNotificationCalls ++ [(title, body)] }
  if w1.permission ≠ Permission.granted then w1
  else if now - w1.page.lastNotificationTime < 30000 then w1
  else
    let w2 := { w1 with page := { w1.page with lastNotificationTime := now } }
    if w2.serviceWorker then
      platformNotify { title := title, body := body, tag := "heartbeat-alert", shownAt := now } w2
    else
      platformNotify { title := title, body := body, tag := "", shownAt := now } w2

/-- The clock readings, random draws and network outcome consumed by one run of
the foreground `sendHeartbeat`, in source order. -/
structure TickEnv where
  /-- `Date.now()` of the activity check -/
  now : Int
  /-- outcome of `fetch`, when it is called -/
  fetch : FetchResult
  /-- `new Date()` for the `lastBeat` field -/
  beatStamp : Int
  /-- `new Date()` and `Math.random()` of the first `addLog` -/
  logStamp : Int
  logDraw : Draw
  /-- `Date.now()` inside `showNotification` -/
  notifyNow : Int
  /-- `new Date()` and `Math.random()` of the `addLog` after sync registration -/
  queuedStamp : Int
  queuedDraw : Draw

/-- The request built by the foreground `sendHeartbeat`. -/
def beatRequest (c : Config) : Request :=
  { url := c.serverUrl ++ "/api/beat", method := "POST",
    headers := [("Auth", c.authToken), ("Device", c.deviceName)], body := none }

/-- The guard of `sendHeartbeat` lines 371-381 as a predicate: the tick goes on
to call `fetch`. -/
def attempts (now : Int) (p : Page) : Bool :=
  p.config.enabled && truthy p.config.serverUrl && truthy p.config.authToken &&
    !(p.config.activityDetection && decide (now - p.lastActivity > 120000))

/-- The foreground `sendHeartbeat` (`app.js` lines 370-420). -/
def sendHeartbeat (env : TickEnv) (w : World) : World :=
  if !w.page.config.enabled || !truthy w.page.config.serverUrl ||
      !truthy w.page.config.authToken then w
  else if w.page.config.activityDetection && decide (env.now - w.page.lastActivity > 120000) then
    addLog "No recent activity, skipping heartbeat" env.logStamp env.logDraw w
  else
    let w1 := { w with requests := w.requests ++ [beatRequest w.page.config] }
    match env.fetch with
    | FetchResult.response status =>
      if responseOk status then
        let w2 := { w1 with page := { w1.page with beatCount := w1.page.beatCount + 1 } }
        let w3 := updateStatus "active" "Connected" (saveBeatCount w2)
        let w4 := { w3 with page := { w3.page with
          beatCountText := toString w3.page.beatCount, lastBeat := some env.beatStamp } }
        addLog "Heartbeat sent successfully" env.logStamp env.logDraw w4
      else
        let w2 := updateStatus "error" ("Error: " ++ toString status) w1
        let w3 := addLog ("Heartbeat failed: " ++ toString status) env.logStamp env.logDraw w2
        showNotification "Heartbeat Failed" ("Server returned error: " ++ toString status)
          env.notifyNow w3
    | FetchResult.networkError message =>
      let w2 := updateStatus "error" "Network error" w1
      let w3 := addLog ("Network error: " ++ message) env.logStamp env.logDraw w2
      let w4 := showNotification "Connection Lost"
        "Unable to send heartbeat - check your connection" env.notifyNow w3
      if w4.serviceWorker then
        if w4.syncSupported then
          addLog "Heartbeat queued for background sync" env.queuedStamp env.queuedDraw
            (syncRegister "send-heartbeat" w4)
        else w4
      else w4

/-- The clock readings and the random draw consumed by the `heartbeat-sent`
branch of the page's message listener. -/
structure MessageEnv where
  /-- `new Date()` for the `lastBeat` field -/
  beatStamp : Int
  /-- `new Date()` and `Math.random()` of `addLog` -/
  logStamp : Int
  logDraw : Draw

/-- The `heartbeat-sent` branch of the listener registered on
`navigator.serviceWorker` (`app.js` lines 934-949); the argument is
`event.data.beatCount`. -/
def onHeartbeatSent (beatCount : Option Nat) (env : MessageEnv) (w : World) : World :=
  let w1 :=
    match beatCount with
    | some c => { w with page := { w.page with beatCount := c, beatCountText := toString c } }
    | none => loadBeatCount w
  let w2 := { w1 with page := { w1.page with lastBeat := some env.beatStamp } }
  updateStatus "active" "Connected" (addLog "Background heartbeat sent" env.logStamp env.logDraw w2)

end App

/-! ## Opening the database -/

/-- The object stores after the `onupgradeneeded` callback, which is the same
in `initDB` and in the worker's `openDB`: each of `config`, `logs` and `stats`
is created when it is missing. -/
def createMissingStores (names : List String) : List String :=
  let n1 := if names.contains "config" then names else names ++ ["config"]
  let n2 := if n1.contains "logs" then n1 else n1 ++ ["logs"]
  if n2.contains "stats" then n2 else n2 ++ ["stats"]

/-- Platform side of `indexedDB.open(name, requested)`, after the IndexedDB
standard: a requested version below the database's version fails with a
`VersionError` (`none`); a higher one runs the upgrade callback and sets the
version; an equal one opens the database as it is. -/
def indexedDBOpen (requested : Nat) (onupgradeneeded : List String → List String)
    (d : Database) : Option Database :=
  if requested < d.version then none
  else if d.version < requested then
    some { version := requested, objectStores := onupgradeneeded d.objectStores }
  else some d

/-! ## Background worker (`service-worker.js`) -/

namespace ServiceWorker

/-- The reason of a rejected promise, as far as the worker reads it: the
`statusCode` property, when the error has one. -/
structure Rejection where
  statusCode : Option Nat
  deriving DecidableEq

/-- What running a piece of worker code leaves behind: the world, whether its
promise rejected, and the messages it posted to the clients. -/
structure Outcome where
  world : World
  rejected : Option Rejection
  posted : List ClientMessage
  deriving DecidableEq

/-- `getConfig(db)`: the record under `'settings'`, if any. -/
def getConfig (s : Store) : Option StoredConfig := s.settings

/-- `logActivity(db, message)`: `stamp` is the reading of `new Date()`. -/
def logActivity (message : String) (stamp : Int) (s : Store) : Store :=
  { s with logs := s.logs ++ [⟨message, stamp⟩] }

/-- `getLastActivity(db)`: `request.result || Date.now()`; an absent value and a
stored `0` both give the clock reading `now`. -/
def getLastActivity (now : Int) (s : Store) : Int :=
  match s.lastActivity with
  | some t => if t = 0 then now else t
  | none => now

/-- `incrementBeatCount(db)`: one read-write transaction that reads
`'beatCount'` (`|| 0`), stores the successor and resolves with it. -/
def incrementBeatCount (s : Store) : Store × Nat :=
  let currentCount := s.beatCount.getD 0
  ({ s with beatCount := some (currentCount + 1) }, currentCount + 1)

/-- The worker's `openDB()`: opens `HeartbeatDB` at version 1; the second
component tells whether the promise resolves. -/
def openDB (w : World) : World × Bool :=
  match indexedDBOpen 1 createMissingStores w.database with
  | some d => ({ w with database := d }, true)
  | none => (w, false)

/-- The outcomes and clock readings consumed by one run of the worker's
`sendHeartbeat`, in source order. -/
structure BeatEnv where
  /-- whether the platform's storage is available to `openDB()` at the top of
  the `try` block; the open then resolves exactly when IndexedDB accepts the
  requested version -/
  openOk : Bool
  /-- `Date.now()` inside `getLastActivity` -/
  activityNow : Int
  /-- `Date.now()` of the activity check -/
  now : Int
  /-- outcome of `fetch`, when it is called -/
  fetch : FetchResult
  /-- `new Date()` for the `timestamp` of the posted message -/
  stamp : Int
  /-- `new Date()` inside the `logActivity` call of the `try` block -/
  logStamp : Int
  /-- `error.message` when `openDB()` rejects -/
  openError : String
  /-- whether the platform's storage is available to `openDB()` inside the
  `catch` block -/
  reopenOk : Bool
  /-- `new Date()` inside the `logActivity` call of the `catch` block -/
  errorStamp : Int

/-- The request built by the worker's `sendHeartbeat`: the stored record is
used as it is. -/
def beatRequest (c : StoredConfig) : Request :=
  { url := c.serverUrl ++ "/api/beat", method := "POST",
    headers := [("Auth", c.authToken), ("Device", c.deviceName),
      ("User-Agent", "HeartbeatPWA-ServiceWorker")],
    body := none }

/-- The `catch` block of the worker's `sendHeartbeat` (lines 247-250): the
database is opened again to log the error; if that open fails (the version is
refused, or storage is unavailable), the promise rejects with the database
error, which has no `statusCode`. -/
def sendHeartbeatCatch (env : BeatEnv) (message : String) (w : World) : Outcome :=
  let reopened := openDB w
  if env.reopenOk && reopened.2 then
    let s1 := logActivity ("Background heartbeat error: " ++ message) env.errorStamp
      reopened.1.store
    { world := { reopened.1 with store := s1 }, rejected := none, posted := [] }
  else { world := w, rejected := some { statusCode := none }, posted := [] }

/-- The worker's `sendHeartbeat` (`service-worker.js` lines 194-251). -/
def sendHeartbeat (env : BeatEnv) (w : World) : Outcome :=
  let opened := openDB w
  if !(env.openOk && opened.2) then sendHeartbeatCatch env env.openError w
  else
    let w0 := opened.1
    match getConfig w0.store with
    | none => { world := w0, rejected := none, posted := [] }
    | some config =>
      if !config.enabled then { world := w0, rejected := none, posted := [] }
      else if config.activityDetection &&
          decide (env.now - getLastActivity env.activityNow w0.store > 120000) then
        let s1 := logActivity "No recent activity, skipping background heartbeat"
          env.logStamp w0.store
        { world := { w0 with store := s1 }, rejected := none, posted := [] }
      else
        let w1 := { w0 with requests := w0.requests ++ [beatRequest config] }
        match env.fetch with
        | FetchResult.response status =>
          if responseOk status then
            let s1 := logActivity "Background heartbeat sent successfully" env.logStamp w1.store
            let r := incrementBeatCount s1
            { world := { w1 with store := r.1 }, rejected := none,
              posted := [ClientMessage.heartbeatSent env.stamp "background" (some r.2)] }
          else
            let s1 := logActivity ("Background heartbeat failed: " ++ toString status)
              env.logStamp w1.store
            { world := { w1 with store := s1 }, rejected := none, posted := [] }
        | FetchResult.networkError message => sendHeartbeatCatch env message w1

/-- The `sync` listener (lines 149-153). -/
def onSync (tag : String) (env : BeatEnv) (w : World) : Outcome :=
  if tag = "send-heartbeat" then sendHeartbeat env w
  else { world := w, rejected := none, posted := [] }

/-- `self.registration.showNotification(...)` in the worker: the world after
the call, and the rejection when the platform refuses it. -/
def registrationShowNotification (n : Notice) (w : World) : World × Option Rejection :=
  (platformNotify n w,
    if w.permission = Permission.granted then none else some { statusCode := none })

/-- The `periodicsync` listener (lines 155-170): `sendHeartbeat().then(...)`, the
continuation asking for the notification at clock reading `shownAt`. -/
def onPeriodicSync (tag : String) (env : BeatEnv) (shownAt : Int) (w : World) : Outcome :=
  if tag = "heartbeat-sync" then
    let r := sendHeartbeat env w
    match r.rejected with
    | none =>
      let n : Notice :=
        { title := "Heartbeat Sent", body := "Background heartbeat successfully sent",
          tag := "background-heartbeat", shownAt := shownAt }
      let shown := registrationShowNotification n r.world
      { r with world := shown.1, rejected := shown.2 }
    | some _ => r
  else { world := w, rejected := none, posted := [] }

/-- The payload of a push event: `event.data.json()` throws, or yields an
object whose `type` property may be missing. -/
inductive PushData where
  | invalid
  | json (type : Option String)
  deriving DecidableEq

/-- The `.catch` callback of the `push` listener (lines 360-391), run on the
rejection `error` after an outcome `r`. The subscription's `unsubscribe()` is
taken to succeed. -/
def onPushCatch (error : Rejection) (shownAt : Int) (r : Outcome) : Outcome :=
  let expired := error.statusCode = some 404 ∨ error.statusCode = some 410
  let w1 := if expired then { r.world with pushSubscription := none } else r.world
  let posted :=
    if expired then
      r.posted ++ [ClientMessage.pushSubscriptionExpired
        "Push subscription expired, please re-enable server checks"]
    else r.posted
  let n : Notice :=
    { title := "Server Check Failed", body := "Server-initiated heartbeat failed",
      tag := "server-heartbeat-failed", shownAt := shownAt }
  let shown := registrationShowNotification n w1
  { world := shown.1, rejected := shown.2, posted := posted }

/-- The `push` listener (lines 339-397): `event.data` may be null. The `.catch`
callback follows the `.then` continuation in the chain, so it also receives
the rejection of the continuation's `showNotification`. -/
def onPush (data : Option PushData) (env : BeatEnv) (shownAt : Int) (w : World) : Outcome :=
  match data with
  | none => { world := w, rejected := none, posted := [] }
  | some PushData.invalid => { world := w, rejected := none, posted := [] }
  | some (PushData.json type) =>
    if type = some "heartbeat-request" then
      let r := sendHeartbeat env w
      match r.rejected with
      | none =>
        let n : Notice :=
          { title := "Server Check", body := "Server-initiated heartbeat sent successfully",
            tag := "server-heartbeat", shownAt := shownAt }
        let shown := registrationShowNotification n r.world
        match shown.2 with
        | none => { r with world := shown.1 }
        | some error => onPushCatch error shownAt { r with world := shown.1 }
      | some error => onPushCatch error shownAt r
    else { world := w, rejected := none, posted := [] }

/-- An event woken in the worker that may raise a notification. -/
inductive BackgroundEvent where
  | periodicSync (tag : String) (env : BeatEnv) (shownAt : Int)
  | push (data : Option PushData) (env : BeatEnv) (shownAt : Int)

/-- The world after the worker has handled one event. -/
def handle (w : World) : BackgroundEvent → World
  | BackgroundEvent.periodicSync tag env shownAt => (onPeriodicSync tag env shownAt w).world
  | BackgroundEvent.push data env shownAt => (onPush data env shownAt w).world

/-- The world after the worker has handled a sequence of events, one at a time. -/
def handleAll (w : World) : List BackgroundEvent → World
  | [] => w
  | e :: es => handleAll (handle w e) es

/-- The guard of the worker's `sendHeartbeat` as a predicate: the database
opens, a record is stored, and the run goes on to call `fetch`. -/
def attempts (env : BeatEnv) (w : World) : Bool :=
  env.openOk && (openDB w).2 &&
    (match getConfig w.store with
     | none => false
     | some config =>
       config.enabled &&
         !(config.activityDetection &&
           decide (env.now - getLastActivity env.activityNow w.store > 120000)))

end ServiceWorker

/-! ## Deliveries from both contexts -/

/-- One heartbeat run, in the page or in the worker. For a worker run,
`received` tells whether the page gets the message the worker posts (the page
is among the worker's clients and its listener is registered). -/
inductive Delivery where
  | foreground (env : App.TickEnv)
  | background (env : ServiceWorker.BeatEnv) (received : Bool) (menv : App.MessageEnv)

/-- Whether the page gets the message of a delivery; a foreground run posts none. -/
def Delivery.received : Delivery → Bool
  | Delivery.foreground _ => true
  | Delivery.background _ received _ => received

/-- The world after one run; a `heartbeat-sent` message that is received is
handled by the page right after the worker's run. -/
def deliver (w : World) : Delivery → World
  | Delivery.foreground env => App.sendHeartbeat env w
  | Delivery.background env received menv =>
    let r := ServiceWorker.sendHeartbeat env w
    match r.posted, received with
    | [ClientMessage.heartbeatSent _ _ beatCount], true => App.onHeartbeatSent beatCount menv r.world
    | _, _ => r.world

/-- The run is a successful delivery from world `w`: its guard passes and the
server answers with a 2xx status (for the page, on an open connection). -/
def succeeds (w : World) : Delivery → Bool
  | Delivery.foreground env =>
    w.page.db && App.attempts env.now w.page &&
      (match env.fetch with
       | FetchResult.response status => responseOk status
       | FetchResult.networkError _ => false)
  | Delivery.background env _ _ =>
    ServiceWorker.attempts env w &&
      (match env.fetch with
       | FetchResult.response status => responseOk status
       | FetchResult.networkError _ => false)

/-- The world after a sequence of runs executed one at a time. -/
def deliverAll (w : World) : List Delivery → World
  | [] => w
  | d :: ds => deliverAll (deliver w d) ds

/-- Every run of the sequence is a successful delivery from the world it starts in. -/
def allSucceed (w : World) : List Delivery → Bool
  | [] => true
  | d :: ds => succeeds w d && allSucceed (deliver w d) ds

/-- The stored counter after each run of a sequence, the starting value first.
An absent counter reads as `0`. -/
def storedCounts (w : World) : List Delivery → List Nat
  | [] => [w.store.beatCount.getD 0]
  | d :: ds => w.store.beatCount.getD 0 :: storedCounts (deliver w d) ds

/-- The world as another foreground context of the app (a second tab or
window) has it: the module state and the DOM are those of that context, `p`;
the database, the storage and the platform are shared. -/
def inContext (p : Page) (w : World) : World := { w with page := p }

/-! ## Concrete scenarios -/

/-- The configuration of the delivery scenarios: a server, a token, a device
name, heartbeats enabled, activity detection off. -/
def scenarioConfig : Config :=
  { serverUrl := "https://h.example", authToken := "tok123", deviceName := "dev1",
    vapidPublicKey := "", enabled := true, activityDetection := false, pushEnabled := false }

/-- The record `saveConfig` leaves in the database for `scenarioConfig`, the
token being stored as some ciphertext. -/
def scenarioStored : StoredConfig :=
  { serverUrl := "https://h.example", authToken := "b64:ciphertext", deviceName := "dev1",
    vapidPublicKey := "", enabled := true, activityDetection := false, pushEnabled := false,
    authTokenEncrypted := true, vapidKeyEncrypted := false }

/-- A page loaded at clock reading `1700000000000` with the database open,
running `scenarioConfig`, notifications permitted; the database holds the
matching record and nothing else. -/
def scenarioWorld : World :=
  let w := World.initial 1700000000000 { Store.empty with settings := some scenarioStored }
    Permission.granted
  { w with page := { w.page with db := true, config := scenarioConfig } }

/-- A foreground run started at clock reading `t` with the given network
outcome; the later readings follow `t`, the random draws do not prune. -/
def scenarioTick (t : Int) (fetch : FetchResult) : App.TickEnv :=
  { now := t, fetch := fetch, beatStamp := t + 1, logStamp := t + 2, logDraw := ⟨1, 2⟩,
    notifyNow := t + 3, queuedStamp := t + 4, queuedDraw := ⟨1, 2⟩ }

/-- A worker run started at clock reading `t` with storage available and the
given network outcome. -/
def scenarioBeat (t : Int) (fetch : FetchResult) : ServiceWorker.BeatEnv :=
  { openOk := true, activityNow := t, now := t + 1, fetch := fetch, stamp := t + 2,
    logStamp := t + 3, openError := "", reopenOk := true, errorStamp := t + 4 }

/-! ## The worker's `fetch` listener for `/api/beat` -/

namespace ServiceWorker

/-- The `fetch` listener for a request whose URL contains `/api/beat`
(`service-worker.js` lines 35-77). `network` is the outcome of the worker's own
`fetch(event.request.clone())`, `registers` whether `sync.register` resolves.
The second component is what the page's `fetch` receives: the server's
response, or a response made by the worker (`new Response(...)` has status 200
unless a `status` is given). -/
def onFetchBeat (network : FetchResult) (registers : Bool) (w : World) : World × FetchResult :=
  match network with
  | FetchResult.response status => (w, FetchResult.response status)
  | FetchResult.networkError _ =>
    if w.syncSupported then
      if registers then (syncRegister "send-heartbeat" w, FetchResult.response 200)
      else (w, FetchResult.response 503)
    else (w, FetchResult.response 503)

end ServiceWorker

/-- A foreground tick on a page controlled by the worker: when the tick goes on
to call `fetch`, the request passes through the worker's `fetch` listener, and
the page's `sendHeartbeat` continues with what the listener answers. -/
def tickThroughWorker (env : App.TickEnv) (network : FetchResult) (registers : Bool)
    (w : World) : World :=
  if App.attempts env.now w.page then
    let r := ServiceWorker.onFetchBeat network registers w
    App.sendHeartbeat { env with fetch := r.2 } r.1
  else App.sendHeartbeat env w

/-! ## More concrete scenarios -/

/-- A push subscription carrying both keys. -/
def scenarioSubscription : PushSubscription :=
  { endpoint := "https://push.example/abc", keys := some ⟨"p256dh-key", "auth-key"⟩,
    jsonKeys := some ⟨"p256dh-key", "auth-key"⟩, encoding := none }

/-! ## Base64 (`btoa`, `atob`)

The two platform functions, after RFC 4648 (encoding) and the forgiving-base64
decoding of the HTML standard, on byte sequences: `btoa` here is
`btoa(String.fromCharCode(...bytes))`, `atob` is the byte sequence of the
character codes of `atob(text)`, `none` when `atob` throws. -/

/-- The base64 alphabet. -/
def base64Alphabet : List Char :=
  "ABCDEFGHIJKLMNOPQRSTUVWXYZabcdefghijklmnopqrstuvwxyz0123456789+/".data

/-- The URL-safe base64 alphabet. -/
def base64UrlAlphabet : List Char :=
  "ABCDEFGHIJKLMNOPQRSTUVWXYZabcdefghijklmnopqrstuvwxyz0123456789-_".data

/-- The character of a six-bit value. -/
def base64Char (i : Fin 64) : Char := base64Alphabet.getD i.val 'A'

/-- The URL-safe character of a six-bit value. -/
def base64UrlChar (i : Fin 64) : Char := base64UrlAlphabet.getD i.val 'A'

/-- The six-bit value of a character of the base64 alphabet. -/
def base64Value (c : Char) : Option (Fin 64) :=
  if h : base64Alphabet.indexOf c < 64 then some ⟨base64Alphabet.indexOf c, h⟩ else none

/-- The six-bit groups of a byte sequence, the last group filled with zero bits. -/
def toSextets : Bytes → List (Fin 64)
  | [] => []
  | [a] => [⟨a.val / 4, by omega⟩, ⟨a.val % 4 * 16, by omega⟩]
  | [a, b] =>
    [⟨a.val / 4, by omega⟩, ⟨a.val % 4 * 16 + b.val / 16, by omega⟩,
     ⟨b.val % 16 * 4, by omega⟩]
  | a :: b :: c :: rest =>
    ⟨a.val / 4, by omega⟩ :: ⟨a.val % 4 * 16 + b.val / 16, by omega⟩ ::
      ⟨b.val % 16 * 4 + c.val / 64, by omega⟩ :: ⟨c.val % 64, by omega⟩ :: toSextets rest

/-- The bytes of a sequence of six-bit groups; left-over bits of an incomplete
last group are discarded. -/
def fromSextets : List (Fin 64) → Bytes
  | s0 :: s1 :: s2 :: s3 :: rest =>
    ⟨s0.val * 4 + s1.val / 16, by omega⟩ :: ⟨s1.val % 16 * 16 + s2.val / 4, by omega⟩ ::
      ⟨s2.val % 4 * 64 + s3.val, by omega⟩ :: fromSextets rest
  | [s0, s1, s2] =>
    [⟨s0.val * 4 + s1.val / 16, by omega⟩, ⟨s1.val % 16 * 16 + s2.val / 4, by omega⟩]
  | [s0, s1] => [⟨s0.val * 4 + s1.val / 16, by omega⟩]
  | _ => []

/-- The number of `=` characters that pad the encoding of `n` bytes. -/
def base64Padding (n : Nat) : Nat := (3 - n % 3) % 3

/-- `btoa` of the binary string of a byte sequence. -/
def btoa (bytes : Bytes) : String :=
  String.mk ((toSextets bytes).map base64Char ++ List.replicate (base64Padding bytes.length) '=')

/-- The unpadded URL-safe base64 encoding of a byte sequence. -/
def base64UrlEncode (bytes : Bytes) : String :=
  String.mk ((toSextets bytes).map base64UrlChar)

/-- ASCII whitespace: tab, line feed, form feed, carriage return, space. -/
def isAsciiWhitespace (c : Char) : Bool :=
  c.toNat = 9 || c.toNat = 10 || c.toNat = 12 || c.toNat = 13 || c.toNat = 32

/-- Removes one or two `=` characters from the end of a text. -/
def stripPadding (data : List Char) : List Char :=
  match data.reverse with
  | '=' :: '=' :: rest => rest.reverse
  | '=' :: rest => rest.reverse
  | _ => data

/-- The six-bit values of a text, `none` when a character is outside the alphabet. -/
def base64Values : List Char → Option (List (Fin 64))
  | [] => some []
  | c :: cs =>
    match base64Value c, base64Values cs with
    | some v, some vs => some (v :: vs)
    | _, _ => none

/-- `atob`, as the bytes of its result: ASCII whitespace is removed; when the
length is then a multiple of 4, one or two `=` at the end are removed; a length
of 1 modulo 4 or a character outside the alphabet makes it throw (`none`). -/
def atob (text : String) : Option Bytes :=
  let data := text.data.filter (fun c => !isAsciiWhitespace c)
  let data := if data.length % 4 = 0 then stripPadding data else data
  if data.length % 4 = 1 then none
  else (base64Values data).map fromSextets

namespace App

/-- `urlBase64ToUint8Array(base64String)` (`app.js` lines 830-843): the text is
padded with `=`, every `-` becomes `+` and every `_` becomes `/`, and the
character codes of `window.atob` of the result are the bytes; `none` when
`window.atob` throws. -/
def urlBase64ToUint8Array (base64String : String) : Option Bytes :=
  let padding := String.mk (List.replicate ((4 - base64String.length % 4) % 4) '=')
  let base64 := String.mk
    (((base64String ++ padding).data.map (fun c => if c = '-' then '+' else c)).map
      (fun c => if c = '_' then '/' else c))
  atob base64

end App

/-! ## Secrets codec (`CryptoUtil`, `app.js` lines 20-108) -/

/-- The platform functions `CryptoUtil` rests on, given from outside:
`TextEncoder.encode` and `TextDecoder.decode` (which never throws), AES-GCM
encryption and decryption of `crypto.subtle` under a key and a nonce
(decryption throws, `none`, when the data does not authenticate),
`JSON.stringify` of the JWK export of a key, and the import of such a text
(`none` when `JSON.parse` or `importKey` throws). -/
structure Primitives where
  utf8Encode : String → Bytes
  utf8Decode : Bytes → String
  aesGcmEncrypt : CryptoKey → Bytes → Bytes → Bytes
  aesGcmDecrypt : CryptoKey → Bytes → Bytes → Option Bytes
  exportKey : CryptoKey → String
  importKey : String → Option CryptoKey

namespace CryptoUtil

/-- `CryptoUtil.encrypt(text, key)`: `iv` is the value of
`crypto.getRandomValues(new Uint8Array(12))`. -/
def encrypt (P : Primitives) (text : String) (iv : Bytes) (key : CryptoKey) : String :=
  let data := P.utf8Encode text
  let encrypted := P.aesGcmEncrypt key iv data
  let combined := iv ++ encrypted
  btoa combined

/-- `CryptoUtil.decrypt(encryptedData, key)`: `none` is `null`, returned from
the `catch` block when `atob` or the decryption throws. -/
def decrypt (P : Primitives) (encryptedData : String) (key : CryptoKey) : Option String :=
  match atob encryptedData with
  | none => none
  | some combined =>
    let iv := combined.take 12
    let encrypted := combined.drop 12
    match P.aesGcmDecrypt key iv encrypted with
    | none => none
    | some decrypted => some (P.utf8Decode decrypted)

/-- `CryptoUtil.initializeKey()`: `generated` is the key `generateKey()` yields
when it is called. The result is the world and the key returned. -/
def initializeKey (P : Primitives) (generated : CryptoKey) (w : World) : World × CryptoKey :=
  let imported :=
    match w.localStorage.cryptoKey with
    | some storedKey => if truthy storedKey then P.importKey storedKey else none
    | none => none
  match imported with
  | some key => ({ w with page := { w.page with cryptoKey := some key } }, key)
  | none =>
    ({ w with
       page := { w.page with cryptoKey := some generated },
       localStorage := { w.localStorage with cryptoKey := some (P.exportKey generated) } },
     generated)

end CryptoUtil

/-! ## Configuration manager and heartbeat timer (`app.js` lines 139-243, 343-368, 422-438) -/

namespace App

/-- `startHeartbeat()`: a scheduled timer is cleared, `sendHeartbeat()` is
called (counted in `ticksStarted`), and a new timer of period 60000 ms is
scheduled, `setInterval` returning the handle `nextTimerId`. A handle is truthy
when it is not 0. -/
def startHeartbeat (w : World) : World :=
  let w1 :=
    match w.page.heartbeatInterval with
    | some handle =>
      if handle ≠ 0 then
        { w with timers := w.timers.filter (fun t => t.handle ≠ handle) }
      else w
    | none => w
  let w2 := { w1 with ticksStarted := w1.ticksStarted + 1 }
  let w3 := { w2 with
    timers := w2.timers ++ [{ handle := w2.nextTimerId, period := 60000 }],
    nextTimerId := w2.nextTimerId + 1,
    page := { w2.page with heartbeatInterval := some w2.nextTimerId } }
  updateStatus "active" "Monitoring" w3

/-- `stopHeartbeat()`. -/
def stopHeartbeat (w : World) : World :=
  let w1 :=
    match w.page.heartbeatInterval with
    | some handle =>
      if handle ≠ 0 then
        { w with
          timers := w.timers.filter (fun t => t.handle ≠ handle),
          page := { w.page with heartbeatInterval := none } }
      else w
    | none => w
  updateStatus "inactive" "Disabled" w1

/-- `updateUIFromConfig()`. -/
def updateUIFromConfig (w : World) : World :=
  let w1 := { w with page := { w.page with
    inputServerUrl := w.page.config.serverUrl,
    inputAuthToken := w.page.config.authToken,
    inputDeviceName := w.page.config.deviceName,
    inputVapidPublicKey := w.page.config.vapidPublicKey } }
  let w2 :=
    if w1.page.config.enabled then
      startHeartbeat { w1 with page := { w1.page with enableToggleActive := true } }
    else { w1 with page := { w1.page with enableToggleActive := false } }
  { w2 with page := { w2.page with activityToggleActive := w2.page.config.activityDetection } }

/-- The random values one `saveConfig()` consumes: the key `generateKey()`
yields if no key is set, and the nonces of the two encryptions. -/
structure SaveEnv where
  generated : CryptoKey
  ivAuthToken : Bytes
  ivVapidPublicKey : Bytes

/-- The record `saveConfig` builds for the `config` store: `{ ...config }` with
each non-empty secret replaced by its ciphertext and flagged. -/
def configToSave (P : Primitives) (env : SaveEnv) (key : CryptoKey) (c : Config) :
    StoredConfig :=
  { serverUrl := c.serverUrl,
    authToken :=
      if truthy c.authToken then CryptoUtil.encrypt P c.authToken env.ivAuthToken key
      else c.authToken,
    deviceName := c.deviceName,
    vapidPublicKey :=
      if truthy c.vapidPublicKey then
        CryptoUtil.encrypt P c.vapidPublicKey env.ivVapidPublicKey key
      else c.vapidPublicKey,
    enabled := c.enabled,
    activityDetection := c.activityDetection,
    pushEnabled := c.pushEnabled,
    authTokenEncrypted := truthy c.authToken,
    vapidKeyEncrypted := truthy c.vapidPublicKey }

/-- The record `saveConfig` writes to `localStorage`. -/
def sanitizedConfig (c : Config) : SanitizedConfig :=
  { serverUrl := c.serverUrl, deviceName := c.deviceName, enabled := c.enabled,
    activityDetection := c.activityDetection, pushEnabled := c.pushEnabled }

/-- `saveConfig()`. The second component tells whether the promise resolves:
with no connection `db.transaction` throws, after the key was initialized and
before anything is written. -/
def saveConfig (P : Primitives) (env : SaveEnv) (w : World) : World × Bool :=
  let keyed :=
    match w.page.cryptoKey with
    | some key => (w, key)
    | none => CryptoUtil.initializeKey P env.generated w
  let w1 := keyed.1
  if w1.page.db then
    ({ w1 with
       store := { w1.store with
         settings := some (configToSave P env keyed.2 w1.page.config) },
       localStorage := { w1.localStorage with
         config := some (sanitizedConfig w1.page.config) } },
     true)
  else (w1, false)

/-- The part of `loadConfig()` that reads `localStorage` (lines 181-190). -/
def loadMirror (w : World) : World :=
  match w.localStorage.config with
  | some parsedConfig =>
    { w with page := { w.page with config := { w.page.config with
        serverUrl := parsedConfig.serverUrl,
        deviceName :=
          if truthy parsedConfig.deviceName then parsedConfig.deviceName else "PWA Device",
        enabled := parsedConfig.enabled,
        activityDetection := parsedConfig.activityDetection,
        pushEnabled := parsedConfig.pushEnabled } } }
  | none => w

/-- The body of `request.onsuccess` in `loadConfig()` for a stored record
(lines 200-224): the plain fields are merged, the secrets decrypted, and the
form is refreshed. -/
def loadStored (P : Primitives) (key : CryptoKey) (storedConfig : StoredConfig) (w : World) :
    World :=
  let c := w.page.config
  let authToken :=
    if storedConfig.authTokenEncrypted && truthy storedConfig.authToken then
      (CryptoUtil.decrypt P storedConfig.authToken key).getD ""
    else storedConfig.authToken
  let vapidPublicKey :=
    if storedConfig.vapidKeyEncrypted && truthy storedConfig.vapidPublicKey then
      (CryptoUtil.decrypt P storedConfig.vapidPublicKey key).getD ""
    else storedConfig.vapidPublicKey
  let c1 : Config :=
    { serverUrl := if truthy storedConfig.serverUrl then storedConfig.serverUrl else c.serverUrl,
      deviceName :=
        if truthy storedConfig.deviceName then storedConfig.deviceName else c.deviceName,
      enabled := storedConfig.enabled || c.enabled,
      activityDetection := storedConfig.activityDetection,
      pushEnabled := storedConfig.pushEnabled || c.pushEnabled,
      authToken := authToken,
      vapidPublicKey := vapidPublicKey }
  updateUIFromConfig { w with page := { w.page with config := c1 } }

/-- `loadConfig()`: `generated` is the key `generateKey()` yields if no key is
set or stored. With no connection `db.transaction` throws and the `catch` block
empties the secrets. -/
def loadConfig (P : Primitives) (generated : CryptoKey) (w : World) : World :=
  let keyed :=
    match w.page.cryptoKey with
    | some key => (w, key)
    | none => CryptoUtil.initializeKey P generated w
  let w1 := loadMirror keyed.1
  if w1.page.db then
    let w2 :=
      match w1.store.settings with
      | some storedConfig => loadStored P keyed.2 storedConfig w1
      | none => w1
    refreshLogDisplay (loadBeatCount w2)
  else
    updateUIFromConfig { w1 with page := { w1.page with config := { w1.page.config with
      authToken := "", vapidPublicKey := "" } } }

end App

/-! ## Reloading the page; stand-in primitives for concrete evaluation -/

/-- The page reloaded at clock reading `loadedAt`: module state and form are
those of a fresh page, the timers of the old page are gone; `initDB` has
connected the database and `cryptoKey` holds `key` (`none` before
`initializeKey`). Storage, registration and subscription stay. -/
def freshContext (loadedAt : Int) (key : Option CryptoKey) (w : World) : World :=
  { w with
    page := { Page.initial loadedAt with db := true, cryptoKey := key },
    timers := [] }

/-- Stand-in primitives, for evaluating the code at concrete inputs only: text
is encoded character by character (exact on ASCII), the cipher prepends key
material and nonce to the data and checks them on decryption, keys are
exported as the base64 of their material. -/
def scenarioPrimitives : Primitives :=
  { utf8Encode := fun s => s.data.map (fun c => Fin.ofNat c.toNat),
    utf8Decode := fun b => String.mk (b.map (fun x => Char.ofNat x.val)),
    aesGcmEncrypt := fun key iv data => key.material ++ iv ++ data,
    aesGcmDecrypt := fun key iv encrypted =>
      if (key.material ++ iv).isPrefixOf encrypted then
        some (encrypted.drop (key.material ++ iv).length)
      else none,
    exportKey := fun key => btoa key.material,
    importKey := fun text => (atob text).map CryptoKey.mk }

/-- A key for the concrete scenarios. -/
def scenarioKey : CryptoKey := { material := [1, 2, 3, 4] }

/-- Another key. -/
def otherKey : CryptoKey := { material := [9, 9, 9, 9] }

/-- A 12-byte nonce. -/
def scenarioIv : Bytes := [0, 1, 2, 3, 4, 5, 6, 7, 8, 9, 10, 11]

/-- The random values of a `saveConfig` in the concrete scenarios. -/
def scenarioSave : App.SaveEnv :=
  { generated := scenarioKey, ivAuthToken := scenarioIv, ivVapidPublicKey := scenarioIv }

/-- `scenarioWorld` with `scenarioKey` as the page's key. -/
def scenarioKeyed : World :=
  { scenarioWorld with page := { scenarioWorld.page with cryptoKey := some scenarioKey } }

/-- `scenarioKeyed` with an empty device name. -/
def scenarioUnnamed : World :=
  { scenarioKeyed with page := { scenarioKeyed.page with
      config := { scenarioConfig with deviceName := "" } } }

/-! ## Page startup -/

namespace App

/-- `initDB()`: opens `HeartbeatDB` at version 2; the second component tells
whether the promise resolves. -/
def initDB (w : World) : World × Bool :=
  match indexedDBOpen 2 createMissingStores w.database with
  | some d => ({ w with database := d, page := { w.page with db := true } }, true)
  | none => (w, false)

/-- The `DOMContentLoaded` listener as far as it drives the heartbeat engine
(lines 992-994 and 1114-1116): `initDB`, `initializeKey`, `loadConfig`, and
`startHeartbeat` when the loaded configuration is enabled. When `initDB`
rejects, the listener stops there. The registration of the input listeners,
the button captions and `registerPeriodicSync` (lines 996-1112, 1118-1122) are
not part of this definition. -/
def onDOMContentLoaded (P : Primitives) (generated : CryptoKey) (w : World) : World :=
  let opened := initDB w
  if opened.2 then
    let w1 := (CryptoUtil.initializeKey P generated opened.1).1
    let w2 := loadConfig P generated w1
    if w2.page.config.enabled then startHeartbeat w2 else w2
  else opened.1

/-- A call of `startHeartbeat` or of `stopHeartbeat`. -/
inductive TimerCall where
  | start
  | stop
  deriving DecidableEq

/-- The world after one such call. -/
def timerCall (w : World) : TimerCall → World
  | TimerCall.start => startHeartbeat w
  | TimerCall.stop => stopHeartbeat w

/-- The world after a sequence of such calls. -/
def timerCalls (w : World) : List TimerCall → World
  | [] => w
  | c :: cs => timerCalls (timerCall w c) cs

/-- The timers of the page are consistent: the scheduled timers are exactly
the one whose handle `heartbeatInterval` holds, of period 60000 ms, and handles
are positive, as `setInterval` returns them. -/
def TimersConsistent (w : World) : Prop :=
  w.timers = (w.page.heartbeatInterval.map (fun h => ({ handle := h, period := 60000 } : Timer))
    ).toList ∧
  0 < w.nextTimerId ∧ ∀ h, w.page.heartbeatInterval = some h → 0 < h

end App

/-- The page loaded anew at clock reading `loadedAt`: module state and form are
those of a fresh page, and the timers of the old page are gone. -/
def reload (loadedAt : Int) (w : World) : World :=
  { w with page := Page.initial loadedAt, timers := [] }

/-- A first visit: a fresh page, no database yet, nothing in any storage. -/
def scenarioFirstVisit : World :=
  { World.initial 1700000000000 Store.empty Permission.granted with
    database := { version := 0, objectStores := [] } }

/-- The world an earlier visit leaves behind: `scenarioWorld` after a
`saveConfig` of `scenarioConfig` under `scenarioKey` (with the stand-in
primitives), with a stored beat count of 7. -/
def scenarioEarlierVisit : World :=
  { scenarioWorld with
    store := { scenarioWorld.store with
      settings := some (App.configToSave scenarioPrimitives scenarioSave scenarioKey
        scenarioConfig),
      beatCount := some 7 },
    localStorage :=
      { cryptoKey := some (scenarioPrimitives.exportKey scenarioKey),
        config := some (App.sanitizedConfig scenarioConfig) } }

/-- A later visit: the page loaded anew on `scenarioEarlierVisit`. -/
def scenarioRevisit : World :=
  reload 1700000500000 scenarioEarlierVisit
/-! ## Push subscription manager (`app.js` lines 602-828) -/

/-- How a part of an `async` function ends: it completes with a value, the
function returns `null`, an exception reaches the enclosing `catch` with the
given message, or an awaited promise never settles. -/
inductive Completion (α : Type) where
  | value (a : α)
  | returned
  | threw (message : String)
  | pending

/-- The keys the page reads off a subscription: its `keys` property, or, when
that is missing, the `keys` of its JSON form. -/
def effectiveKeys (s : PushSubscription) : Option SubscriptionKeys :=
  match s.keys with
  | some k => some k
  | none => s.jsonKeys

/-- Platform side of `subscription.unsubscribe()`: the registration has no
subscription any more. -/
def unsubscribeBrowser (s : PushSubscription) (w : World) : World :=
  { w with
    pushSubscription := none,
    pushTrace := w.pushTrace ++ [PushOp.unsubscribe s.endpoint] }

/-- The subscription carries both keys: the conditions of lines 676, 680 and
750 all fail. -/
def hasBothKeys (s : PushSubscription) : Bool :=
  match effectiveKeys s with
  | some keys => truthy keys.p256dh && truthy keys.auth
  | none => false

/-- Nothing was sent, configured or saved between `w` and `v`: the
configuration, the connection, the key, the stored record, `localStorage` and
the requests are the same. -/
structure Unsent (w v : World) : Prop where
  config : v.page.config = w.page.config
  db : v.page.db = w.page.db
  cryptoKey : v.page.cryptoKey = w.page.cryptoKey
  settings : v.store.settings = w.store.settings
  stored : v.localStorage = w.localStorage
  requests : v.requests = w.requests

namespace App

/-- What one run of `subscribeToPushNotifications` or of
`unsubscribeFromPushNotifications` takes from outside. `stamp` and `draw` give
the reading of `new Date()` and the value of `Math.random()` of the `addLog`
call at each call site (the sites are numbered in source order; no site is in a
loop). `registered` is what `serviceWorker.register` yields, `activates`
whether the worker being waited for ever becomes active, `keysSupported` the
value of `'keys' in PushSubscription.prototype`, `created` what
`pushManager.subscribe` yields, `fetch` the outcome of the request to the
server and `errorText` the body of its response, `save` the random values of
`saveConfig` and `saveError` the message of its rejection, `convertError` the
message of the error `atob` throws, `typeError` the message of the error of a
property access on `undefined`; the remaining fields are the texts of
`Object.keys(subscription).join(', ')`, `JSON.stringify(subscription, null, 2)`,
`JSON.stringify(Object.keys(subscription.keys))` and `JSON.stringify(keys)`. -/
structure PushEnv where
  stamp : Nat → Int
  draw : Nat → Draw
  registered : Except String SwRegistration
  activates : Bool
  keysSupported : Bool
  created : Except String PushSubscription
  fetch : FetchResult
  errorText : String
  save : SaveEnv
  saveError : String
  convertError : String
  typeError : String
  objectKeysText : String
  subscriptionJson : String
  keyNamesJson : String
  keysJson : String

/-- The `addLog` call at call site `site`. -/
def PushEnv.log (env : PushEnv) (site : Nat) (message : String) (w : World) : World :=
  addLog message (env.stamp site) (env.draw site) w

/-- The text `'present'` or `'missing'` for a string. -/
def presence (s : String) : String := if truthy s then "present" else "missing"

/-- The wait for the worker to become active (lines 623-632 and 645-654): the
promise resolves at once when the registration has an active worker or the
page is controlled, after some polls when the worker activates, and never
otherwise. -/
def awaitActive (env : PushEnv) (registration : SwRegistration) (w : World) :
    World × Completion SwRegistration :=
  if registration.active || w.controller then (w, Completion.value registration)
  else if env.activates then
    let activated : SwRegistration := { active := true, waiting := false }
    ({ w with registration := some activated }, Completion.value activated)
  else (w, Completion.pending)

/-- Lines 608-655 of `subscribeToPushNotifications`: the registration is
obtained and, if need be, its worker awaited. `serviceWorker.ready` on a page
without a registration never settles. The `SKIP_WAITING` message to a waiting
worker (lines 640-643) has no effect of its own here: whether the worker
activates is `activates`. -/
def obtainRegistration (env : PushEnv) (w : World) : World × Completion SwRegistration :=
  let w1 := env.log 2 "Getting service worker registration..." w
  let w2 := if w1.controller then env.log 3 "Service worker already controlling page" w1 else w1
  match w2.registration with
  | none =>
    if w2.controller then (w2, Completion.pending)
    else
      let w3 := env.log 4 "No service worker found, registering..." w2
      match env.registered with
      | Except.error message => (w3, Completion.threw message)
      | Except.ok registration =>
        let w4 := env.log 5 "Service worker registered, waiting for activation..."
          { w3 with registration := some registration }
        awaitActive env registration w4
  | some registration =>
    if registration.active || w2.controller then
      (env.log 6 "Service worker already active" w2, Completion.value registration)
    else
      awaitActive env registration (env.log 7 "Waiting for service worker to activate..." w2)

/-- Lines 608-656: the registration is obtained, then `Service worker ready` is
logged. -/
def acquireRegistration (env : PushEnv) (w : World) : World × Completion SwRegistration :=
  match obtainRegistration env w with
  | (w1, Completion.value registration) =>
    (env.log 8 "Service worker ready" w1, Completion.value registration)
  | (w1, Completion.returned) => (w1, Completion.returned)
  | (w1, Completion.threw message) => (w1, Completion.threw message)
  | (w1, Completion.pending) => (w1, Completion.pending)

/-- Lines 658-688: the existing subscription is looked up and kept only when it
carries both keys; otherwise it is unsubscribed. The second component is the
variable `subscription` afterwards. -/
def checkExisting (env : PushEnv) (w : World) : World × Option PushSubscription :=
  let w1 := env.log 9 "Checking existing subscription..." w
  let w2 := env.log 10
    ("Existing subscription: " ++ (if w1.pushSubscription.isSome then "found" else "none")) w1
  match w2.pushSubscription with
  | none => (w2, none)
  | some subscription =>
    match effectiveKeys subscription with
    | none =>
      let w3 := env.log 11
        "Existing subscription missing keys object - clearing invalid subscription" w2
      (unsubscribeBrowser subscription w3, none)
    | some existingKeys =>
      if !truthy existingKeys.p256dh || !truthy existingKeys.auth then
        let w3 := env.log 12
          ("Existing subscription missing required keys (p256dh: " ++
            presence existingKeys.p256dh ++ ", auth: " ++ presence existingKeys.auth ++
            ") - clearing invalid subscription") w2
        (unsubscribeBrowser subscription w3, none)
      else (env.log 13 "Existing subscription has valid keys" w2, some subscription)

/-- Lines 690-732: a new subscription is created (the branch `!subscription`). -/
def createSubscription (env : PushEnv) (w : World) : World × Completion PushSubscription :=
  if !truthy w.page.config.vapidPublicKey then
    (env.log 14
      "VAPID public key required for push notifications - please configure in settings" w,
      Completion.returned)
  else
    let w1 := env.log 15
      ("VAPID key configured, subscribing... (key: " ++ w.page.config.vapidPublicKey.take 20 ++
        "...)") w
    match urlBase64ToUint8Array w1.page.config.vapidPublicKey with
    | none =>
      (env.log 23 ("Push subscription creation failed: " ++ env.convertError) w1,
        Completion.returned)
    | some applicationServerKey =>
      let w2 := env.log 16
        ("VAPID key converted successfully (length: " ++ toString applicationServerKey.length ++
          ")") w1
      let w3 :=
        if env.keysSupported then w2
        else env.log 17 "Warning: Browser does not support subscription keys" w2
      let w4 := { w3 with pushTrace := w3.pushTrace ++ [PushOp.subscribe applicationServerKey] }
      match env.created with
      | Except.error message =>
        (env.log 23 ("Push subscription creation failed: " ++ message) w4, Completion.returned)
      | Except.ok subscription =>
        let w5 := { w4 with pushSubscription := some subscription }
        let w6 := env.log 18
          ("Push subscription created - endpoint: " ++ presence subscription.endpoint) w5
        let w7 := env.log 19
          ("Push subscription keys present: " ++
            (if subscription.keys.isSome then "yes" else "no")) w6
        let w8 := env.log 20 ("Full subscription object keys: " ++ env.objectKeysText) w7
        let w9 :=
          match subscription.keys with
          | some keys =>
            env.log 21
              ("Keys details: p256dh=" ++ presence keys.p256dh ++ ", auth=" ++
                presence keys.auth) w8
          | none => env.log 22 ("Subscription properties: " ++ env.subscriptionJson) w8
        (env.log 24 "Browser push subscription successful" w9, Completion.value subscription)

/-- The request of lines 758-771. -/
def pushSubscribeRequest (c : Config) (subscription : PushSubscription)
    (keys : SubscriptionKeys) : Request :=
  { url := c.serverUrl ++ "/api/push-subscribe", method := "POST",
    headers := [("Content-Type", "application/json"), ("Auth", c.authToken),
      ("Device", c.deviceName)],
    body := some (RequestBody.pushSubscribe subscription.endpoint keys
      (match subscription.encoding with
        | some encoding => if truthy encoding then encoding else "aes128gcm"
        | none => "aes128gcm")
      c.deviceName) }

/-- Lines 734-747: the debug logs before the keys are validated. -/
def describeSubscription (env : PushEnv) (subscription : PushSubscription) (w : World) :
    World :=
  let w1 := env.log 26 ("Subscription endpoint: " ++ presence subscription.endpoint) w
  let w2 := env.log 27
    ("Subscription keys: " ++ (if subscription.keys.isSome then env.keyNamesJson else "missing"))
    w1
  if subscription.keys.isSome then w2
  else env.log 28
    ("Extracted keys from subscription object: " ++
      (if subscription.jsonKeys.isSome then "success" else "failed")) w2

/-- Lines 774-777: after a 2xx answer `pushEnabled` is set and saved, and the
subscription is returned; a rejection of `saveConfig` reaches the `catch`. -/
def confirmSubscription (P : Primitives) (env : PushEnv) (subscription : PushSubscription)
    (w : World) : World × Completion PushSubscription :=
  let w1 := env.log 33 "Push subscription registered with server" w
  let w2 := { w1 with page := { w1.page with
    config := { w1.page.config with pushEnabled := true } } }
  let saved := saveConfig P env.save w2
  if saved.2 then (saved.1, Completion.value subscription)
  else (saved.1, Completion.threw env.saveError)

/-- Lines 734-782: the keys are extracted and validated, the subscription is
sent to the server, and on a 2xx answer `pushEnabled` is set and saved. -/
def registerWithServer (P : Primitives) (env : PushEnv) (subscription : PushSubscription)
    (w : World) : World × Completion PushSubscription :=
  let w3 := describeSubscription env subscription w
  match effectiveKeys subscription with
  | none => (env.log 30 ("Invalid subscription keys: " ++ env.keysJson) w3, Completion.returned)
  | some keys =>
    if !truthy keys.p256dh || !truthy keys.auth then
      (env.log 30 ("Invalid subscription keys: " ++ env.keysJson) w3, Completion.returned)
    else
      let w4 := env.log 31
        ("Keys validation passed - p256dh: " ++ presence keys.p256dh ++ ", auth: " ++
          presence keys.auth) w3
      let w5 := env.log 32 "Registering subscription with server..." w4
      let w6 := { w5 with
        requests := w5.requests ++ [pushSubscribeRequest w5.page.config subscription keys] }
      match env.fetch with
      | FetchResult.networkError message => (w6, Completion.threw message)
      | FetchResult.response status =>
        if responseOk status then confirmSubscription P env subscription w6
        else
          (env.log 34
            ("Failed to register push subscription: " ++ toString status ++ " - " ++
              env.errorText) w6,
            Completion.returned)

/-- The `try` block of `subscribeToPushNotifications` (lines 608-782). -/
def subscribeBody (P : Primitives) (env : PushEnv) (w : World) :
    World × Completion PushSubscription :=
  match acquireRegistration env w with
  | (w1, Completion.value _) =>
    (match checkExisting env w1 with
     | (w2, some subscription) =>
       registerWithServer P env subscription
         (env.log 25 "Using existing push subscription" w2)
     | (w2, none) =>
       match createSubscription env w2 with
       | (w3, Completion.value subscription) => registerWithServer P env subscription w3
       | (w3, Completion.returned) => (w3, Completion.returned)
       | (w3, Completion.threw message) => (w3, Completion.threw message)
       | (w3, Completion.pending) => (w3, Completion.pending))
  | (w1, Completion.returned) => (w1, Completion.returned)
  | (w1, Completion.threw message) => (w1, Completion.threw message)
  | (w1, Completion.pending) => (w1, Completion.pending)

/-- `subscribeToPushNotifications()`. The second component is `none` when the
promise never settles, `some none` when it resolves with `null`, and
`some (some s)` when it resolves with the subscription `s`. -/
def subscribeToPushNotifications (P : Primitives) (env : PushEnv) (w : World) :
    World × Option (Option PushSubscription) :=
  if !w.serviceWorker || !w.pushManager then
    (env.log 1 "Push notifications not supported" w, some none)
  else
    match subscribeBody P env w with
    | (v, Completion.value subscription) => (v, some (some subscription))
    | (v, Completion.returned) => (v, some none)
    | (v, Completion.threw message) =>
      (env.log 35 ("Push subscription error: " ++ message) v, some none)
    | (v, Completion.pending) => (v, none)

/-- The request of lines 804-815. -/
def pushUnsubscribeRequest (c : Config) (subscription : PushSubscription) : Request :=
  { url := c.serverUrl ++ "/api/push-unsubscribe", method := "POST",
    headers := [("Content-Type", "application/json"), ("Auth", c.authToken),
      ("Device", c.deviceName)],
    body := some (RequestBody.pushUnsubscribe subscription.endpoint c.deviceName) }

/-- Lines 818-820 of `unsubscribeFromPushNotifications`, with the `catch` block
for a rejection of `saveConfig`. -/
def finishUnsubscribe (P : Primitives) (env : PushEnv) (w : World) : World :=
  let w1 := env.log 37 "Unsubscribed from push notifications" w
  let w2 := { w1 with page := { w1.page with
    config := { w1.page.config with pushEnabled := false } } }
  let saved := saveConfig P env.save w2
  if saved.2 then saved.1
  else env.log 38 ("Push unsubscribe error: " ++ env.saveError) saved.1

/-- `unsubscribeFromPushNotifications()` (lines 790-828). Without
`navigator.serviceWorker` the first line throws. -/
def unsubscribeFromPushNotifications (P : Primitives) (env : PushEnv) (w : World) : World :=
  if !w.serviceWorker then env.log 38 ("Push unsubscribe error: " ++ env.typeError) w
  else
    match w.registration with
    | none => env.log 36 "No service worker found for unsubscribe" w
    | some _ =>
      match w.pushSubscription with
      | none => w
      | some subscription =>
        let w1 := unsubscribeBrowser subscription w
        if truthy w1.page.config.serverUrl && truthy w1.page.config.authToken then
          let w2 := { w1 with
            requests := w1.requests ++ [pushUnsubscribeRequest w1.page.config subscription] }
          match env.fetch with
          | FetchResult.response _ => finishUnsubscribe P env w2
          | FetchResult.networkError message =>
            env.log 38 ("Push unsubscribe error: " ++ message) w2
        else finishUnsubscribe P env w1

end App

/-- Readings and platform answers for the push scenarios: every log at clock
reading `t`, no pruning, the worker activates, the browser supports keys and
yields the given subscription, the server answers as given. -/
def scenarioPush (t : Int) (created : Except String PushSubscription) (fetch : FetchResult) :
    App.PushEnv :=
  { stamp := fun _ => t, draw := fun _ => ⟨1, 2⟩,
    registered := Except.ok { active := true, waiting := false },
    activates := true, keysSupported := true, created := created, fetch := fetch,
    errorText := "", save := scenarioSave, saveError := "db is null",
    convertError := "invalid character", typeError := "undefined is not an object",
    objectKeysText := "", subscriptionJson := "", keyNamesJson := "", keysJson := "" }

/-- A subscription without the `auth` key. -/
def scenarioSubscriptionNoAuth : PushSubscription :=
  { endpoint := "https://push.example/old", keys := none,
    jsonKeys := some ⟨"p256dh-key", ""⟩, encoding := none }

/-- `scenarioKeyed` with a VAPID public key configured (the base64url text of
the bytes 1, 2, 3), holding the subscription without the `auth` key. -/
def scenarioStaleSubscription : World :=
  { scenarioKeyed with
    page := { scenarioKeyed.page with
      config := { scenarioConfig with vapidPublicKey := "AQID" } },
    pushSubscription := some scenarioSubscriptionNoAuth }

/-- `scenarioKeyed` holding `scenarioSubscription`, with `pushEnabled` set in
the page, in the stored record and in the `localStorage` record. -/
def scenarioPushEnabled : World :=
  { scenarioKeyed with
    page := { scenarioKeyed.page with
      config := { scenarioConfig with pushEnabled := true } },
    store := { scenarioKeyed.store with
      settings := some { scenarioStored with pushEnabled := true } },
    localStorage := { scenarioKeyed.localStorage with
      config := some (App.sanitizedConfig { scenarioConfig with pushEnabled := true }) },
    pushSubscription := some scenarioSubscription }

/-! # Properties -/

/-! ## Effect summaries

Each helper written as one record update of the world it is given: the fields
it can change, and what it puts there. -/

theorem platformNotify_eq (n : Notice) (w : World) :
    platformNotify n w = { w with notifications :=
      if w.permission = Permission.granted then w.notifications ++ [n] else w.notifications } := by
  unfold platformNotify; split_ifs <;> rfl

theorem syncRegister_eq (tag : String) (w : World) :
    syncRegister tag w = { w with syncTags :=
      if tag ∈ w.syncTags then w.syncTags else w.syncTags ++ [tag] } := by
  unfold syncRegister; split_ifs <;> rfl

/-- The worker's open touches the database's version and object stores only. -/
theorem ServiceWorker.openDB_frame (w : World) :
    ∃ d, (ServiceWorker.openDB w).1 = { w with database := d } := by
  unfold ServiceWorker.openDB
  cases indexedDBOpen 1 createMissingStores w.database with
  | none => exact ⟨w.database, rfl⟩
  | some d => exact ⟨d, rfl⟩

/-- The worker's open resolves exactly on a database of version 0 or 1. -/
theorem ServiceWorker.openDB_ok (w : World) :
    (ServiceWorker.openDB w).2 = decide (w.database.version ≤ 1) := by
  unfold ServiceWorker.openDB indexedDBOpen
  by_cases h1 : 1 < w.database.version
  · have h3 : ¬ w.database.version ≤ 1 := by omega
    simp [h1, h3]
  · have h3 : w.database.version ≤ 1 := by omega
    by_cases h2 : w.database.version < 1 <;> simp [h1, h2, h3]

namespace App

theorem loadBeatCount_eq (w : World) :
    loadBeatCount w = { w with page := { w.page with
      beatCount := if w.page.db = true then w.store.beatCount.getD w.page.beatCount
        else w.page.beatCount,
      beatCountText := if w.page.db = true then
          (match w.store.beatCount with
            | some c => toString c
            | none => w.page.beatCountText)
        else w.page.beatCountText } } := by
  unfold loadBeatCount
  split_ifs
  · cases h : w.store.beatCount <;> rfl
  · rfl

theorem saveBeatCount_eq (w : World) :
    saveBeatCount w = { w with store := { w.store with
      beatCount := if w.page.db = true then some w.page.beatCount else w.store.beatCount } } := by
  unfold saveBeatCount; split_ifs <;> rfl

theorem refreshLogDisplay_eq (w : World) :
    refreshLogDisplay w = { w with page := { w.page with
      logEntries := if w.page.db = true then recentLogs w.store.logs else w.page.logEntries } } := by
  unfold refreshLogDisplay; split_ifs <;> rfl

theorem cleanOldLogs_eq (w : World) :
    cleanOldLogs w = { w with store := { w.store with
      logs := if w.page.db = true then pruneLogs w.store.logs else w.store.logs } } := by
  unfold cleanOldLogs; split_ifs <;> rfl

/-- `addLog` as one update of the `logs` store and of the log panel. -/
theorem addLog_eq (m : String) (t : Int) (d : Draw) (w : World) :
    addLog m t d w =
      { w with
        store := { w.store with
          logs := if w.page.db = true then
              (if d.lt 5 100 then pruneLogs (w.store.logs ++ [⟨m, t⟩])
                else w.store.logs ++ [⟨m, t⟩])
            else w.store.logs },
        page := { w.page with
          logEntries := if w.page.db = true then
              recentLogs (if d.lt 5 100 then pruneLogs (w.store.logs ++ [⟨m, t⟩])
                else w.store.logs ++ [⟨m, t⟩])
            else w.page.logEntries } } := by
  unfold addLog
  simp only [refreshLogDisplay_eq, cleanOldLogs_eq]
  split_ifs <;> simp_all

theorem showNotification_eq (title body : String) (now : Int) (w : World) :
    showNotification title body now w =
      { w with
        showNotificationCalls := w.showNotificationCalls ++ [(title, body)],
        page := { w.page with
          lastNotificationTime :=
            if w.permission = Permission.granted ∧ ¬ now - w.page.lastNotificationTime < 30000
            then now else w.page.lastNotificationTime },
        notifications :=
          if w.permission = Permission.granted ∧ ¬ now - w.page.lastNotificationTime < 30000
          then w.notifications ++ [{
            title := title, body := body,
            tag := if w.serviceWorker = true then "heartbeat-alert" else "", shownAt := now }]
          else w.notifications } := by
  unfold showNotification
  simp only [platformNotify_eq]
  split_ifs <;> simp_all

/-- The guard of `sendHeartbeat`, spelled out. -/
theorem attempts_iff (now : Int) (p : Page) :
    attempts now p = true ↔
      (p.config.enabled = true ∧ p.config.serverUrl ≠ "" ∧ p.config.authToken ≠ "" ∧
        (p.config.activityDetection = false ∨ now - p.lastActivity ≤ 120000)) := by
  simp only [attempts, truthy, Bool.and_eq_true, Bool.not_eq_true', bne_iff_ne, ne_eq,
    Bool.and_eq_false_imp, decide_eq_false_iff_not, not_lt, decide_eq_true_eq, and_assoc]
  constructor
  · rintro ⟨h1, h2, h3, h4⟩
    refine ⟨h1, h2, h3, ?_⟩
    cases had : p.config.activityDetection
    · exact Or.inl rfl
    · exact Or.inr (by have := h4 had; omega)
  · rintro ⟨h1, h2, h3, h4⟩
    refine ⟨h1, h2, h3, ?_⟩
    intro had
    rcases h4 with h4 | h4
    · simp [had] at h4
    · omega

/-- A tick whose guard fails leaves the world alone or only logs the skip. -/
theorem sendHeartbeat_of_not_attempts (env : TickEnv) (w : World)
    (h : attempts env.now w.page = false) :
    sendHeartbeat env w = w ∨
      sendHeartbeat env w =
        addLog "No recent activity, skipping heartbeat" env.logStamp env.logDraw w := by
  unfold sendHeartbeat
  by_cases hg : (!w.page.config.enabled || !truthy w.page.config.serverUrl ||
      !truthy w.page.config.authToken) = true
  · left; rw [if_pos hg]
  · right
    rw [if_neg hg]
    have hs : (w.page.config.activityDetection &&
        decide (env.now - w.page.lastActivity > 120000)) = true := by
      simp only [attempts] at h
      simp only [Bool.or_eq_true, Bool.not_eq_true', not_or, Bool.not_eq_false] at hg
      obtain ⟨⟨h1, h2⟩, h3⟩ := hg
      simpa [h1, h2, h3] using h
    rw [if_pos hs]

/-- A tick whose guard passes hands the request to `fetch` and branches on the
outcome. -/
theorem sendHeartbeat_of_attempts (env : TickEnv) (w : World)
    (h : attempts env.now w.page = true) :
    sendHeartbeat env w =
      (let w1 := { w with requests := w.requests ++ [beatRequest w.page.config] }
       match env.fetch with
       | FetchResult.response status =>
         if responseOk status then
           let w2 := { w1 with page := { w1.page with beatCount := w1.page.beatCount + 1 } }
           let w3 := updateStatus "active" "Connected" (saveBeatCount w2)
           let w4 := { w3 with page := { w3.page with
             beatCountText := toString w3.page.beatCount, lastBeat := some env.beatStamp } }
           addLog "Heartbeat sent successfully" env.logStamp env.logDraw w4
         else
           let w2 := updateStatus "error" ("Error: " ++ toString status) w1
           let w3 := addLog ("Heartbeat failed: " ++ toString status) env.logStamp env.logDraw w2
           showNotification "Heartbeat Failed" ("Server returned error: " ++ toString status)
             env.notifyNow w3
       | FetchResult.networkError message =>
         let w2 := updateStatus "error" "Network error" w1
         let w3 := addLog ("Network error: " ++ message) env.logStamp env.logDraw w2
         let w4 := showNotification "Connection Lost"
           "Unable to send heartbeat - check your connection" env.notifyNow w3
         if w4.serviceWorker then
           if w4.syncSupported then
             addLog "Heartbeat queued for background sync" env.queuedStamp env.queuedDraw
               (syncRegister "send-heartbeat" w4)
           else w4
         else w4) := by
  simp only [attempts, Bool.and_eq_true, Bool.not_eq_true'] at h
  obtain ⟨⟨⟨h1, h2⟩, h3⟩, h4⟩ := h
  unfold sendHeartbeat
  rw [if_neg (by simp [h1, h2, h3]), if_neg (by simp [h4])]

/-- C1: the foreground `sendHeartbeat` hands the POST to `{serverUrl}/api/beat`
to `fetch` exactly when `enabled` holds, `serverUrl` and `authToken` are
non-empty and (activity detection is off or at most 120000 ms have passed since
the last activity); when it does not, the in-memory and the stored beat counter
are unchanged; in particular with activity detection on and an activity
timestamp older than 120 s no request is made and neither counter moves,
whatever `enabled` is. -/
theorem sendHeartbeat_posts_iff (env : TickEnv) (w : World) :
    (sendHeartbeat env w).requests =
      (if w.page.config.enabled = true ∧ w.page.config.serverUrl ≠ "" ∧
          w.page.config.authToken ≠ "" ∧
          (w.page.config.activityDetection = false ∨ env.now - w.page.lastActivity ≤ 120000)
        then w.requests ++
          [{ url := w.page.config.serverUrl ++ "/api/beat", method := "POST",
             headers := [("Auth", w.page.config.authToken),
               ("Device", w.page.config.deviceName)],
             body := none }]
        else w.requests) ∧
    ((sendHeartbeat env w).requests = w.requests →
        (sendHeartbeat env w).page.beatCount = w.page.beatCount ∧
        (sendHeartbeat env w).store.beatCount = w.store.beatCount) ∧
    (w.page.config.activityDetection = true → env.now - w.page.lastActivity > 120000 →
        (sendHeartbeat env w).requests = w.requests ∧
        (sendHeartbeat env w).page.beatCount = w.page.beatCount ∧
        (sendHeartbeat env w).store.beatCount = w.store.beatCount) := by
  have hyes : attempts env.now w.page = true → (sendHeartbeat env w).requests =
      w.requests ++ [beatRequest w.page.config] := by
    intro h
    rw [sendHeartbeat_of_attempts env w h]
    cases hf : env.fetch with
    | response status =>
      by_cases hok : responseOk status = true <;>
        simp [hok, addLog_eq, showNotification_eq, saveBeatCount_eq, updateStatus]
    | networkError message =>
      simp only [addLog_eq, showNotification_eq, syncRegister_eq, updateStatus]
      split_ifs <;> rfl
  have hno : attempts env.now w.page = false → (sendHeartbeat env w).requests = w.requests ∧
        (sendHeartbeat env w).page.beatCount = w.page.beatCount ∧
        (sendHeartbeat env w).store.beatCount = w.store.beatCount := by
    intro h
    rcases sendHeartbeat_of_not_attempts env w h with e | e <;> rw [e] <;> simp [addLog_eq]
  refine ⟨?_, ?_, ?_⟩
  · by_cases h : attempts env.now w.page = true
    · rw [if_pos ((attempts_iff _ _).mp h), hyes h]; rfl
    · rw [if_neg (fun hc => h ((attempts_iff _ _).mpr hc))]
      exact (hno (by simpa using h)).1
  · intro hreq
    by_cases h : attempts env.now w.page = true
    · rw [hyes h] at hreq
      simp at hreq
    · exact (hno (by simpa using h)).2
  · intro had hold
    apply hno
    cases h : attempts env.now w.page
    · rfl
    · rcases ((attempts_iff _ _).mp h).2.2.2 with h4 | h4
      · simp [had] at h4
      · omega

/-- C1, at a concrete input: heartbeats enabled, activity detection on and the
last activity 200 s old: nothing is requested and no counter moves. -/
theorem sendHeartbeat_posts_iff_witness :
    (sendHeartbeat (scenarioTick 1700000200000 (FetchResult.response 200))
        { scenarioWorld with page := { scenarioWorld.page with
            config := { scenarioConfig with activityDetection := true } } }).requests = [] ∧
    (sendHeartbeat (scenarioTick 1700000200000 (FetchResult.response 200))
        { scenarioWorld with page := { scenarioWorld.page with
            config := { scenarioConfig with activityDetection := true } } }).page.beatCount = 0 ∧
    (sendHeartbeat (scenarioTick 1700000200000 (FetchResult.response 200))
        { scenarioWorld with page := { scenarioWorld.page with
            config := { scenarioConfig with activityDetection := true } } }).store.beatCount
      = none :=
  (sendHeartbeat_posts_iff (scenarioTick 1700000200000 (FetchResult.response 200))
    { scenarioWorld with page := { scenarioWorld.page with
        config := { scenarioConfig with activityDetection := true } } }).2.2 rfl (by decide)

/-- C2: when the tick attempts delivery on an open database connection and the
server answers `/api/beat` with a 2xx status, `sendHeartbeat` increments the
in-memory beat counter by exactly 1, stores the new value under `'beatCount'`,
sets the status to active / `Connected`, and appends the log entry
`Heartbeat sent successfully` (`addLog` then prunes the store when its draw is
below 0.05). -/
theorem sendHeartbeat_success (env : TickEnv) (w : World) (status : Nat)
    (hgo : attempts env.now w.page = true) (hdb : w.page.db = true)
    (hf : env.fetch = FetchResult.response status) (hok : 200 ≤ status ∧ status ≤ 299) :
    (sendHeartbeat env w).page.beatCount = w.page.beatCount + 1 ∧
    (sendHeartbeat env w).store.beatCount = some (w.page.beatCount + 1) ∧
    (sendHeartbeat env w).page.statusDotClass = ["status-dot", "active"] ∧
    (sendHeartbeat env w).page.statusText = "Connected" ∧
    (sendHeartbeat env w).store.logs =
      (if env.logDraw.lt 5 100
        then pruneLogs (w.store.logs ++ [⟨"Heartbeat sent successfully", env.logStamp⟩])
        else w.store.logs ++ [⟨"Heartbeat sent successfully", env.logStamp⟩]) := by
  have hok' : responseOk status = true := by simp [responseOk, hok.1, hok.2]
  rw [sendHeartbeat_of_attempts env w hgo]
  simp [hf, hok', addLog_eq, saveBeatCount_eq, updateStatus, hdb]

/-- C2, the scenario: `scenarioConfig` and a 200 response take the counter from
0 to 1, in memory and in the store, with status `Connected` and one success
entry in the log. -/
theorem sendHeartbeat_success_witness :
    (sendHeartbeat (scenarioTick 1700000001000 (FetchResult.response 200))
      scenarioWorld).page.beatCount = 1 ∧
    (sendHeartbeat (scenarioTick 1700000001000 (FetchResult.response 200))
      scenarioWorld).store.beatCount = some 1 ∧
    (sendHeartbeat (scenarioTick 1700000001000 (FetchResult.response 200))
      scenarioWorld).page.statusDotClass = ["status-dot", "active"] ∧
    (sendHeartbeat (scenarioTick 1700000001000 (FetchResult.response 200))
      scenarioWorld).page.statusText = "Connected" ∧
    (sendHeartbeat (scenarioTick 1700000001000 (FetchResult.response 200))
      scenarioWorld).store.logs = [⟨"Heartbeat sent successfully", 1700000001002⟩] :=
  sendHeartbeat_success (scenarioTick 1700000001000 (FetchResult.response 200)) scenarioWorld 200
    (by decide) (by decide) rfl (by decide)

/-- C3: when the tick attempts delivery on an open database connection and the
server answers with a non-2xx status `s`, both beat counters are unchanged, the
status becomes error / `Error: s`, the log entry `Heartbeat failed: s` is
appended (`addLog` then prunes when its draw is below 0.05), and
`showNotification` is called exactly once. -/
theorem sendHeartbeat_failure_status (env : TickEnv) (w : World) (status : Nat)
    (hgo : attempts env.now w.page = true) (hdb : w.page.db = true)
    (hf : env.fetch = FetchResult.response status) (hbad : status < 200 ∨ 299 < status) :
    (sendHeartbeat env w).page.beatCount = w.page.beatCount ∧
    (sendHeartbeat env w).store.beatCount = w.store.beatCount ∧
    (sendHeartbeat env w).page.statusDotClass = ["status-dot", "error"] ∧
    (sendHeartbeat env w).page.statusText = "Error: " ++ toString status ∧
    (sendHeartbeat env w).store.logs =
      (if env.logDraw.lt 5 100
        then pruneLogs (w.store.logs ++ [⟨"Heartbeat failed: " ++ toString status, env.logStamp⟩])
        else w.store.logs ++ [⟨"Heartbeat failed: " ++ toString status, env.logStamp⟩]) ∧
    (sendHeartbeat env w).showNotificationCalls = w.showNotificationCalls ++
      [("Heartbeat Failed", "Server returned error: " ++ toString status)] := by
  have hok' : responseOk status = false := by
    simp only [responseOk, Bool.and_eq_false_imp, decide_eq_true_eq, decide_eq_false_iff_not]
    omega
  rw [sendHeartbeat_of_attempts env w hgo]
  simp [hf, hok', addLog_eq, showNotification_eq, updateStatus, hdb]

/-- C3, the scenario: `scenarioConfig` and a 500 response leave the counters at
their start, show `Error: 500`, log `Heartbeat failed: 500` and call
`showNotification` once. -/
theorem sendHeartbeat_failure_status_witness :
    (sendHeartbeat (scenarioTick 1700000001000 (FetchResult.response 500))
      scenarioWorld).page.beatCount = 0 ∧
    (sendHeartbeat (scenarioTick 1700000001000 (FetchResult.response 500))
      scenarioWorld).store.beatCount = none ∧
    (sendHeartbeat (scenarioTick 1700000001000 (FetchResult.response 500))
      scenarioWorld).page.statusDotClass = ["status-dot", "error"] ∧
    (sendHeartbeat (scenarioTick 1700000001000 (FetchResult.response 500))
      scenarioWorld).page.statusText = "Error: 500" ∧
    (sendHeartbeat (scenarioTick 1700000001000 (FetchResult.response 500))
      scenarioWorld).store.logs = [⟨"Heartbeat failed: 500", 1700000001002⟩] ∧
    (sendHeartbeat (scenarioTick 1700000001000 (FetchResult.response 500))
      scenarioWorld).showNotificationCalls
        = [("Heartbeat Failed", "Server returned error: 500")] :=
  sendHeartbeat_failure_status (scenarioTick 1700000001000 (FetchResult.response 500))
    scenarioWorld 500 (by decide) (by decide) rfl (by decide)

/-- C4 as stated fails: `scenarioConfig`, a 500 response, background sync
available: the tick is a delivery failure and no sync tag is registered. -/
theorem sendHeartbeat_status500_registers_nothing :
    attempts (scenarioTick 1700000001000 (FetchResult.response 500)).now scenarioWorld.page
      = true ∧
    scenarioWorld.serviceWorker = true ∧ scenarioWorld.syncSupported = true ∧
    (sendHeartbeat (scenarioTick 1700000001000 (FetchResult.response 500))
      scenarioWorld).page.statusText = "Error: 500" ∧
    (sendHeartbeat (scenarioTick 1700000001000 (FetchResult.response 500))
      scenarioWorld).syncTags = [] := by
  decide

/-- C4, amended: when the tick attempts delivery and background sync is
available, a network error (a rejected `fetch`) registers the one-shot tag
`send-heartbeat` (registering leaves an already registered tag as it is), and
that is the one tag the worker's `sync` listener replays with its
`sendHeartbeat`; when the server answers with a status, 2xx or not, the
registered tags are unchanged. -/
theorem sendHeartbeat_retry_on_network_error (env : TickEnv) (w : World)
    (hgo : attempts env.now w.page = true)
    (hsw : w.serviceWorker = true) (hsync : w.syncSupported = true) :
    (∀ message, env.fetch = FetchResult.networkError message →
      "send-heartbeat" ∈ (sendHeartbeat env w).syncTags ∧
      (sendHeartbeat env w).syncTags =
        (if "send-heartbeat" ∈ w.syncTags then w.syncTags
          else w.syncTags ++ ["send-heartbeat"])) ∧
    (∀ status, env.fetch = FetchResult.response status →
      (sendHeartbeat env w).syncTags = w.syncTags) ∧
    (∀ tag benv v, ServiceWorker.onSync tag benv v =
      (if tag = "send-heartbeat" then ServiceWorker.sendHeartbeat benv v
        else { world := v, rejected := none, posted := [] })) := by
  refine ⟨?_, ?_, ?_⟩
  · intro message hf
    have hs : (sendHeartbeat env w).syncTags =
        (if "send-heartbeat" ∈ w.syncTags then w.syncTags
          else w.syncTags ++ ["send-heartbeat"]) := by
      rw [sendHeartbeat_of_attempts env w hgo]
      simp [hf, addLog_eq, showNotification_eq, syncRegister_eq, updateStatus, hsw, hsync]
    refine ⟨?_, hs⟩
    rw [hs]
    split_ifs with hmem
    · exact hmem
    · simp
  · intro status hf
    rw [sendHeartbeat_of_attempts env w hgo]
    by_cases hok : responseOk status = true <;>
      simp [hf, hok, addLog_eq, showNotification_eq, saveBeatCount_eq, updateStatus]
  · intro tag benv v
    rfl

/-- C4 amended, at a concrete input: `scenarioConfig` and a network error
register exactly the tag `send-heartbeat`. -/
theorem sendHeartbeat_retry_on_network_error_witness :
    (sendHeartbeat (scenarioTick 1700000001000 (FetchResult.networkError "Failed to fetch"))
      scenarioWorld).syncTags = ["send-heartbeat"] :=
  ((sendHeartbeat_retry_on_network_error
    (scenarioTick 1700000001000 (FetchResult.networkError "Failed to fetch"))
    scenarioWorld (by decide) rfl rfl).1 "Failed to fetch" rfl).2



/-! ## The notification gate -/

/-- A call that passes the gate: the notification is shown and the instant of
the call is remembered. -/
theorem showNotification_pass (title body : String) (now : Int) (w : World)
    (hp : w.permission = Permission.granted) (ht : 30000 ≤ now - w.page.lastNotificationTime) :
    showNotification title body now w =
      { w with
        showNotificationCalls := w.showNotificationCalls ++ [(title, body)],
        page := { w.page with lastNotificationTime := now },
        notifications := w.notifications ++ [{
          title := title, body := body,
          tag := if w.serviceWorker = true then "heartbeat-alert" else "", shownAt := now }] } := by
  rw [showNotification_eq]
  have h : w.permission = Permission.granted ∧ ¬ now - w.page.lastNotificationTime < 30000 :=
    ⟨hp, not_lt.mpr ht⟩
  simp only [if_pos h]

/-- A call that the gate drops: only the trace of calls grows. -/
theorem showNotification_drop (title body : String) (now : Int) (w : World)
    (h : ¬ (w.permission = Permission.granted ∧ 30000 ≤ now - w.page.lastNotificationTime)) :
    showNotification title body now w =
      { w with showNotificationCalls := w.showNotificationCalls ++ [(title, body)] } := by
  rw [showNotification_eq]
  have h' : ¬ (w.permission = Permission.granted ∧
      ¬ now - w.page.lastNotificationTime < 30000) := by
    rw [not_lt]; exact h
  simp only [if_neg h']

/-- C7: the foreground `showNotification` hands a notification to the platform
exactly when permission is `granted` and at least 30000 ms lie between the
call and `lastNotificationTime`, and sets `lastNotificationTime` exactly then; a
dropped call changes nothing but the trace of calls (nothing is queued). Hence
on a fresh page (`lastNotificationTime = 0`) with permission granted, calls at
`t`, `t + 10 s`, `t + 29 s` and `t + 31 s`, for a clock reading `t` of at least
30000 ms, show exactly two notifications: those of `t` and `t + 31 s`. -/
theorem showNotification_gate (title body : String) (now : Int) (w : World) :
    (showNotification title body now w).notifications =
      (if w.permission = Permission.granted ∧ 30000 ≤ now - w.page.lastNotificationTime
        then w.notifications ++ [{
          title := title, body := body,
          tag := if w.serviceWorker = true then "heartbeat-alert" else "", shownAt := now }]
        else w.notifications) ∧
    (showNotification title body now w).page.lastNotificationTime =
      (if w.permission = Permission.granted ∧ 30000 ≤ now - w.page.lastNotificationTime
        then now else w.page.lastNotificationTime) ∧
    (¬ (w.permission = Permission.granted ∧ 30000 ≤ now - w.page.lastNotificationTime) →
      showNotification title body now w =
        { w with showNotificationCalls := w.showNotificationCalls ++ [(title, body)] }) ∧
    (∀ (v : World) (t : Int) (t1 t2 t3 t4 b1 b2 b3 b4 : String),
      v.permission = Permission.granted → v.page.lastNotificationTime = 0 → 30000 ≤ t →
      (showNotification t4 b4 (t + 31000) (showNotification t3 b3 (t + 29000)
        (showNotification t2 b2 (t + 10000) (showNotification t1 b1 t v)))).notifications =
        v.notifications ++
          [{ title := t1, body := b1,
             tag := if v.serviceWorker = true then "heartbeat-alert" else "", shownAt := t },
           { title := t4, body := b4,
             tag := if v.serviceWorker = true then "heartbeat-alert" else "",
             shownAt := t + 31000 }]) := by
  refine ⟨?_, ?_, ?_, ?_⟩
  · by_cases h : w.permission = Permission.granted ∧ 30000 ≤ now - w.page.lastNotificationTime
    · rw [showNotification_pass title body now w h.1 h.2, if_pos h]
    · rw [showNotification_drop title body now w h, if_neg h]
  · by_cases h : w.permission = Permission.granted ∧ 30000 ≤ now - w.page.lastNotificationTime
    · rw [showNotification_pass title body now w h.1 h.2, if_pos h]
    · rw [showNotification_drop title body now w h, if_neg h]
  · exact showNotification_drop title body now w
  · intro v t t1 t2 t3 t4 b1 b2 b3 b4 hp h0 ht
    simp [showNotification_eq, hp, h0, ht]

/-- C7, the scenario on `scenarioWorld` (a fresh page, permission granted, the
first call at clock reading 1700000000000): of the four calls, the first and
the last are shown. -/
theorem showNotification_gate_witness :
    (showNotification "d" "" 1700000031000 (showNotification "c" "" 1700000029000
      (showNotification "b" "" 1700000010000
        (showNotification "a" "" 1700000000000 scenarioWorld)))).notifications =
      [{ title := "a", body := "", tag := "heartbeat-alert", shownAt := 1700000000000 },
       { title := "d", body := "", tag := "heartbeat-alert", shownAt := 1700000031000 }] :=
  (showNotification_gate "" "" 0 scenarioWorld).2.2.2 scenarioWorld 1700000000000
    "a" "b" "c" "d" "" "" "" "" rfl rfl (by decide)

end App

namespace ServiceWorker

/-- The `catch` block of the worker's `sendHeartbeat` neither shows a
notification nor touches the permission. -/
theorem sendHeartbeatCatch_notifications (env : BeatEnv) (m : String) (w : World) :
    (sendHeartbeatCatch env m w).world.notifications = w.notifications ∧
    (sendHeartbeatCatch env m w).world.permission = w.permission := by
  obtain ⟨d, hd⟩ := openDB_frame w
  unfold sendHeartbeatCatch
  dsimp only
  split_ifs
  · rw [hd]; exact ⟨rfl, rfl⟩
  · exact ⟨rfl, rfl⟩

/-- The worker's `sendHeartbeat` neither shows a notification nor touches the
permission. -/
theorem sendHeartbeat_notifications (env : BeatEnv) (w : World) :
    (sendHeartbeat env w).world.notifications = w.notifications ∧
    (sendHeartbeat env w).world.permission = w.permission := by
  obtain ⟨d, hd⟩ := openDB_frame w
  unfold sendHeartbeat
  dsimp only
  split_ifs
  · exact sendHeartbeatCatch_notifications env _ w
  · rw [hd]
    dsimp only
    cases getConfig w.store with
    | none => exact ⟨rfl, rfl⟩
    | some config =>
      dsimp only
      split_ifs
      · exact ⟨rfl, rfl⟩
      · exact ⟨rfl, rfl⟩
      · cases env.fetch with
        | response status =>
          dsimp only
          split_ifs <;> exact ⟨rfl, rfl⟩
        | networkError message =>
          exact sendHeartbeatCatch_notifications env message _

/-- The notifications after the `periodicsync` listener: one more exactly when
the tag is `heartbeat-sync`, `sendHeartbeat` resolves and permission is granted. -/
theorem onPeriodicSync_notifications (tag : String) (env : BeatEnv) (shownAt : Int)
    (w : World) :
    (onPeriodicSync tag env shownAt w).world.notifications =
      (if tag = "heartbeat-sync" ∧ (sendHeartbeat env w).rejected = none ∧
          w.permission = Permission.granted
        then w.notifications ++ [{
          title := "Heartbeat Sent", body := "Background heartbeat successfully sent",
          tag := "background-heartbeat", shownAt := shownAt }]
        else w.notifications) ∧
    (onPeriodicSync tag env shownAt w).world.permission = w.permission := by
  obtain ⟨hn, hp⟩ := sendHeartbeat_notifications env w
  unfold onPeriodicSync
  generalize sendHeartbeat env w = r at hn hp
  obtain ⟨v, rejected, posted⟩ := r
  simp only at hn hp
  by_cases htag : tag = "heartbeat-sync"
  · cases rejected with
    | none =>
      by_cases hg : w.permission = Permission.granted <;>
        simp [htag, registrationShowNotification, platformNotify_eq, hn, hp, hg]
    | some error => simp [htag, hn, hp]
  · simp [htag]

/-- The notifications after the `push` listener: one more exactly when the
payload has type `heartbeat-request` and permission is granted, whether
`sendHeartbeat` resolved or rejected. -/
theorem onPush_notifications (data : Option PushData) (env : BeatEnv) (shownAt : Int)
    (w : World) :
    (onPush data env shownAt w).world.notifications =
      (if data = some (PushData.json (some "heartbeat-request")) ∧
          w.permission = Permission.granted
        then w.notifications ++
          [if (sendHeartbeat env w).rejected = none then
            { title := "Server Check", body := "Server-initiated heartbeat sent successfully",
              tag := "server-heartbeat", shownAt := shownAt }
           else
            { title := "Server Check Failed", body := "Server-initiated heartbeat failed",
              tag := "server-heartbeat-failed", shownAt := shownAt }]
        else w.notifications) ∧
    (onPush data env shownAt w).world.permission = w.permission := by
  obtain ⟨hn, hp⟩ := sendHeartbeat_notifications env w
  unfold onPush
  generalize sendHeartbeat env w = r at hn hp
  obtain ⟨v, rejected, posted⟩ := r
  simp only at hn hp
  rcases data with _ | _ | type
  · simp
  · simp
  · by_cases htype : type = some "heartbeat-request"
    · cases rejected with
      | none =>
        by_cases hg : w.permission = Permission.granted <;>
          simp [htype, onPushCatch, registrationShowNotification, platformNotify_eq, hn, hp, hg]
      | some error =>
        by_cases hg : w.permission = Permission.granted <;>
          by_cases hx : error.statusCode = some 404 ∨ error.statusCode = some 410 <;>
            simp [htype, onPushCatch, registrationShowNotification, platformNotify_eq, hn, hp,
              hg, hx]
    · simp [htype]

/-- Handling an event leaves the permission as it is, and without permission
it leaves the shown notifications as they are. -/
theorem handle_without_permission (w : World) (e : BackgroundEvent) :
    (handle w e).permission = w.permission ∧
    (w.permission ≠ Permission.granted → (handle w e).notifications = w.notifications) := by
  cases e with
  | periodicSync tag env shownAt =>
    obtain ⟨hn, hp⟩ := onPeriodicSync_notifications tag env shownAt w
    refine ⟨hp, fun hg => ?_⟩
    simp only [handle, hn]
    rw [if_neg (fun h => hg h.2.2)]
  | push data env shownAt =>
    obtain ⟨hn, hp⟩ := onPush_notifications data env shownAt w
    refine ⟨hp, fun hg => ?_⟩
    simp only [handle, hn]
    rw [if_neg (fun h => hg h.2)]

/-- Without permission no sequence of handled events shows a notification. -/
theorem handleAll_without_permission (es : List BackgroundEvent) :
    ∀ w : World, w.permission ≠ Permission.granted →
      (handleAll w es).notifications = w.notifications := by
  induction es with
  | nil => intro w _; rfl
  | cons e es ih =>
    intro w hg
    obtain ⟨hp, hn⟩ := handle_without_permission w e
    simp only [handleAll]
    rw [ih (handle w e) (by rw [hp]; exact hg), hn hg]

/-- C8 as stated fails: on `scenarioWorld` (permission granted) two push
messages of type `heartbeat-request` handled one second apart each show a
notification: two notifications 1000 ms apart. (On this database, which the
page has opened, the worker's delivery is refused and the notification is the
one of the `.catch` callback.) -/
theorem push_notifications_one_second_apart :
    scenarioWorld.permission = Permission.granted ∧
    (handleAll scenarioWorld
      [BackgroundEvent.push (some (PushData.json (some "heartbeat-request")))
         (scenarioBeat 1700000001000 (FetchResult.response 200)) 1700000001010,
       BackgroundEvent.push (some (PushData.json (some "heartbeat-request")))
         (scenarioBeat 1700000002000 (FetchResult.response 200)) 1700000002010]
      ).notifications =
      [{ title := "Server Check Failed", body := "Server-initiated heartbeat failed",
         tag := "server-heartbeat-failed", shownAt := 1700000001010 },
       { title := "Server Check Failed", body := "Server-initiated heartbeat failed",
         tag := "server-heartbeat-failed", shownAt := 1700000002010 }] := by
  decide

/-- C8, amended: the worker's listeners have no gate of their own. With
permission granted, every push message of type `heartbeat-request` shows
exactly one notification, and so does every `periodicsync` event with tag
`heartbeat-sync` whose `sendHeartbeat` resolves, at whatever instant `shownAt`
the event comes (no 30 s window applies); with permission not granted, no
sequence of handled events shows any notification (the platform refuses
them). -/
theorem background_notifications_not_rate_limited (w : World) (env : BeatEnv) (shownAt : Int) :
    (w.permission = Permission.granted →
      (∃ n : Notice, n.shownAt = shownAt ∧
        (onPush (some (PushData.json (some "heartbeat-request"))) env shownAt w
          ).world.notifications = w.notifications ++ [n]) ∧
      ((sendHeartbeat env w).rejected = none →
        (onPeriodicSync "heartbeat-sync" env shownAt w).world.notifications =
          w.notifications ++ [{
            title := "Heartbeat Sent", body := "Background heartbeat successfully sent",
            tag := "background-heartbeat", shownAt := shownAt }])) ∧
    (w.permission ≠ Permission.granted →
      ∀ es : List BackgroundEvent, (handleAll w es).notifications = w.notifications) := by
  refine ⟨fun hg => ⟨?_, fun hr => ?_⟩, fun hg es => handleAll_without_permission es w hg⟩
  · rw [(onPush_notifications _ env shownAt w).1, if_pos ⟨rfl, hg⟩]
    by_cases hr : (sendHeartbeat env w).rejected = none
    · exact ⟨_, rfl, by rw [if_pos hr]⟩
    · exact ⟨_, rfl, by rw [if_neg hr]⟩
  · rw [(onPeriodicSync_notifications _ env shownAt w).1, if_pos ⟨rfl, hr, hg⟩]

/-- C8 amended, at a concrete input: on `scenarioWorld` with permission denied,
the two push messages one second apart show nothing. -/
theorem background_notifications_not_rate_limited_witness :
    (handleAll { scenarioWorld with permission := Permission.denied }
      [BackgroundEvent.push (some (PushData.json (some "heartbeat-request")))
         (scenarioBeat 1700000001000 (FetchResult.response 200)) 1700000001010,
       BackgroundEvent.push (some (PushData.json (some "heartbeat-request")))
         (scenarioBeat 1700000002000 (FetchResult.response 200)) 1700000002010]
      ).notifications = [] :=
  (background_notifications_not_rate_limited { scenarioWorld with permission := Permission.denied }
    (scenarioBeat 1700000001000 (FetchResult.response 200)) 1700000001010).2 (by decide) _

end ServiceWorker

/-! ## The beat counter across contexts -/

/-- C5 fails on the code: two foreground contexts of the app (two tabs) are
open on the same database, both loaded while the stored counter was absent
(`scenarioWorld`, page counter 0). The first delivers twice, then the second
delivers once. All three are successful deliveries, and the stored counter
reads 0, 1, 2 and then 1: the second context writes its own stale count over
the stored one. -/
theorem stored_counter_decreases :
    allSucceed scenarioWorld
      [Delivery.foreground (scenarioTick 1700000001000 (FetchResult.response 200)),
       Delivery.foreground (scenarioTick 1700000061000 (FetchResult.response 200))] = true ∧
    storedCounts scenarioWorld
      [Delivery.foreground (scenarioTick 1700000001000 (FetchResult.response 200)),
       Delivery.foreground (scenarioTick 1700000061000 (FetchResult.response 200))]
      = [0, 1, 2] ∧
    succeeds
      (inContext scenarioWorld.page
        (deliverAll scenarioWorld
          [Delivery.foreground (scenarioTick 1700000001000 (FetchResult.response 200)),
           Delivery.foreground (scenarioTick 1700000061000 (FetchResult.response 200))]))
      (Delivery.foreground (scenarioTick 1700000062000 (FetchResult.response 200))) = true ∧
    (deliver
      (inContext scenarioWorld.page
        (deliverAll scenarioWorld
          [Delivery.foreground (scenarioTick 1700000001000 (FetchResult.response 200)),
           Delivery.foreground (scenarioTick 1700000061000 (FetchResult.response 200))]))
      (Delivery.foreground (scenarioTick 1700000062000 (FetchResult.response 200)))
      ).store.beatCount = some 1 := by
  decide

/-- A worker run whose guard passes and whose request gets a 2xx answer logs
the success, increments the stored counter in one step and posts the new
count. -/
theorem ServiceWorker.sendHeartbeat_of_success (env : ServiceWorker.BeatEnv) (w : World)
    (status : Nat) (hgo : ServiceWorker.attempts env w = true)
    (hf : env.fetch = FetchResult.response status) (hok : responseOk status = true) :
    ∃ config d, w.store.settings = some config ∧
      ServiceWorker.sendHeartbeat env w =
        { world := { w with
            database := d,
            requests := w.requests ++ [ServiceWorker.beatRequest config],
            store := { w.store with
              logs := w.store.logs ++ [⟨"Background heartbeat sent successfully", env.logStamp⟩],
              beatCount := some (w.store.beatCount.getD 0 + 1) } },
          rejected := none,
          posted := [ClientMessage.heartbeatSent env.stamp "background"
            (some (w.store.beatCount.getD 0 + 1))] } := by
  obtain ⟨d, hd⟩ := ServiceWorker.openDB_frame w
  unfold ServiceWorker.attempts ServiceWorker.getConfig at hgo
  cases hc : w.store.settings with
  | none => simp [hc] at hgo
  | some config =>
    refine ⟨config, d, rfl, ?_⟩
    simp only [hc, Bool.and_eq_true, Bool.not_eq_true'] at hgo
    obtain ⟨⟨h0, h0b⟩, h1, h2⟩ := hgo
    unfold ServiceWorker.sendHeartbeat ServiceWorker.getConfig
    simp only [h0, h0b, Bool.and_self, Bool.not_true, Bool.false_eq_true, if_false]
    rw [hd]
    simp [hc, h1, h2, hf, hok, ServiceWorker.incrementBeatCount, ServiceWorker.logActivity]

/-- The page's handling of a `heartbeat-sent` message that carries a count. -/
theorem App.onHeartbeatSent_some (c : Nat) (env : App.MessageEnv) (w : World) :
    (App.onHeartbeatSent (some c) env w).page.beatCount = c ∧
    (App.onHeartbeatSent (some c) env w).store.beatCount = w.store.beatCount := by
  simp [App.onHeartbeatSent, App.addLog_eq, App.updateStatus]

/-- One successful delivery whose message (if any) is received, started with
the page counter equal to the stored one: both become the successor. -/
theorem deliver_counter (w : World) (d : Delivery) (hok : succeeds w d = true)
    (hrecv : d.received = true) (hinv : w.page.beatCount = w.store.beatCount.getD 0) :
    (deliver w d).store.beatCount = some (w.store.beatCount.getD 0 + 1) ∧
    (deliver w d).page.beatCount = w.store.beatCount.getD 0 + 1 := by
  cases d with
  | foreground env =>
    simp only [succeeds, Bool.and_eq_true] at hok
    obtain ⟨⟨hdb, hgo⟩, hf⟩ := hok
    cases hfe : env.fetch with
    | networkError m => simp [hfe] at hf
    | response status =>
      simp only [hfe] at hf
      simp only [deliver]
      rw [App.sendHeartbeat_of_attempts env w hgo]
      simp [hfe, hf, App.addLog_eq, App.saveBeatCount_eq, App.updateStatus, hdb, hinv]
  | background env received menv =>
    simp only [Delivery.received] at hrecv
    subst hrecv
    simp only [succeeds, Bool.and_eq_true] at hok
    obtain ⟨hgo, hf⟩ := hok
    cases hfe : env.fetch with
    | networkError m => simp [hfe] at hf
    | response status =>
      simp only [hfe] at hf
      obtain ⟨config, d, -, hrun⟩ :=
        ServiceWorker.sendHeartbeat_of_success env w status hgo hfe hf
      simp only [deliver, hrun]
      have h := App.onHeartbeatSent_some (w.store.beatCount.getD 0 + 1) menv
        { w with
          database := d,
          requests := w.requests ++ [ServiceWorker.beatRequest config],
          store := { w.store with
            logs := w.store.logs ++ [⟨"Background heartbeat sent successfully", env.logStamp⟩],
            beatCount := some (w.store.beatCount.getD 0 + 1) } }
      exact ⟨h.2, h.1⟩

/-- After a non-empty sequence of successful, received deliveries started with
the page counter equal to the stored one, the stored counter has grown by the
number of deliveries. -/
theorem deliverAll_counter (ds : List Delivery) :
    ∀ w : World, allSucceed w ds = true → (∀ d ∈ ds, d.received = true) →
      w.page.beatCount = w.store.beatCount.getD 0 →
      (deliverAll w ds).store.beatCount.getD 0 = w.store.beatCount.getD 0 + ds.length ∧
      (deliverAll w ds).page.beatCount = (deliverAll w ds).store.beatCount.getD 0 ∧
      (ds ≠ [] → (deliverAll w ds).store.beatCount =
        some (w.store.beatCount.getD 0 + ds.length)) := by
  induction ds with
  | nil => intro w _ _ hinv; simp [deliverAll, hinv]
  | cons d ds ih =>
    intro w hok hrecv hinv
    simp only [allSucceed, Bool.and_eq_true] at hok
    have hstep := deliver_counter w d hok.1 (hrecv d (List.mem_cons_self _ _)) hinv
    have hinv' : (deliver w d).page.beatCount = (deliver w d).store.beatCount.getD 0 := by
      rw [hstep.1, hstep.2]; rfl
    have hrest := ih (deliver w d) hok.2 (fun e he => hrecv e (List.mem_cons_of_mem _ he)) hinv'
    have hget : (deliver w d).store.beatCount.getD 0 = w.store.beatCount.getD 0 + 1 := by
      rw [hstep.1]; rfl
    rw [hget] at hrest
    simp only [deliverAll, List.length_cons]
    refine ⟨by rw [hrest.1]; omega, hrest.2.1, fun _ => ?_⟩
    cases ds with
    | nil => simp [deliverAll, hstep.1]
    | cons e es =>
      rw [hrest.2.2 (by simp)]
      congr 1
      simp only [List.length_cons]
      omega

/-- C6: starting from an absent or zero stored counter (the page counter then
being 0), after `N` successful deliveries run one at a time in any mix of page
and worker, each `heartbeat-sent` message being received by the page right
after the worker's run, the stored beat counter is the number `N` (absent only
if `N = 0`); and `incrementBeatCount` on a stored value `c` (absent read as 0)
stores and returns `c + 1`. -/
theorem stored_counter_counts_deliveries (w : World) (ds : List Delivery)
    (hstore : w.store.beatCount = none ∨ w.store.beatCount = some 0)
    (hpage : w.page.beatCount = 0)
    (hok : allSucceed w ds = true) (hrecv : ∀ d ∈ ds, d.received = true) :
    (deliverAll w ds).store.beatCount.getD 0 = ds.length ∧
    (ds ≠ [] → (deliverAll w ds).store.beatCount = some ds.length) ∧
    (∀ s : Store,
      (ServiceWorker.incrementBeatCount s).1.beatCount = some (s.beatCount.getD 0 + 1) ∧
      (ServiceWorker.incrementBeatCount s).2 = s.beatCount.getD 0 + 1) := by
  have h0 : w.store.beatCount.getD 0 = 0 := by
    rcases hstore with h | h <;> rw [h] <;> rfl
  have h := deliverAll_counter ds w hok hrecv (by rw [hpage, h0])
  rw [h0, Nat.zero_add] at h
  exact ⟨h.1, h.2.2, fun s => ⟨rfl, rfl⟩⟩

/-- C6, at a concrete input: from `scenarioWorld`, three page deliveries leave
the stored counter at 3. -/
theorem stored_counter_counts_deliveries_witness :
    (deliverAll scenarioWorld
      [Delivery.foreground (scenarioTick 1700000001000 (FetchResult.response 200)),
       Delivery.foreground (scenarioTick 1700000031000 (FetchResult.response 204)),
       Delivery.foreground (scenarioTick 1700000061000 (FetchResult.response 200))]
      ).store.beatCount = some 3 :=
  (stored_counter_counts_deliveries scenarioWorld
    [Delivery.foreground (scenarioTick 1700000001000 (FetchResult.response 200)),
     Delivery.foreground (scenarioTick 1700000031000 (FetchResult.response 204)),
     Delivery.foreground (scenarioTick 1700000061000 (FetchResult.response 200))]
    (Or.inl rfl) rfl (by decide) (by decide)).2.1 (by simp)

/-! ## The log store -/

theorem enum_sorted (logs : List LogEntry) (h : Chronological logs) :
    (logs.enum).Sorted indexLE := by
  unfold List.Sorted
  rw [List.pairwise_iff_getElem]
  intro i j hi hj hij
  rw [List.getElem_enum, List.getElem_enum]
  have hi' : i < logs.length := by simpa using hi
  have hj' : j < logs.length := by simpa using hj
  have := (List.pairwise_iff_getElem.mp h) i j hi' hj' hij
  unfold indexLE
  rcases lt_or_eq_of_le this with hlt | heq
  · exact Or.inl hlt
  · exact Or.inr ⟨heq, Nat.le_of_lt hij⟩

theorem cursorPrev_perm (logs : List LogEntry) : (cursorPrev logs).Perm logs.enum :=
  (List.reverse_perm _).trans (List.perm_insertionSort _ _)

theorem cursorPrev_length (logs : List LogEntry) : (cursorPrev logs).length = logs.length := by
  rw [(cursorPrev_perm logs).length_eq, List.enum_length]

theorem cursorPrev_of_chronological (logs : List LogEntry) (h : Chronological logs) :
    cursorPrev logs = logs.enum.reverse := by
  unfold cursorPrev timestampIndex
  rw [(enum_sorted logs h).insertionSort_eq]

theorem recentLogs_of_chronological (logs : List LogEntry) (h : Chronological logs) :
    recentLogs logs = logs.reverse.take displayLogs := by
  unfold recentLogs
  rw [cursorPrev_of_chronological logs h, List.map_take, List.map_reverse, List.enum_map_snd]

theorem filter_enumFrom_ge (k : Nat) (l : List LogEntry) :
    ∀ m, ((l.enumFrom m).filter (fun p => decide (k ≤ p.1))).map Prod.snd = l.drop (k - m) := by
  induction l with
  | nil => intro m; simp
  | cons a l ih =>
    intro m
    simp only [List.enumFrom_cons, List.filter_cons]
    by_cases hk : k ≤ m
    · have h0 : k - m = 0 := by omega
      have h1 : k - (m + 1) = 0 := by omega
      have := ih (m + 1)
      rw [h1] at this
      simp [hk, h0, this]
    · have h1 : k - m = (k - (m + 1)) + 1 := by omega
      simp [hk, h1, ih (m + 1)]

theorem pruneLogs_of_chronological (logs : List LogEntry) (h : Chronological logs) :
    pruneLogs logs = logs.drop (logs.length - maxLogs) := by
  unfold pruneLogs
  rw [cursorPrev_of_chronological logs h]
  have hD : ∀ p ∈ logs.enum,
      decide (p.1 ∉ ((logs.enum.reverse).drop maxLogs).map Prod.fst) =
        decide (logs.length - maxLogs ≤ p.1) := by
    intro p hp
    have hlt := List.fst_lt_of_mem_enum hp
    have hmem : p.1 ∈ ((logs.enum.reverse).drop maxLogs).map Prod.fst ↔
        p.1 < logs.length - maxLogs := by
      rw [List.drop_reverse, List.map_reverse, List.mem_reverse, List.map_take,
        List.enum_map_fst, List.enum_length, List.take_range, List.mem_range]
      omega
    simp only [hmem, decide_eq_decide]
    omega
  dsimp only
  rw [List.filter_congr hD]
  have := filter_enumFrom_ge (logs.length - maxLogs) logs 0
  simpa [List.enum] using this

theorem indexLE_total (p q : Nat × LogEntry) : indexLE p q ∨ indexLE q p := by
  unfold indexLE
  rcases lt_trichotomy p.2.timestamp q.2.timestamp with h | h | h
  · exact Or.inl (Or.inl h)
  · rcases Nat.le_total p.1 q.1 with hk | hk
    · exact Or.inl (Or.inr ⟨h, hk⟩)
    · exact Or.inr (Or.inr ⟨h.symm, hk⟩)
  · exact Or.inr (Or.inl h)

theorem indexLE_trans (p q r : Nat × LogEntry) (h1 : indexLE p q) (h2 : indexLE q r) :
    indexLE p r := by
  unfold indexLE at *
  rcases h1 with h1 | ⟨h1, k1⟩ <;> rcases h2 with h2 | ⟨h2, k2⟩
  · exact Or.inl (lt_trans h1 h2)
  · exact Or.inl (h2 ▸ h1)
  · exact Or.inl (h1 ▸ h2)
  · exact Or.inr ⟨h1.trans h2, Nat.le_trans k1 k2⟩

/-- The backwards cursor visits the records newest first. -/
theorem cursorPrev_descending (logs : List LogEntry) :
    (cursorPrev logs).Pairwise (fun p q => q.2.timestamp ≤ p.2.timestamp) := by
  have hs : (timestampIndex logs).Sorted indexLE :=
    @List.sorted_insertionSort _ indexLE _ ⟨indexLE_total⟩ ⟨indexLE_trans⟩ logs.enum
  unfold cursorPrev
  rw [List.pairwise_reverse]
  refine List.Pairwise.imp ?_ hs
  intro p q hpq
  rcases hpq with h | ⟨h, _⟩
  · exact le_of_lt h
  · exact le_of_eq h

/-- The records `pruneLogs` keeps, with their keys, are the first `maxLogs`
records the backwards cursor visits. -/
theorem pruneLogs_kept (logs : List LogEntry) :
    ∃ kept : List (Nat × LogEntry),
      kept.Sublist logs.enum ∧ kept.Perm ((cursorPrev logs).take maxLogs) ∧
      pruneLogs logs = kept.map Prod.snd := by
  refine ⟨logs.enum.filter (fun p =>
      decide (p.1 ∉ ((cursorPrev logs).drop maxLogs).map Prod.fst)), List.filter_sublist _, ?_, rfl⟩
  have hperm := cursorPrev_perm logs
  have hnodup : ((cursorPrev logs).map Prod.fst).Nodup :=
    (hperm.map Prod.fst).nodup_iff.mpr (List.nodup_enum_map_fst logs)
  rw [← List.take_append_drop maxLogs (cursorPrev logs), List.map_append,
    List.nodup_append] at hnodup
  obtain ⟨-, -, hdisj⟩ := hnodup
  refine (hperm.symm.filter _).trans ?_
  have hsplit : ∀ f : Nat × LogEntry → Bool, (cursorPrev logs).filter f =
      ((cursorPrev logs).take maxLogs).filter f ++ ((cursorPrev logs).drop maxLogs).filter f := by
    intro f
    rw [← List.filter_append, List.take_append_drop]
  rw [hsplit]
  have hK : ((cursorPrev logs).take maxLogs).filter (fun p =>
      decide (p.1 ∉ ((cursorPrev logs).drop maxLogs).map Prod.fst)) =
      (cursorPrev logs).take maxLogs := by
    rw [List.filter_eq_self]
    intro p hp
    simp only [decide_eq_true_eq]
    exact fun hx => hdisj (List.mem_map_of_mem Prod.fst hp) hx
  have hX : ((cursorPrev logs).drop maxLogs).filter (fun p =>
      decide (p.1 ∉ ((cursorPrev logs).drop maxLogs).map Prod.fst)) = [] := by
    rw [List.filter_eq_nil_iff]
    intro p hp
    simp only [decide_eq_true_eq, not_not]
    exact List.mem_map_of_mem Prod.fst hp
  rw [hK, hX, List.append_nil]

theorem pruneLogs_length (logs : List LogEntry) :
    (pruneLogs logs).length = min logs.length maxLogs := by
  obtain ⟨kept, -, hperm, heq⟩ := pruneLogs_kept logs
  rw [heq, List.length_map, hperm.length_eq, List.length_take, cursorPrev_length, Nat.min_comm]

theorem pruneLogs_of_short (logs : List LogEntry) (h : logs.length ≤ maxLogs) :
    pruneLogs logs = logs := by
  unfold pruneLogs
  have hd : (cursorPrev logs).drop maxLogs = [] := by
    rw [List.drop_eq_nil_iff, cursorPrev_length]; exact h
  simp [hd, List.enum_map_snd]

theorem pruneLogs_idempotent (logs : List LogEntry) :
    pruneLogs (pruneLogs logs) = pruneLogs logs :=
  pruneLogs_of_short _ (by rw [pruneLogs_length]; exact Nat.min_le_right _ _)

namespace App

/-- One `addLog` on an open connection, the store holding a suffix of a
chronological history `base` that is the whole of it or at least `maxLogs`
long: afterwards the store again holds such a suffix of the history extended by
the new entry, and the panel shows the newest entries of that history. -/
theorem addLog_suffix (c : LogCall) (w : World) (base : List LogEntry)
    (k : Nat) (hdb : w.page.db = true) (hlogs : w.store.logs = base.drop k)
    (hk : k = 0 ∨ maxLogs ≤ base.length - k)
    (hchron : Chronological (base ++ [c.entry])) :
    (addLog c.message c.stamp c.draw w).page.db = true ∧
    (∃ k', (addLog c.message c.stamp c.draw w).store.logs = (base ++ [c.entry]).drop k' ∧
      (k' = 0 ∨ maxLogs ≤ (base ++ [c.entry]).length - k')) ∧
    (addLog c.message c.stamp c.draw w).page.logEntries =
      (base ++ [c.entry]).reverse.take displayLogs := by
  have hkle : k ≤ base.length := by
    rcases hk with h | h
    · omega
    · unfold maxLogs at h; omega
  have happ : w.store.logs ++ [c.entry] = (base ++ [c.entry]).drop k := by
    rw [hlogs, List.drop_append_of_le_length hkle]
  have hc1 : Chronological ((base ++ [c.entry]).drop k) :=
    List.Pairwise.sublist (List.drop_sublist _ _) hchron
  have hshow : ∀ j, (j = 0 ∨ maxLogs ≤ (base ++ [c.entry]).length - j) →
      recentLogs ((base ++ [c.entry]).drop j) = (base ++ [c.entry]).reverse.take displayLogs := by
    intro j hj
    rw [recentLogs_of_chronological _ (List.Pairwise.sublist (List.drop_sublist _ _) hchron)]
    rcases hj with h | h
    · rw [h, List.drop_zero]
    · rw [List.reverse_drop, List.take_take]
      congr 1
      unfold maxLogs at h
      unfold displayLogs
      omega
  have hentry : (⟨c.message, c.stamp⟩ : LogEntry) = c.entry := rfl
  rw [addLog_eq]
  simp only [hdb, if_true, hentry, happ]
  refine ⟨trivial, ?_⟩
  by_cases hd : c.draw.lt 5 100 = true
  · simp only [hd, if_true]
    rw [pruneLogs_of_chronological _ hc1, List.drop_drop, List.length_drop]
    have hk' : (k + ((base ++ [c.entry]).length - k - maxLogs) = 0 ∨
        maxLogs ≤ (base ++ [c.entry]).length - (k + ((base ++ [c.entry]).length - k - maxLogs))) := by
      simp only [List.length_append, List.length_singleton]
      unfold maxLogs at *
      omega
    exact ⟨⟨_, rfl, hk'⟩, hshow _ hk'⟩
  · simp only [hd]
    have hk' : (k = 0 ∨ maxLogs ≤ (base ++ [c.entry]).length - k) := by
      simp only [List.length_append, List.length_singleton]
      unfold maxLogs at *
      omega
    exact ⟨⟨k, rfl, hk'⟩, hshow k hk'⟩

/-- After a non-empty sequence of `addLog` calls on an open connection, the
history staying chronological, the panel shows the newest entries of the whole
history. -/
theorem addLogAll_display (calls : List LogCall) :
    ∀ (w : World) (base : List LogEntry) (k : Nat), w.page.db = true →
      w.store.logs = base.drop k → (k = 0 ∨ maxLogs ≤ base.length - k) →
      Chronological (base ++ calls.map LogCall.entry) → calls ≠ [] →
      (addLogAll w calls).page.logEntries =
        (base ++ calls.map LogCall.entry).reverse.take displayLogs := by
  induction calls with
  | nil => intro w base k _ _ _ _ hne; exact absurd rfl hne
  | cons c cs ih =>
    intro w base k hdb hlogs hk hchron _
    have hchron' : Chronological ((base ++ [c.entry]) ++ cs.map LogCall.entry) := by
      simpa [List.append_assoc] using hchron
    have hc1 : Chronological (base ++ [c.entry]) :=
      List.Pairwise.sublist (List.sublist_append_left _ _) hchron'
    obtain ⟨hdb', ⟨k', hlogs', hk'⟩, hshow⟩ :=
      addLog_suffix c w base k hdb hlogs hk hc1
    simp only [addLogAll]
    cases cs with
    | nil => simpa [addLogAll, LogCall.entry] using hshow
    | cons c2 cs2 =>
      have := ih (addLog c.message c.stamp c.draw w) (base ++ [c.entry]) k' hdb' hlogs' hk'
        hchron' (by simp)
      simpa [List.append_assoc] using this

end App

namespace App

/-- C9: on an open connection, for every log store whose timestamps do not
decrease in insertion order (ties included), `refreshLogDisplay` renders exactly
`min 10 n` entries, the most recently inserted ones, newest first; and after 60
`addLog` calls that keep the history chronological (whatever their random
draws prune), the panel shows the last 10 entries inserted, newest first. -/
theorem refreshLogDisplay_shows_newest (w : World) (hdb : w.page.db = true)
    (hchron : Chronological w.store.logs) :
    (refreshLogDisplay w).page.logEntries = w.store.logs.reverse.take 10 ∧
    (refreshLogDisplay w).page.logEntries.length = min 10 w.store.logs.length ∧
    (∀ calls : List LogCall, calls.length = 60 →
      Chronological (w.store.logs ++ calls.map LogCall.entry) →
      (addLogAll w calls).page.logEntries = (calls.map LogCall.entry).reverse.take 10 ∧
      (addLogAll w calls).page.logEntries.length = 10) := by
  have h1 : (refreshLogDisplay w).page.logEntries = w.store.logs.reverse.take 10 := by
    rw [refreshLogDisplay_eq]
    simp only [hdb, if_true]
    exact recentLogs_of_chronological _ hchron
  refine ⟨h1, ?_, ?_⟩
  · rw [h1, List.length_take, List.length_reverse]
  · intro calls hlen hc
    have hne : calls ≠ [] := by
      intro h; rw [h] at hlen; simp at hlen
    have hshow := addLogAll_display calls w w.store.logs 0 hdb rfl (Or.inl rfl) hc hne
    have heq : (addLogAll w calls).page.logEntries =
        (calls.map LogCall.entry).reverse.take 10 := by
      rw [hshow, List.reverse_append]
      exact List.take_append_of_le_length (by simp [hlen, displayLogs])
    refine ⟨heq, ?_⟩
    rw [heq, List.length_take, List.length_reverse, List.length_map, hlen]
    rfl

/-- C9, at a concrete input: three entries, the last two with the same
timestamp, are rendered newest first. -/
theorem refreshLogDisplay_shows_newest_witness :
    (refreshLogDisplay { scenarioWorld with store := { scenarioWorld.store with
        logs := [⟨"a", 1⟩, ⟨"b", 2⟩, ⟨"c", 2⟩] } }).page.logEntries =
      [⟨"c", 2⟩, ⟨"b", 2⟩, ⟨"a", 1⟩] :=
  (refreshLogDisplay_shows_newest { scenarioWorld with store := { scenarioWorld.store with
      logs := [⟨"a", 1⟩, ⟨"b", 2⟩, ⟨"c", 2⟩] } } rfl (by unfold Chronological; decide)).1

/-- C10: on an open connection, a `cleanOldLogs` run leaves exactly `min n 50`
entries: the records it keeps, with their keys, are the first 50 the backwards
`timestamp` cursor visits (none of which is older than any record visited
later), in their stored order; so a store of at most 50 entries is unchanged
and a second run changes nothing more. `addLog` adds exactly one entry and
prunes exactly when its random draw is below 0.05. -/
theorem cleanOldLogs_keeps_newest (w : World) (hdb : w.page.db = true) :
    (cleanOldLogs w).store.logs.length = min w.store.logs.length 50 ∧
    (∃ kept : List (Nat × LogEntry), kept.Sublist w.store.logs.enum ∧
      kept.Perm ((cursorPrev w.store.logs).take 50) ∧
      (cleanOldLogs w).store.logs = kept.map Prod.snd) ∧
    (∀ a ∈ (cursorPrev w.store.logs).take 50, ∀ b ∈ (cursorPrev w.store.logs).drop 50,
      b.2.timestamp ≤ a.2.timestamp) ∧
    (w.store.logs.length ≤ 50 → cleanOldLogs w = w) ∧
    cleanOldLogs (cleanOldLogs w) = cleanOldLogs w ∧
    (∀ (m : String) (t : Int) (d : Draw),
      (addLog m t d w).store.logs =
        (if d.lt 5 100 then pruneLogs (w.store.logs ++ [⟨m, t⟩])
          else w.store.logs ++ [⟨m, t⟩]) ∧
      (d.lt 5 100 = false →
        (addLog m t d w).store.logs.length = w.store.logs.length + 1)) := by
  have hlogs : (cleanOldLogs w).store.logs = pruneLogs w.store.logs := by
    rw [cleanOldLogs_eq]; simp only [hdb, if_true]
  refine ⟨?_, ?_, ?_, ?_, ?_, ?_⟩
  · rw [hlogs]; exact pruneLogs_length _
  · obtain ⟨kept, h1, h2, h3⟩ := pruneLogs_kept w.store.logs
    exact ⟨kept, h1, h2, hlogs.trans h3⟩
  · intro a ha b hb
    have hd := cursorPrev_descending w.store.logs
    rw [← List.take_append_drop 50 (cursorPrev w.store.logs), List.pairwise_append] at hd
    exact hd.2.2 a ha b hb
  · intro hshort
    rw [cleanOldLogs_eq]
    simp only [hdb, if_true, pruneLogs_of_short _ hshort]
  · rw [cleanOldLogs_eq, cleanOldLogs_eq]
    simp only [hdb, if_true, pruneLogs_idempotent]
  · intro m t d
    have h : (addLog m t d w).store.logs =
        (if d.lt 5 100 then pruneLogs (w.store.logs ++ [⟨m, t⟩])
          else w.store.logs ++ [⟨m, t⟩]) := by
      rw [addLog_eq]; simp only [hdb, if_true]
    refine ⟨h, fun hd => ?_⟩
    rw [h, hd]
    simp

/-- C10, at a concrete input: a store of 51 entries is cut to 50. -/
theorem cleanOldLogs_keeps_newest_witness :
    (cleanOldLogs { scenarioWorld with store := { scenarioWorld.store with
        logs := (List.range 51).map (fun i => ⟨"entry", i⟩) } }).store.logs.length = 50 :=
  (cleanOldLogs_keeps_newest { scenarioWorld with store := { scenarioWorld.store with
      logs := (List.range 51).map (fun i => ⟨"entry", i⟩) } } rfl).1.trans (by decide)

end App

/-! ## The worker's delivery paths -/

namespace ServiceWorker

/-- On a database above version 1 (as the page's `initDB` leaves it) the
worker's `sendHeartbeat` is refused at `openDB`, in the `try` block and again
in the `catch` block: the promise rejects and nothing else happens. -/
theorem sendHeartbeat_refused (env : BeatEnv) (w : World) (h : 1 < w.database.version) :
    sendHeartbeat env w = { world := w, rejected := some { statusCode := none }, posted := [] } := by
  have hopen : (openDB w).2 = false := by
    rw [openDB_ok]
    simp only [decide_eq_false_iff_not]
    omega
  unfold sendHeartbeat sendHeartbeatCatch
  simp [hopen]

/-- On a database the worker can open that holds no configuration, or a
disabled one, the worker's `sendHeartbeat` returns at once: the promise
resolves, nothing is requested, logged or posted. -/
theorem sendHeartbeat_idle (env : BeatEnv) (w : World) (hver : w.database.version ≤ 1)
    (hopen : env.openOk = true) (hoff : ∀ c, w.store.settings = some c → c.enabled = false) :
    ∃ d, sendHeartbeat env w =
      { world := { w with database := d }, rejected := none, posted := [] } := by
  obtain ⟨d, hd⟩ := openDB_frame w
  have hok : (openDB w).2 = true := by
    rw [openDB_ok]
    simpa using hver
  refine ⟨d, ?_⟩
  unfold sendHeartbeat getConfig
  simp only [hopen, hok, Bool.and_self, Bool.not_true, Bool.false_eq_true, if_false]
  rw [hd]
  cases hc : w.store.settings with
  | none => simp [hc]
  | some c => simp [hc, hoff c hc]

/-- The `catch` block of the worker's `sendHeartbeat` leaves the push
subscription, posts nothing, and rejects only with an error without
`statusCode`. -/
theorem sendHeartbeatCatch_frame (env : BeatEnv) (m : String) (w : World) :
    (sendHeartbeatCatch env m w).world.pushSubscription = w.pushSubscription ∧
    (sendHeartbeatCatch env m w).posted = [] ∧
    ((sendHeartbeatCatch env m w).rejected = none ∨
      (sendHeartbeatCatch env m w).rejected = some { statusCode := none }) := by
  obtain ⟨d, hd⟩ := openDB_frame w
  unfold sendHeartbeatCatch
  dsimp only
  split_ifs
  · rw [hd]; exact ⟨rfl, rfl, Or.inl rfl⟩
  · exact ⟨rfl, rfl, Or.inr rfl⟩

/-- The worker's `sendHeartbeat` leaves the push subscription, posts no
`push-subscription-expired` message, and rejects only with an error without
`statusCode`, whatever the server answers. -/
theorem sendHeartbeat_frame (env : BeatEnv) (w : World) :
    (sendHeartbeat env w).world.pushSubscription = w.pushSubscription ∧
    (∀ m, ClientMessage.pushSubscriptionExpired m ∉ (sendHeartbeat env w).posted) ∧
    ((sendHeartbeat env w).rejected = none ∨
      (sendHeartbeat env w).rejected = some { statusCode := none }) := by
  have hcatch : ∀ (m : String) (v : World), v.pushSubscription = w.pushSubscription →
      (sendHeartbeatCatch env m v).world.pushSubscription = w.pushSubscription ∧
      (∀ x, ClientMessage.pushSubscriptionExpired x ∉ (sendHeartbeatCatch env m v).posted) ∧
      ((sendHeartbeatCatch env m v).rejected = none ∨
        (sendHeartbeatCatch env m v).rejected = some { statusCode := none }) := by
    intro m v hv
    obtain ⟨c1, c2, c3⟩ := sendHeartbeatCatch_frame env m v
    exact ⟨c1.trans hv, fun x => by rw [c2]; simp, c3⟩
  obtain ⟨d, hd⟩ := openDB_frame w
  unfold sendHeartbeat
  dsimp only
  split_ifs
  · exact hcatch _ w rfl
  · rw [hd]
    dsimp only
    cases getConfig w.store with
    | none => exact ⟨rfl, fun x => by simp, Or.inl rfl⟩
    | some config =>
      dsimp only
      split_ifs
      · exact ⟨rfl, fun x => by simp, Or.inl rfl⟩
      · exact ⟨rfl, fun x => by simp, Or.inl rfl⟩
      · cases env.fetch with
        | response status =>
          dsimp only
          split_ifs
          · exact ⟨rfl, fun x => by simp, Or.inl rfl⟩
          · exact ⟨rfl, fun x => by simp, Or.inl rfl⟩
        | networkError message => exact hcatch message _ rfl

/-- A worker run whose guard passes and whose request is answered with a
status outside 200-299 only logs the failure: the promise resolves. -/
theorem sendHeartbeat_of_failure_status (env : BeatEnv) (w : World) (status : Nat)
    (hgo : attempts env w = true) (hf : env.fetch = FetchResult.response status)
    (hok : responseOk status = false) :
    (sendHeartbeat env w).rejected = none ∧ (sendHeartbeat env w).posted = [] := by
  obtain ⟨d, hd⟩ := openDB_frame w
  unfold attempts getConfig at hgo
  cases hc : w.store.settings with
  | none => simp [hc] at hgo
  | some config =>
    simp only [hc, Bool.and_eq_true, Bool.not_eq_true'] at hgo
    obtain ⟨⟨h0, h0b⟩, h1, h2⟩ := hgo
    unfold sendHeartbeat getConfig
    simp only [h0, h0b, Bool.and_self, Bool.not_true, Bool.false_eq_true, if_false]
    rw [hd]
    simp [hc, h1, h2, hf, hok]

end ServiceWorker

/-- The requests after a page tick whose guard passes: one more, the POST to
`/api/beat`. -/
theorem App.sendHeartbeat_requests (env : App.TickEnv) (w : World)
    (h : App.attempts env.now w.page = true) :
    (App.sendHeartbeat env w).requests = w.requests ++ [App.beatRequest w.page.config] := by
  rw [App.sendHeartbeat_of_attempts env w h]
  cases env.fetch with
  | response status =>
    by_cases hok : responseOk status = true <;>
      simp [hok, App.addLog_eq, App.saveBeatCount_eq, App.updateStatus, App.showNotification_eq]
  | networkError message =>
    simp only [App.addLog_eq, App.updateStatus, App.showNotification_eq, syncRegister_eq]
    split_ifs <;> simp

/-- When the request of the worker's delivery is answered with a status outside
200-299 (404 and 410 included), the promise of `sendHeartbeat` resolves, and
with permission granted the `push` listener shows the notification
`Server Check` of a successful heartbeat. -/
theorem push_failure_status_shows_success (env : ServiceWorker.BeatEnv) (shownAt : Int)
    (w : World) (status : Nat) (hgo : ServiceWorker.attempts env w = true)
    (hf : env.fetch = FetchResult.response status) (hok : responseOk status = false)
    (hg : w.permission = Permission.granted) :
    (ServiceWorker.sendHeartbeat env w).rejected = none ∧
    (ServiceWorker.onPush (some (ServiceWorker.PushData.json (some "heartbeat-request")))
      env shownAt w).world.notifications =
      w.notifications ++
        [{ title := "Server Check", body := "Server-initiated heartbeat sent successfully",
           tag := "server-heartbeat", shownAt := shownAt }] := by
  obtain ⟨hr, -⟩ := ServiceWorker.sendHeartbeat_of_failure_status env w status hgo hf hok
  refine ⟨hr, ?_⟩
  rw [(ServiceWorker.onPush_notifications _ env shownAt w).1, if_pos ⟨rfl, hg⟩, if_pos hr]

/-- C21 fails on the code: for every push message, every world and every
outcome of the delivery (whatever the database lets the worker do and whatever
the server answers), the `push` listener leaves the push subscription as it is
and posts no `push-subscription-expired` message. The promise of the worker's
`sendHeartbeat` either resolves or rejects with an error that has no
`statusCode`, so the 404/410 test of the `.catch` callback is never true. -/
theorem push_gone_keeps_subscription (data : Option ServiceWorker.PushData)
    (env : ServiceWorker.BeatEnv) (shownAt : Int) (w : World) :
    (ServiceWorker.onPush data env shownAt w).world.pushSubscription = w.pushSubscription ∧
    (∀ m, ClientMessage.pushSubscriptionExpired m ∉
      (ServiceWorker.onPush data env shownAt w).posted) ∧
    ((ServiceWorker.sendHeartbeat env w).rejected = none ∨
      (ServiceWorker.sendHeartbeat env w).rejected = some { statusCode := none }) := by
  refine ⟨?_, ?_, (ServiceWorker.sendHeartbeat_frame env w).2.2⟩
  · obtain ⟨hs, -, hr⟩ := ServiceWorker.sendHeartbeat_frame env w
    unfold ServiceWorker.onPush
    generalize ServiceWorker.sendHeartbeat env w = r at hs hr
    obtain ⟨v, rejected, posted⟩ := r
    simp only at hs hr
    rcases data with _ | _ | type
    · rfl
    · rfl
    · by_cases htype : type = some "heartbeat-request"
      · rcases hr with rfl | rfl
        · by_cases hg : v.permission = Permission.granted <;>
            simp [htype, ServiceWorker.onPushCatch, ServiceWorker.registrationShowNotification,
              platformNotify_eq, hs, hg]
        · by_cases hg : v.permission = Permission.granted <;>
            simp [htype, ServiceWorker.onPushCatch, ServiceWorker.registrationShowNotification,
              platformNotify_eq, hs, hg]
      · simp [htype]
  · obtain ⟨-, hp, hr⟩ := ServiceWorker.sendHeartbeat_frame env w
    unfold ServiceWorker.onPush
    generalize ServiceWorker.sendHeartbeat env w = r at hp hr
    obtain ⟨v, rejected, posted⟩ := r
    simp only at hp hr
    intro m
    rcases data with _ | _ | type
    · simp
    · simp
    · by_cases htype : type = some "heartbeat-request"
      · rcases hr with rfl | rfl
        · by_cases hg : v.permission = Permission.granted <;>
            simp [htype, ServiceWorker.onPushCatch, ServiceWorker.registrationShowNotification,
              platformNotify_eq, hp, hg]
        · by_cases hg : v.permission = Permission.granted <;>
            simp [htype, ServiceWorker.onPushCatch, ServiceWorker.registrationShowNotification,
              platformNotify_eq, hp, hg]
      · simp [htype]

/-- C23 fails on the code: on a database the page has opened (it is then at
version 2), whenever the page's `sendHeartbeat` hands its request to `fetch`,
the worker's `sendHeartbeat` hands nothing to `fetch`, whatever configuration
and activity timestamp are stored: its `openDB`, which asks for version 1, is
refused, and the promise rejects. -/
theorem worker_never_attempts_after_page (tenv : App.TickEnv) (benv : ServiceWorker.BeatEnv)
    (w : World) (hver : w.database.version = 2)
    (hgo : App.attempts tenv.now w.page = true) :
    (App.sendHeartbeat tenv w).requests = w.requests ++ [App.beatRequest w.page.config] ∧
    ServiceWorker.attempts benv w = false ∧
    (ServiceWorker.sendHeartbeat benv w).world.requests = w.requests ∧
    (ServiceWorker.sendHeartbeat benv w).rejected = some { statusCode := none } := by
  have hrun := ServiceWorker.sendHeartbeat_refused benv w (by omega)
  refine ⟨App.sendHeartbeat_requests tenv w hgo, ?_, by rw [hrun], by rw [hrun]⟩
  unfold ServiceWorker.attempts
  rw [ServiceWorker.openDB_ok]
  have : ¬ w.database.version ≤ 1 := by omega
  simp [this]

/-- C23, at the failing input: on `scenarioWorld` (enabled, server and token
configured, no activity detection) the page's tick sends its request and the
worker's run sends none. -/
theorem worker_never_attempts_after_page_witness :
    (App.sendHeartbeat (scenarioTick 1700000001000 (FetchResult.response 200))
      scenarioWorld).requests =
      [{ url := "https://h.example/api/beat", method := "POST",
         headers := [("Auth", "tok123"), ("Device", "dev1")], body := none }] ∧
    (ServiceWorker.sendHeartbeat (scenarioBeat 1700000001000 (FetchResult.response 200))
      scenarioWorld).world.requests = [] :=
  have h := worker_never_attempts_after_page
    (scenarioTick 1700000001000 (FetchResult.response 200))
    (scenarioBeat 1700000001000 (FetchResult.response 200)) scenarioWorld rfl (by decide)
  ⟨h.1, h.2.2.1⟩

/-- C27 fails on the code: when the database cannot be opened, neither at the
top of the `try` block nor inside the `catch` block, the promise of the worker's
`sendHeartbeat` rejects. -/
theorem worker_sendHeartbeat_rejects :
    (ServiceWorker.sendHeartbeat
        { scenarioBeat 1700000001000 (FetchResult.response 200) with
          openOk := false, reopenOk := false, openError := "VersionError" }
        scenarioWorld).rejected = some { statusCode := none } := by
  decide

/-- C28 fails on the code: the page's tick on `scenarioWorld`, the network
being down, background sync supported and registering: the worker's `fetch`
listener answers with a response of status 200, and the page counts a beat,
shows `Connected` and logs a success. -/
theorem queued_beat_counts_as_sent :
    (tickThroughWorker (scenarioTick 1700000001000 (FetchResult.response 0))
        (FetchResult.networkError "Failed to fetch") true scenarioWorld).page.beatCount = 1 ∧
    (tickThroughWorker (scenarioTick 1700000001000 (FetchResult.response 0))
        (FetchResult.networkError "Failed to fetch") true scenarioWorld).store.beatCount
      = some 1 ∧
    (tickThroughWorker (scenarioTick 1700000001000 (FetchResult.response 0))
        (FetchResult.networkError "Failed to fetch") true scenarioWorld).page.statusText
      = "Connected" ∧
    (tickThroughWorker (scenarioTick 1700000001000 (FetchResult.response 0))
        (FetchResult.networkError "Failed to fetch") true scenarioWorld).store.logs
      = [⟨"Heartbeat sent successfully", 1700000001002⟩] ∧
    (tickThroughWorker (scenarioTick 1700000001000 (FetchResult.response 0))
        (FetchResult.networkError "Failed to fetch") true scenarioWorld).syncTags
      = ["send-heartbeat"] := by
  decide

/-- C29 fails on the code: on a database the worker can open (version 0 or 1,
storage available) that holds no configuration or a disabled one, with
permission granted, the worker's `sendHeartbeat` returns at once and its
promise resolves, so the `periodicsync` listener shows `Heartbeat Sent` and
the `push` listener shows `Server Check`, while no request was made. -/
theorem success_notice_without_delivery (env : ServiceWorker.BeatEnv) (shownAt : Int)
    (w : World) (hver : w.database.version ≤ 1) (hopen : env.openOk = true)
    (hoff : ∀ c, w.store.settings = some c → c.enabled = false)
    (hperm : w.permission = Permission.granted) :
    (ServiceWorker.onPeriodicSync "heartbeat-sync" env shownAt w).world.notifications =
      w.notifications ++
        [{ title := "Heartbeat Sent", body := "Background heartbeat successfully sent",
           tag := "background-heartbeat", shownAt := shownAt }] ∧
    (ServiceWorker.onPeriodicSync "heartbeat-sync" env shownAt w).world.requests =
      w.requests ∧
    (ServiceWorker.onPush (some (ServiceWorker.PushData.json (some "heartbeat-request")))
      env shownAt w).world.notifications =
      w.notifications ++
        [{ title := "Server Check", body := "Server-initiated heartbeat sent successfully",
           tag := "server-heartbeat", shownAt := shownAt }] ∧
    (ServiceWorker.onPush (some (ServiceWorker.PushData.json (some "heartbeat-request")))
      env shownAt w).world.requests = w.requests := by
  obtain ⟨d, hrun⟩ := ServiceWorker.sendHeartbeat_idle env w hver hopen hoff
  refine ⟨?_, ?_, ?_, ?_⟩
  · unfold ServiceWorker.onPeriodicSync
    rw [hrun]
    simp [ServiceWorker.registrationShowNotification, platformNotify_eq, hperm]
  · unfold ServiceWorker.onPeriodicSync
    rw [hrun]
    simp [ServiceWorker.registrationShowNotification, platformNotify_eq, hperm]
  · unfold ServiceWorker.onPush
    rw [hrun]
    simp [ServiceWorker.registrationShowNotification, platformNotify_eq, hperm]
  · unfold ServiceWorker.onPush
    rw [hrun]
    simp [ServiceWorker.registrationShowNotification, platformNotify_eq, hperm]

/-- C29, at the failing input: on `scenarioFirstVisit` (no database yet,
nothing stored, permission granted) a `periodicsync` event with tag
`heartbeat-sync` shows `Heartbeat Sent` and makes no request. -/
theorem success_notice_without_delivery_witness :
    (ServiceWorker.onPeriodicSync "heartbeat-sync"
      (scenarioBeat 1700000001000 (FetchResult.response 200)) 1700000001010
      scenarioFirstVisit).world.notifications =
      [{ title := "Heartbeat Sent", body := "Background heartbeat successfully sent",
         tag := "background-heartbeat", shownAt := 1700000001010 }] ∧
    (ServiceWorker.onPeriodicSync "heartbeat-sync"
      (scenarioBeat 1700000001000 (FetchResult.response 200)) 1700000001010
      scenarioFirstVisit).world.requests = [] :=
  have h := success_notice_without_delivery
    (scenarioBeat 1700000001000 (FetchResult.response 200)) 1700000001010 scenarioFirstVisit
    (by decide) rfl (by intro c hc; cases hc) rfl
  ⟨h.1, h.2.1⟩

/-! ## Base64 round trip -/

theorem base64Value_base64Char : ∀ i : Fin 64, base64Value (base64Char i) = some i := by
  decide

theorem base64Char_not_whitespace : ∀ i : Fin 64, isAsciiWhitespace (base64Char i) = false := by
  decide

theorem base64Char_ne_pad : ∀ i : Fin 64, base64Char i ≠ '=' := by decide

theorem fromSextets_toSextets (bytes : Bytes) : fromSextets (toSextets bytes) = bytes := by
  induction bytes using toSextets.induct with
  | case1 => rfl
  | case2 a =>
    simp only [toSextets, fromSextets, List.cons.injEq, and_true]
    apply Fin.ext
    simp only
    omega
  | case3 a b =>
    simp only [toSextets, fromSextets, List.cons.injEq, and_true]
    refine ⟨Fin.ext ?_, Fin.ext ?_⟩ <;> simp only <;> omega
  | case4 a b c rest ih =>
    simp only [toSextets, fromSextets, ih, List.cons.injEq, and_true]
    refine ⟨Fin.ext ?_, Fin.ext ?_, Fin.ext ?_⟩ <;> simp only <;> omega

/-- The number of six-bit groups of `n` bytes, by `n` modulo 3. -/
theorem toSextets_length (bytes : Bytes) :
    (toSextets bytes).length = bytes.length / 3 * 4 +
      (if bytes.length % 3 = 0 then 0 else bytes.length % 3 + 1) := by
  induction bytes using toSextets.induct with
  | case1 => rfl
  | case2 a => simp [toSextets]
  | case3 a b => simp [toSextets]
  | case4 a b c rest ih =>
    simp only [toSextets, List.length_cons, ih]
    split_ifs <;> omega

theorem base64Values_map (sx : List (Fin 64)) :
    base64Values (sx.map base64Char) = some sx := by
  induction sx with
  | nil => rfl
  | cons i sx ih => simp [base64Values, base64Value_base64Char, ih]


theorem filter_whitespace_encoded (sx : List (Fin 64)) (n : Nat) :
    (sx.map base64Char ++ List.replicate n '=').filter (fun c => !isAsciiWhitespace c) =
      sx.map base64Char ++ List.replicate n '=' := by
  rw [List.filter_eq_self]
  intro c hc
  rw [List.mem_append] at hc
  rcases hc with hc | hc
  · obtain ⟨i, -, rfl⟩ := List.mem_map.mp hc
    simp [base64Char_not_whitespace]
  · rw [List.eq_of_mem_replicate hc]
    decide

theorem stripPadding_encoded (sx : List (Fin 64)) (n : Nat) (hn : n ≤ 2) :
    stripPadding (sx.map base64Char ++ List.replicate n '=') = sx.map base64Char := by
  have hlast : ∀ rest, (sx.map base64Char).reverse ≠ '=' :: rest := by
    intro rest h
    have hm : '=' ∈ sx.map base64Char := by
      rw [← List.mem_reverse, h]; exact List.mem_cons_self _ _
    obtain ⟨i, -, hi⟩ := List.mem_map.mp hm
    exact base64Char_ne_pad i hi
  unfold stripPadding
  rcases n with _ | _ | _ | n
  · simp only [List.replicate_zero, List.append_nil]
    split
    · next rest h => exact absurd h (hlast _)
    · next rest h => exact absurd h (hlast _)
    · rfl
  · cases hr : (sx.map base64Char).reverse with
    | nil =>
      have : sx.map base64Char = [] := by simpa using hr
      simp [this]
    | cons c rest =>
      have hc : c ≠ '=' := fun h => hlast rest (h ▸ hr)
      have hs : sx.map base64Char = rest.reverse ++ [c] := by
        rw [← List.reverse_reverse (sx.map base64Char), hr, List.reverse_cons]
      simp only [List.replicate_succ, List.replicate_zero, List.reverse_append,
        List.reverse_cons, List.reverse_nil, List.nil_append, List.singleton_append, hr]
      split
      · next rest2 h =>
        simp only [List.cons.injEq, true_and] at h
        exact absurd h.1 hc
      · next rest2 h =>
        simp only [List.cons.injEq, true_and] at h
        rw [← h, hs, List.reverse_cons]
      · next h => exact absurd rfl (h _)
  · simp only [List.replicate_succ, List.replicate_zero, List.reverse_append,
      List.reverse_cons, List.reverse_nil, List.nil_append, List.singleton_append,
      List.cons_append]
    exact List.reverse_reverse _
  · omega

/-- `atob` undoes `btoa` on every byte sequence. -/
theorem atob_btoa (bytes : Bytes) : atob (btoa bytes) = some bytes := by
  have hpad : base64Padding bytes.length ≤ 2 := by unfold base64Padding; omega
  have hlen := toSextets_length bytes
  unfold atob btoa
  simp only [filter_whitespace_encoded]
  have h4 : ((toSextets bytes).map base64Char ++
      List.replicate (base64Padding bytes.length) '=').length % 4 = 0 := by
    simp only [List.length_append, List.length_map, List.length_replicate, hlen, base64Padding]
    split_ifs <;> omega
  simp only [h4, if_true, stripPadding_encoded _ _ hpad]
  have h1 : ¬ ((toSextets bytes).map base64Char).length % 4 = 1 := by
    simp only [List.length_map, hlen]
    split_ifs <;> omega
  simp only [h1, if_false, base64Values_map, Option.map_some', fromSextets_toSextets]

theorem btoa_ne_empty (bytes : Bytes) (h : bytes ≠ []) : btoa bytes ≠ "" := by
  intro he
  have := atob_btoa bytes
  rw [he] at this
  have h0 : atob "" = some [] := by decide
  rw [h0] at this
  exact h (Option.some.inj this).symm

theorem base64UrlChar_replaced : ∀ i : Fin 64,
    (fun c => if c = '_' then '/' else c) ((fun c => if c = '-' then '+' else c)
      (base64UrlChar i)) = base64Char i := by
  decide

/-- The text `urlBase64ToUint8Array` hands to `atob` for the URL-safe encoding
of a byte sequence is the padded standard encoding of that sequence. -/
theorem padded_replaced_eq_btoa (bytes : Bytes) :
    String.mk ((((base64UrlEncode bytes) ++ String.mk (List.replicate
      ((4 - (base64UrlEncode bytes).length % 4) % 4) '=')).data.map
        (fun c => if c = '-' then '+' else c)).map (fun c => if c = '_' then '/' else c)) =
      btoa bytes := by
  have hlen : (base64UrlEncode bytes).length = (toSextets bytes).length := by
    simp [base64UrlEncode, String.length]
  have hpad : (4 - (toSextets bytes).length % 4) % 4 = base64Padding bytes.length := by
    rw [toSextets_length]
    unfold base64Padding
    split_ifs <;> omega
  rw [hlen, hpad]
  unfold btoa base64UrlEncode
  congr 1
  simp only [String.data_append, List.map_append, List.map_map, List.map_replicate]
  congr 1
  apply List.map_congr_left
  intro i _
  exact base64UrlChar_replaced i

namespace App

/-- C25: for every byte sequence, `urlBase64ToUint8Array` applied to its
unpadded URL-safe base64 encoding returns exactly its bytes: the text padded
with `(4 - len mod 4) mod 4` characters `=` has a length that is a multiple of
4 and, with `-` and `_` replaced by `+` and `/`, is the standard padded
encoding, which `atob` decodes back byte for byte. -/
theorem urlBase64ToUint8Array_roundtrip (bytes : Bytes) :
    urlBase64ToUint8Array (base64UrlEncode bytes) = some bytes ∧
    ((base64UrlEncode bytes).length + (4 - (base64UrlEncode bytes).length % 4) % 4) % 4 = 0 ∧
    String.mk ((((base64UrlEncode bytes) ++ String.mk (List.replicate
      ((4 - (base64UrlEncode bytes).length % 4) % 4) '=')).data.map
        (fun c => if c = '-' then '+' else c)).map (fun c => if c = '_' then '/' else c)) =
      btoa bytes := by
  refine ⟨?_, by omega, padded_replaced_eq_btoa bytes⟩
  unfold urlBase64ToUint8Array
  simp only [padded_replaced_eq_btoa, atob_btoa]

end App

/-! ## Secrets codec and configuration manager -/

namespace CryptoUtil

/-- `decrypt` returns `null` whenever `atob` throws or the decryption throws,
and the decoded text otherwise. -/
theorem decrypt_eq (P : Primitives) (data : String) (key : CryptoKey) :
    decrypt P data key =
      (atob data).bind (fun combined =>
        (P.aesGcmDecrypt key (combined.take 12) (combined.drop 12)).map P.utf8Decode) := by
  unfold decrypt
  cases atob data with
  | none => rfl
  | some combined =>
    simp only [Option.some_bind]
    cases P.aesGcmDecrypt key (combined.take 12) (combined.drop 12) <;> rfl

/-- C15: `decrypt(encrypt(x, k), k) = x` for every text `x`, key `k` and 12-byte
nonce, given that AES-GCM decryption undoes the encryption of the encoded text
under the same key and nonce and that decoding undoes the UTF-8 encoding of
`x`: the stored text `btoa(nonce ++ ciphertext)` is read back by `atob` as the
same bytes, whose first 12 are the nonce and whose rest is the ciphertext. -/
theorem decrypt_encrypt (P : Primitives) (x : String) (iv : Bytes) (key : CryptoKey)
    (hiv : iv.length = 12)
    (haes : P.aesGcmDecrypt key iv (P.aesGcmEncrypt key iv (P.utf8Encode x)) =
      some (P.utf8Encode x))
    (hutf : P.utf8Decode (P.utf8Encode x) = x) :
    decrypt P (encrypt P x iv key) key = some x ∧
    atob (encrypt P x iv key) = some (iv ++ P.aesGcmEncrypt key iv (P.utf8Encode x)) ∧
    (iv ++ P.aesGcmEncrypt key iv (P.utf8Encode x)).take 12 = iv ∧
    (iv ++ P.aesGcmEncrypt key iv (P.utf8Encode x)).drop 12 =
      P.aesGcmEncrypt key iv (P.utf8Encode x) := by
  have htake : (iv ++ P.aesGcmEncrypt key iv (P.utf8Encode x)).take 12 = iv := by
    rw [← hiv, List.take_left']; rfl
  have hdrop : (iv ++ P.aesGcmEncrypt key iv (P.utf8Encode x)).drop 12 =
      P.aesGcmEncrypt key iv (P.utf8Encode x) := by
    rw [← hiv, List.drop_left']; rfl
  have hatob : atob (encrypt P x iv key) =
      some (iv ++ P.aesGcmEncrypt key iv (P.utf8Encode x)) := by
    unfold encrypt; exact atob_btoa _
  refine ⟨?_, hatob, htake, hdrop⟩
  rw [decrypt_eq, hatob, Option.some_bind, htake, hdrop, haes, Option.map_some', hutf]

/-- C15, at a concrete input, with the stand-in primitives. -/
theorem decrypt_encrypt_witness :
    decrypt scenarioPrimitives (encrypt scenarioPrimitives "tok123" scenarioIv scenarioKey)
      scenarioKey = some "tok123" :=
  (decrypt_encrypt scenarioPrimitives "tok123" scenarioIv scenarioKey
    (by decide) (by decide) (by decide)).1

/-- The stored text of an encryption under a non-empty nonce is not empty. -/
theorem encrypt_truthy (P : Primitives) (x : String) (iv : Bytes) (key : CryptoKey)
    (hiv : iv ≠ []) : truthy (encrypt P x iv key) = true := by
  unfold truthy encrypt
  simp only [bne_iff_ne, ne_eq]
  exact btoa_ne_empty _ (by simp [hiv])

/-- `initializeKey` sets the page's key to the key it returns and touches the
stored key text at most. -/
theorem initializeKey_frame (P : Primitives) (generated : CryptoKey) (w : World) :
    ∃ text : Option String, (initializeKey P generated w).1 =
      { w with
        page := { w.page with cryptoKey := some (initializeKey P generated w).2 },
        localStorage := { w.localStorage with cryptoKey := text } } := by
  unfold initializeKey
  generalize (match w.localStorage.cryptoKey with
    | some storedKey => if truthy storedKey then P.importKey storedKey else none
    | none => none) = imported
  cases imported with
  | none => exact ⟨_, rfl⟩
  | some key => exact ⟨w.localStorage.cryptoKey, rfl⟩

/-- C16: `initializeKey` is idempotent. When a stored key text imports, the key
it imports to is returned and the stored text is unchanged; otherwise (nothing
stored, an empty text, or a failing import) the generated key is returned and
its export stored. Given that the export of the generated key is a non-empty
text that imports back to it, a second call (after a reload or not, whatever
key it would generate) returns the same key and changes nothing; and given
that a stored text which imports is the export of the key it imports to (as
every text written by `initializeKey` is), the stored text after the call is
the export of the returned key. -/
theorem initializeKey_idempotent (P : Primitives) (generated : CryptoKey) (w : World)
    (hlaw : truthy (P.exportKey generated) = true ∧
      P.importKey (P.exportKey generated) = some generated)
    (hstored : ∀ s k, w.localStorage.cryptoKey = some s → P.importKey s = some k →
      P.exportKey k = s) :
    (∀ s k, w.localStorage.cryptoKey = some s → truthy s = true → P.importKey s = some k →
      initializeKey P generated w =
        ({ w with page := { w.page with cryptoKey := some k } }, k)) ∧
    ((w.localStorage.cryptoKey = none ∨ w.localStorage.cryptoKey = some "" ∨
        ∃ s, w.localStorage.cryptoKey = some s ∧ P.importKey s = none) →
      initializeKey P generated w =
        ({ w with
           page := { w.page with cryptoKey := some generated },
           localStorage := { w.localStorage with
             cryptoKey := some (P.exportKey generated) } }, generated)) ∧
    (∀ (generated2 : CryptoKey) (loadedAt : Int),
      initializeKey P generated2 (initializeKey P generated w).1 = initializeKey P generated w ∧
      (initializeKey P generated2
        (freshContext loadedAt none (initializeKey P generated w).1)).2 =
        (initializeKey P generated w).2) ∧
    (initializeKey P generated w).1.localStorage.cryptoKey =
      some (P.exportKey (initializeKey P generated w).2) ∧
    (initializeKey P generated w).1.page.cryptoKey = some (initializeKey P generated w).2 := by
  have hcases : (∃ s k, w.localStorage.cryptoKey = some s ∧ truthy s = true ∧
        P.importKey s = some k ∧
        initializeKey P generated w =
          ({ w with page := { w.page with cryptoKey := some k } }, k)) ∨
      (initializeKey P generated w =
        ({ w with
           page := { w.page with cryptoKey := some generated },
           localStorage := { w.localStorage with
             cryptoKey := some (P.exportKey generated) } }, generated)) := by
    unfold initializeKey
    cases hs : w.localStorage.cryptoKey with
    | none => right; rfl
    | some s =>
      by_cases ht : truthy s = true
      · cases hi : P.importKey s with
        | none => right; simp [ht, hi]
        | some k => left; exact ⟨s, k, rfl, ht, hi, by simp [ht, hi]⟩
      · right; simp [ht]
  refine ⟨?_, ?_, ?_, ?_, ?_⟩
  · intro s k hs ht hi
    unfold initializeKey
    simp [hs, ht, hi]
  · intro h
    unfold initializeKey
    rcases h with h | h | ⟨s, h, hi⟩
    · simp [h]
    · simp [h, truthy]
    · by_cases ht : truthy s = true <;> simp [h, ht, hi]
  · intro generated2 loadedAt
    rcases hcases with ⟨s, k, hs, ht, hi, he⟩ | he
    · rw [he]
      constructor
      · unfold initializeKey; simp [hs, ht, hi]
      · unfold initializeKey freshContext; simp [hs, ht, hi]
    · rw [he]
      constructor
      · unfold initializeKey; simp [hlaw.1, hlaw.2]
      · unfold initializeKey freshContext; simp [hlaw.1, hlaw.2]
  · rcases hcases with ⟨s, k, hs, ht, hi, he⟩ | he
    · rw [he]; simp only [hs, hstored s k hs hi]
    · rw [he]
  · rcases hcases with ⟨s, k, hs, ht, hi, he⟩ | he <;> rw [he]

/-- C16, at a concrete input: on `scenarioWorld`, where no key is stored, the
first call stores the generated key and a second call, which would generate
another key, returns the first. -/
theorem initializeKey_idempotent_witness :
    (initializeKey scenarioPrimitives otherKey
      (initializeKey scenarioPrimitives scenarioKey scenarioWorld).1).2 = scenarioKey :=
  (congrArg Prod.snd ((initializeKey_idempotent scenarioPrimitives scenarioKey scenarioWorld
    (by decide) (by intro s k hs; exact absurd hs (by simp [scenarioWorld, World.initial]))).2.2.1
      otherKey 0).1).trans
    (by decide)

end CryptoUtil

namespace App

/-- `startHeartbeat` touches the timer, the tick count and the status only. -/
theorem startHeartbeat_frame (w : World) :
    (startHeartbeat w).page.config = w.page.config ∧
    (startHeartbeat w).page.db = w.page.db ∧
    (startHeartbeat w).page.beatCount = w.page.beatCount ∧
    (startHeartbeat w).page.cryptoKey = w.page.cryptoKey ∧
    (startHeartbeat w).store = w.store ∧
    (startHeartbeat w).localStorage = w.localStorage ∧
    (startHeartbeat w).requests = w.requests := by
  unfold startHeartbeat updateStatus
  cases w.page.heartbeatInterval with
  | none => simp
  | some handle => by_cases h : handle = 0 <;> simp [h]

/-- `updateUIFromConfig` touches the form, the timer, the tick count and the
status only. -/
theorem updateUIFromConfig_frame (w : World) :
    (updateUIFromConfig w).page.config = w.page.config ∧
    (updateUIFromConfig w).page.db = w.page.db ∧
    (updateUIFromConfig w).page.beatCount = w.page.beatCount ∧
    (updateUIFromConfig w).page.cryptoKey = w.page.cryptoKey ∧
    (updateUIFromConfig w).store = w.store ∧
    (updateUIFromConfig w).localStorage = w.localStorage ∧
    (updateUIFromConfig w).requests = w.requests := by
  unfold updateUIFromConfig
  by_cases h : w.page.config.enabled = true
  · simp only [h, if_true]
    obtain ⟨h1, h2, h3, h4, h5, h6, h7⟩ := startHeartbeat_frame
      { w with page := { w.page with
          inputServerUrl := w.page.config.serverUrl,
          inputAuthToken := w.page.config.authToken,
          inputDeviceName := w.page.config.deviceName,
          inputVapidPublicKey := w.page.config.vapidPublicKey,
          enableToggleActive := true } }
    exact ⟨h1, h2, h3, h4, h5, h6, h7⟩
  · simp [h]

/-- The effect of `saveConfig` on an open connection, the key being the page's
key when it is set and the key `initializeKey` returns otherwise. -/
theorem saveConfig_eq (P : Primitives) (env : SaveEnv) (w : World) (hdb : w.page.db = true) :
    ∃ key : CryptoKey, (∀ k, w.page.cryptoKey = some k → key = k) ∧
      (saveConfig P env w).2 = true ∧
      (saveConfig P env w).1.page.cryptoKey = some key ∧
      (saveConfig P env w).1.page.config = w.page.config ∧
      (saveConfig P env w).1.page.db = true ∧
      (saveConfig P env w).1.store.settings = some (configToSave P env key w.page.config) ∧
      (saveConfig P env w).1.localStorage.config = some (sanitizedConfig w.page.config) ∧
      (saveConfig P env w).1.requests = w.requests := by
  unfold saveConfig
  cases hk : w.page.cryptoKey with
  | some key =>
    refine ⟨key, fun k h => Option.some.inj h, ?_⟩
    simp [hdb, hk]
  | none =>
    refine ⟨(CryptoUtil.initializeKey P env.generated w).2, fun k h => by simp at h, ?_⟩
    obtain ⟨text, hinit⟩ := CryptoUtil.initializeKey_frame P env.generated w
    simp only [hk, hinit, hdb, if_true]
    simp

/-- C14: on an open connection `saveConfig` writes to `localStorage` the record
of `serverUrl`, `deviceName`, `enabled`, `activityDetection` and `pushEnabled`
only, the same for any two configurations that differ only in `authToken` or
`vapidPublicKey`; and the record it writes to the `config` store holds, for
every non-empty `authToken` / `vapidPublicKey`, the ciphertext that
`CryptoUtil.encrypt` yields under the page's key, with the flag
`authTokenEncrypted` / `vapidKeyEncrypted` set. -/
theorem saveConfig_keeps_secrets (P : Primitives) (env : SaveEnv) (w : World)
    (hdb : w.page.db = true) :
    (saveConfig P env w).1.localStorage.config =
      some { serverUrl := w.page.config.serverUrl, deviceName := w.page.config.deviceName,
             enabled := w.page.config.enabled,
             activityDetection := w.page.config.activityDetection,
             pushEnabled := w.page.config.pushEnabled } ∧
    (∀ authToken vapidPublicKey : String,
      (saveConfig P env { w with page := { w.page with config := { w.page.config with
          authToken := authToken, vapidPublicKey := vapidPublicKey } } }).1.localStorage.config =
        (saveConfig P env w).1.localStorage.config) ∧
    (∃ (key : CryptoKey) (stored : StoredConfig),
      (saveConfig P env w).1.page.cryptoKey = some key ∧
      (saveConfig P env w).1.store.settings = some stored ∧
      (w.page.config.authToken ≠ "" →
        stored.authToken = CryptoUtil.encrypt P w.page.config.authToken env.ivAuthToken key ∧
        stored.authTokenEncrypted = true) ∧
      (w.page.config.vapidPublicKey ≠ "" →
        stored.vapidPublicKey =
          CryptoUtil.encrypt P w.page.config.vapidPublicKey env.ivVapidPublicKey key ∧
        stored.vapidKeyEncrypted = true)) := by
  obtain ⟨key, -, -, hk, -, -, hs, hm, -⟩ := saveConfig_eq P env w hdb
  refine ⟨hm, ?_, key, _, hk, hs, ?_, ?_⟩
  · intro authToken vapidPublicKey
    obtain ⟨-, -, -, -, -, -, -, hm2, -⟩ := saveConfig_eq P env
      { w with page := { w.page with config := { w.page.config with
          authToken := authToken, vapidPublicKey := vapidPublicKey } } } hdb
    rw [hm2, hm]
    rfl
  · intro h
    have ht : truthy w.page.config.authToken = true := by simpa [truthy] using h
    simp [configToSave, ht]
  · intro h
    have ht : truthy w.page.config.vapidPublicKey = true := by simpa [truthy] using h
    simp [configToSave, ht]

/-- C14, at a concrete input: `scenarioConfig` with the stand-in primitives. -/
theorem saveConfig_keeps_secrets_witness :
    (saveConfig scenarioPrimitives scenarioSave scenarioWorld).1.localStorage.config =
      some { serverUrl := "https://h.example", deviceName := "dev1", enabled := true,
             activityDetection := false, pushEnabled := false } :=
  (saveConfig_keeps_secrets scenarioPrimitives scenarioSave scenarioWorld rfl).1

end App

namespace App

/-- The configuration `loadStored` leaves in the page. -/
theorem loadStored_config (P : Primitives) (key : CryptoKey) (st : StoredConfig) (w : World) :
    (loadStored P key st w).page.config =
      { serverUrl := if truthy st.serverUrl then st.serverUrl else w.page.config.serverUrl,
        deviceName := if truthy st.deviceName then st.deviceName else w.page.config.deviceName,
        enabled := st.enabled || w.page.config.enabled,
        activityDetection := st.activityDetection,
        pushEnabled := st.pushEnabled || w.page.config.pushEnabled,
        authToken :=
          if st.authTokenEncrypted && truthy st.authToken then
            (CryptoUtil.decrypt P st.authToken key).getD ""
          else st.authToken,
        vapidPublicKey :=
          if st.vapidKeyEncrypted && truthy st.vapidPublicKey then
            (CryptoUtil.decrypt P st.vapidPublicKey key).getD ""
          else st.vapidPublicKey } := by
  unfold loadStored
  rw [(updateUIFromConfig_frame _).1]

/-- The configuration `loadConfig` leaves in a page with an open connection, a
mirror record `m` and a stored record `st`; the key is the page's key when it
is set and the key `initializeKey` returns otherwise. -/
theorem loadConfig_config (P : Primitives) (generated : CryptoKey) (w : World)
    (m : SanitizedConfig) (st : StoredConfig) (hdb : w.page.db = true)
    (hm : w.localStorage.config = some m) (hst : w.store.settings = some st) :
    ∃ key : CryptoKey, (∀ k, w.page.cryptoKey = some k → key = k) ∧
      (loadConfig P generated w).page.config =
        { serverUrl := if truthy st.serverUrl then st.serverUrl else m.serverUrl,
          deviceName :=
            if truthy st.deviceName then st.deviceName
            else if truthy m.deviceName then m.deviceName else "PWA Device",
          enabled := st.enabled || m.enabled,
          activityDetection := st.activityDetection,
          pushEnabled := st.pushEnabled || m.pushEnabled,
          authToken :=
            if st.authTokenEncrypted && truthy st.authToken then
              (CryptoUtil.decrypt P st.authToken key).getD ""
            else st.authToken,
          vapidPublicKey :=
            if st.vapidKeyEncrypted && truthy st.vapidPublicKey then
              (CryptoUtil.decrypt P st.vapidPublicKey key).getD ""
            else st.vapidPublicKey } := by
  have hmain : ∀ (v : World) (key : CryptoKey), v.page.db = true →
      v.localStorage.config = some m → v.store.settings = some st →
      (refreshLogDisplay (loadBeatCount
        (match (loadMirror v).store.settings with
          | some storedConfig => loadStored P key storedConfig (loadMirror v)
          | none => loadMirror v))).page.config =
        { serverUrl := if truthy st.serverUrl then st.serverUrl else m.serverUrl,
          deviceName :=
            if truthy st.deviceName then st.deviceName
            else if truthy m.deviceName then m.deviceName else "PWA Device",
          enabled := st.enabled || m.enabled,
          activityDetection := st.activityDetection,
          pushEnabled := st.pushEnabled || m.pushEnabled,
          authToken :=
            if st.authTokenEncrypted && truthy st.authToken then
              (CryptoUtil.decrypt P st.authToken key).getD ""
            else st.authToken,
          vapidPublicKey :=
            if st.vapidKeyEncrypted && truthy st.vapidPublicKey then
              (CryptoUtil.decrypt P st.vapidPublicKey key).getD ""
            else st.vapidPublicKey } := by
    intro v key hvdb hvm hvst
    have hmir : (loadMirror v).store.settings = some st := by
      unfold loadMirror; rw [hvm]; exact hvst
    rw [hmir]
    simp only [refreshLogDisplay_eq, loadBeatCount_eq, loadStored_config]
    unfold loadMirror
    rw [hvm]
  unfold loadConfig
  cases hk : w.page.cryptoKey with
  | some key =>
    refine ⟨key, fun k h => Option.some.inj h, ?_⟩
    have hdb' : (loadMirror w).page.db = true := by
      unfold loadMirror; rw [hm]; exact hdb
    simp only [hdb', if_true]
    exact hmain w key hdb hm hst
  | none =>
    refine ⟨(CryptoUtil.initializeKey P generated w).2, fun k h => by simp at h, ?_⟩
    obtain ⟨text, hinit⟩ := CryptoUtil.initializeKey_frame P generated w
    have hdb' : (loadMirror (CryptoUtil.initializeKey P generated w).1).page.db = true := by
      unfold loadMirror; rw [hinit]; simp only [hm]; exact hdb
    simp only [hdb', if_true]
    exact hmain _ _ (by rw [hinit]; exact hdb) (by rw [hinit]; exact hm) (by rw [hinit]; exact hst)

end App

namespace App

/-- C11 as stated fails: a configuration with an empty `deviceName`, saved and
loaded in a fresh context, comes back with the device name `PWA Device`. -/
theorem empty_device_name_not_restored :
    scenarioUnnamed.page.config.deviceName = "" ∧
    (loadConfig scenarioPrimitives otherKey (freshContext 1700000100000 none
      (saveConfig scenarioPrimitives scenarioSave scenarioUnnamed).1)).page.config.deviceName
      = "PWA Device" := by
  decide

/-- C11, amended: on an open connection, `saveConfig` followed by `loadConfig`
in a fresh context returns `serverUrl`, `enabled`, `activityDetection` and
`pushEnabled` equal to those saved, empty and false values included, and
`deviceName` equal to the one saved when that is not empty; an empty
`deviceName` comes back as the default `PWA Device`. -/
theorem save_load_plain_fields (P : Primitives) (env : SaveEnv) (w : World)
    (generated : CryptoKey) (loadedAt : Int) (key : Option CryptoKey)
    (hdb : w.page.db = true) :
    (loadConfig P generated (freshContext loadedAt key (saveConfig P env w).1)).page.config.serverUrl
      = w.page.config.serverUrl ∧
    (loadConfig P generated (freshContext loadedAt key (saveConfig P env w).1)).page.config.enabled
      = w.page.config.enabled ∧
    (loadConfig P generated
      (freshContext loadedAt key (saveConfig P env w).1)).page.config.activityDetection
      = w.page.config.activityDetection ∧
    (loadConfig P generated
      (freshContext loadedAt key (saveConfig P env w).1)).page.config.pushEnabled
      = w.page.config.pushEnabled ∧
    (loadConfig P generated
      (freshContext loadedAt key (saveConfig P env w).1)).page.config.deviceName
      = (if w.page.config.deviceName = "" then "PWA Device" else w.page.config.deviceName) := by
  obtain ⟨k, -, -, -, -, -, hs, hm, -⟩ := saveConfig_eq P env w hdb
  obtain ⟨k2, -, hc⟩ := loadConfig_config P generated
    (freshContext loadedAt key (saveConfig P env w).1) _ _ rfl hm hs
  rw [hc]
  simp only [configToSave, sanitizedConfig, ite_self, Bool.or_self, true_and]
  by_cases hd : w.page.config.deviceName = ""
  · simp [hd, truthy]
  · simp [hd, truthy]

/-- C11 amended, at a concrete input: `scenarioConfig` comes back with its
server, its device name and its flags. -/
theorem save_load_plain_fields_witness :
    (loadConfig scenarioPrimitives otherKey (freshContext 1700000100000 none
      (saveConfig scenarioPrimitives scenarioSave scenarioKeyed).1)).page.config.serverUrl
      = "https://h.example" :=
  (save_load_plain_fields scenarioPrimitives scenarioSave scenarioKeyed otherKey
    1700000100000 none rfl).1

/-- C12: on an open connection, with 12-byte nonces, `saveConfig` under the key
`key` followed by `loadConfig` in a fresh context holding the key `key2`: a
secret whose ciphertext `key2` decrypts back to it (as the same key does when
`decrypt(encrypt(x, k), k) = x`) is returned as saved; a secret whose
ciphertext `key2` fails to decrypt (the key was lost or rotated) is returned as
the empty string; an empty secret is stored as it is, without the flag, and
returned as the empty string. -/
theorem save_load_secrets (P : Primitives) (env : SaveEnv) (w : World)
    (generated key key2 : CryptoKey) (loadedAt : Int)
    (hdb : w.page.db = true) (hkey : (saveConfig P env w).1.page.cryptoKey = some key)
    (hiv1 : env.ivAuthToken.length = 12) (hiv2 : env.ivVapidPublicKey.length = 12) :
    (CryptoUtil.decrypt P (CryptoUtil.encrypt P w.page.config.authToken env.ivAuthToken key) key2
        = some w.page.config.authToken →
      (loadConfig P generated (freshContext loadedAt (some key2)
        (saveConfig P env w).1)).page.config.authToken = w.page.config.authToken) ∧
    (CryptoUtil.decrypt P
        (CryptoUtil.encrypt P w.page.config.vapidPublicKey env.ivVapidPublicKey key) key2
        = some w.page.config.vapidPublicKey →
      (loadConfig P generated (freshContext loadedAt (some key2)
        (saveConfig P env w).1)).page.config.vapidPublicKey = w.page.config.vapidPublicKey) ∧
    (CryptoUtil.decrypt P (CryptoUtil.encrypt P w.page.config.authToken env.ivAuthToken key) key2
        = none →
      (loadConfig P generated (freshContext loadedAt (some key2)
        (saveConfig P env w).1)).page.config.authToken = "") ∧
    (CryptoUtil.decrypt P
        (CryptoUtil.encrypt P w.page.config.vapidPublicKey env.ivVapidPublicKey key) key2
        = none →
      (loadConfig P generated (freshContext loadedAt (some key2)
        (saveConfig P env w).1)).page.config.vapidPublicKey = "") ∧
    (w.page.config.authToken = "" →
      (∃ stored, (saveConfig P env w).1.store.settings = some stored ∧
        stored.authToken = "" ∧ stored.authTokenEncrypted = false) ∧
      (loadConfig P generated (freshContext loadedAt (some key2)
        (saveConfig P env w).1)).page.config.authToken = "") ∧
    (w.page.config.vapidPublicKey = "" →
      (∃ stored, (saveConfig P env w).1.store.settings = some stored ∧
        stored.vapidPublicKey = "" ∧ stored.vapidKeyEncrypted = false) ∧
      (loadConfig P generated (freshContext loadedAt (some key2)
        (saveConfig P env w).1)).page.config.vapidPublicKey = "") := by
  obtain ⟨k, -, -, hk, -, -, hs, hm, -⟩ := saveConfig_eq P env w hdb
  have hkk : k = key := Option.some.inj (hk.symm.trans hkey)
  subst hkk
  obtain ⟨k2, hk2, hc⟩ := loadConfig_config P generated
    (freshContext loadedAt (some key2) (saveConfig P env w).1) _ _ rfl hm hs
  have hk2' : k2 = key2 := hk2 key2 rfl
  subst hk2'
  rw [hc]
  have ht1 : ∀ x, truthy (CryptoUtil.encrypt P x env.ivAuthToken k) = true := fun x =>
    CryptoUtil.encrypt_truthy P x _ k (by intro h; rw [h] at hiv1; simp at hiv1)
  have ht2 : ∀ x, truthy (CryptoUtil.encrypt P x env.ivVapidPublicKey k) = true := fun x =>
    CryptoUtil.encrypt_truthy P x _ k (by intro h; rw [h] at hiv2; simp at hiv2)
  refine ⟨?_, ?_, ?_, ?_, ?_, ?_⟩
  · intro h
    by_cases ht : truthy w.page.config.authToken = true
    · simp [configToSave, ht, ht1, h]
    · have h0 : w.page.config.authToken = "" := by simpa [truthy] using ht
      simp [configToSave, h0, truthy]
  · intro h
    by_cases ht : truthy w.page.config.vapidPublicKey = true
    · simp [configToSave, ht, ht2, h]
    · have h0 : w.page.config.vapidPublicKey = "" := by simpa [truthy] using ht
      simp [configToSave, h0, truthy]
  · intro h
    by_cases ht : truthy w.page.config.authToken = true
    · simp [configToSave, ht, ht1, h]
    · have h0 : w.page.config.authToken = "" := by simpa [truthy] using ht
      simp [configToSave, h0, truthy]
  · intro h
    by_cases ht : truthy w.page.config.vapidPublicKey = true
    · simp [configToSave, ht, ht2, h]
    · have h0 : w.page.config.vapidPublicKey = "" := by simpa [truthy] using ht
      simp [configToSave, h0, truthy]
  · intro h0
    refine ⟨⟨_, hs, ?_, ?_⟩, ?_⟩ <;> simp [configToSave, h0, truthy]
  · intro h0
    refine ⟨⟨_, hs, ?_, ?_⟩, ?_⟩ <;> simp [configToSave, h0, truthy]

/-- C12, at a concrete input, with the stand-in primitives: the token of
`scenarioConfig` comes back under the same key. -/
theorem save_load_secrets_witness :
    (loadConfig scenarioPrimitives otherKey (freshContext 1700000100000 (some scenarioKey)
      (saveConfig scenarioPrimitives scenarioSave scenarioKeyed).1)).page.config.authToken
      = "tok123" :=
  (save_load_secrets scenarioPrimitives scenarioSave scenarioKeyed otherKey scenarioKey
    scenarioKey 1700000100000 rfl (by decide) (by decide) (by decide)).1 (by decide)

end App

namespace App

/-- C13: `CryptoUtil.decrypt` is total and returns `null` for every text that
`atob` rejects and for every text whose bytes the AES-GCM decryption rejects
under the current key (corrupt bytes, a text shorter than the nonce, a text
made under another key); and for a stored secret that is flagged as encrypted
and that `decrypt` returns `null` for, `loadConfig` sets that secret to the
empty string, while every other loaded field is what it is for any other
stored text of that secret. -/
theorem loadConfig_undecryptable (P : Primitives) (generated key : CryptoKey) (w : World)
    (m : SanitizedConfig) (st : StoredConfig) (hdb : w.page.db = true)
    (hkey : w.page.cryptoKey = some key)
    (hm : w.localStorage.config = some m) (hst : w.store.settings = some st) :
    (∀ text, atob text = none → CryptoUtil.decrypt P text key = none) ∧
    (∀ text combined, atob text = some combined →
      P.aesGcmDecrypt key (combined.take 12) (combined.drop 12) = none →
      CryptoUtil.decrypt P text key = none) ∧
    (st.authTokenEncrypted = true → CryptoUtil.decrypt P st.authToken key = none →
      (loadConfig P generated w).page.config.authToken = "" ∧
      ∀ (text : String) (flag : Bool),
        { (loadConfig P generated { w with store := { w.store with
            settings := some { st with authToken := text, authTokenEncrypted := flag } } }
            ).page.config with authToken := "" } =
          { (loadConfig P generated w).page.config with authToken := "" }) ∧
    (st.vapidKeyEncrypted = true → CryptoUtil.decrypt P st.vapidPublicKey key = none →
      (loadConfig P generated w).page.config.vapidPublicKey = "" ∧
      ∀ (text : String) (flag : Bool),
        { (loadConfig P generated { w with store := { w.store with
            settings := some { st with vapidPublicKey := text, vapidKeyEncrypted := flag } } }
            ).page.config with vapidPublicKey := "" } =
          { (loadConfig P generated w).page.config with vapidPublicKey := "" }) := by
  obtain ⟨k, hk, hc⟩ := loadConfig_config P generated w m st hdb hm hst
  have hkk : k = key := hk key hkey
  subst hkk
  refine ⟨?_, ?_, ?_, ?_⟩
  · intro text h
    rw [CryptoUtil.decrypt_eq, h]; rfl
  · intro text combined h1 h2
    rw [CryptoUtil.decrypt_eq, h1, Option.some_bind, h2]; rfl
  · intro hflag hfail
    constructor
    · rw [hc]
      by_cases ht : truthy st.authToken = true
      · simp [hflag, ht, hfail]
      · have h0 : st.authToken = "" := by simpa [truthy] using ht
        simp [hflag, h0, truthy]
    · intro text flag
      obtain ⟨k', hk', hc'⟩ := loadConfig_config P generated
        { w with store := { w.store with
            settings := some { st with authToken := text, authTokenEncrypted := flag } } }
        m { st with authToken := text, authTokenEncrypted := flag } hdb hm rfl
      have hkk' : k' = k := hk' k hkey
      subst hkk'
      rw [hc, hc']
  · intro hflag hfail
    constructor
    · rw [hc]
      by_cases ht : truthy st.vapidPublicKey = true
      · simp [hflag, ht, hfail]
      · have h0 : st.vapidPublicKey = "" := by simpa [truthy] using ht
        simp [hflag, h0, truthy]
    · intro text flag
      obtain ⟨k', hk', hc'⟩ := loadConfig_config P generated
        { w with store := { w.store with
            settings := some { st with vapidPublicKey := text, vapidKeyEncrypted := flag } } }
        m { st with vapidPublicKey := text, vapidKeyEncrypted := flag } hdb hm rfl
      have hkk' : k' = k := hk' k hkey
      subst hkk'
      rw [hc, hc']

/-- C13, at a concrete input, with the stand-in primitives: the token saved
under `scenarioKey` and loaded under another key comes back empty. -/
theorem loadConfig_undecryptable_witness :
    (loadConfig scenarioPrimitives otherKey (freshContext 1700000100000 (some otherKey)
      (saveConfig scenarioPrimitives scenarioSave scenarioKeyed).1)).page.config.authToken
      = "" :=
  ((loadConfig_undecryptable scenarioPrimitives otherKey otherKey
    (freshContext 1700000100000 (some otherKey)
      (saveConfig scenarioPrimitives scenarioSave scenarioKeyed).1)
    (sanitizedConfig scenarioConfig)
    (configToSave scenarioPrimitives scenarioSave scenarioKey scenarioConfig)
    rfl rfl (by decide) (by decide)).2.2.1 (by decide) (by decide)).1

end App

/-- `saveConfig` leaves the database's version and object stores as they are. -/
theorem App.saveConfig_database (P : Primitives) (env : App.SaveEnv) (w : World) :
    (App.saveConfig P env w).1.database = w.database := by
  unfold App.saveConfig
  cases hk : w.page.cryptoKey with
  | some key => by_cases hdb : w.page.db = true <;> simp [hdb]
  | none =>
    obtain ⟨text, hinit⟩ := CryptoUtil.initializeKey_frame P env.generated w
    simp only [hinit]
    by_cases hdb : w.page.db = true <;> simp [hdb]

/-- The `catch` block of the worker's `sendHeartbeat` requests nothing. -/
theorem ServiceWorker.sendHeartbeatCatch_requests (env : ServiceWorker.BeatEnv) (m : String)
    (v : World) : (ServiceWorker.sendHeartbeatCatch env m v).world.requests = v.requests := by
  obtain ⟨d, hd⟩ := ServiceWorker.openDB_frame v
  unfold ServiceWorker.sendHeartbeatCatch
  dsimp only
  split_ifs
  · rw [hd]
  · rfl

/-- The requests after a run of the worker's `sendHeartbeat` whose guard passes:
one more, built from the stored record as it is. -/
theorem ServiceWorker.sendHeartbeat_request (env : ServiceWorker.BeatEnv) (w : World)
    (st : StoredConfig) (hst : w.store.settings = some st)
    (hgo : ServiceWorker.attempts env w = true) :
    (ServiceWorker.sendHeartbeat env w).world.requests =
      w.requests ++ [ServiceWorker.beatRequest st] := by
  obtain ⟨d, hd⟩ := ServiceWorker.openDB_frame w
  unfold ServiceWorker.attempts ServiceWorker.getConfig at hgo
  simp only [hst, Bool.and_eq_true, Bool.not_eq_true'] at hgo
  obtain ⟨⟨h0, h0b⟩, h1, h2⟩ := hgo
  have hstart : ServiceWorker.sendHeartbeat env w =
      (match env.fetch with
       | FetchResult.response status =>
         if responseOk status then
           { world := { w with
               database := d,
               requests := w.requests ++ [ServiceWorker.beatRequest st],
               store := (ServiceWorker.incrementBeatCount
                 (ServiceWorker.logActivity "Background heartbeat sent successfully"
                   env.logStamp w.store)).1 },
             rejected := none,
             posted := [ClientMessage.heartbeatSent env.stamp "background"
               (some (ServiceWorker.incrementBeatCount
                 (ServiceWorker.logActivity "Background heartbeat sent successfully"
                   env.logStamp w.store)).2)] }
         else
           { world := { w with
               database := d,
               requests := w.requests ++ [ServiceWorker.beatRequest st],
               store := ServiceWorker.logActivity
                 ("Background heartbeat failed: " ++ toString status) env.logStamp w.store },
             rejected := none, posted := [] }
       | FetchResult.networkError message =>
         ServiceWorker.sendHeartbeatCatch env message
           { w with database := d,
                    requests := w.requests ++ [ServiceWorker.beatRequest st] }) := by
    unfold ServiceWorker.sendHeartbeat ServiceWorker.getConfig
    simp only [h0, h0b, Bool.and_self, Bool.not_true, Bool.false_eq_true, if_false]
    rw [hd]
    simp only [hst, h1, h2, Bool.not_true, Bool.false_eq_true, if_false]
  rw [hstart]
  cases env.fetch with
  | response status => by_cases hok : responseOk status = true <;> simp [hok]
  | networkError message =>
    simp only
    rw [ServiceWorker.sendHeartbeatCatch_requests]

/-- C24 fails on the code: for every configuration with a non-empty `authToken`
saved by `saveConfig` on the page's connection (the database is then at
version 2), the record the worker reads holds in `authToken` the text
`CryptoUtil.encrypt` produced, and the request the worker builds from a stored
record (lines 217-224) takes `Auth` from it as it is, where the page's request
carries the token; `Device` is the device name and there is no body. And a
worker run on that database issues no request at all: its `openDB` is refused
and the promise rejects. -/
theorem worker_sends_ciphertext (P : Primitives) (env : App.SaveEnv) (w : World)
    (benv : ServiceWorker.BeatEnv) (hdb : w.page.db = true)
    (hver : w.database.version = 2) (htoken : w.page.config.authToken ≠ "") :
    ∃ (key : CryptoKey) (st : StoredConfig),
      (App.saveConfig P env w).1.page.cryptoKey = some key ∧
      (App.saveConfig P env w).1.store.settings = some st ∧
      st.authToken = CryptoUtil.encrypt P w.page.config.authToken env.ivAuthToken key ∧
      st.authTokenEncrypted = true ∧
      ServiceWorker.beatRequest st =
        { url := w.page.config.serverUrl ++ "/api/beat", method := "POST",
          headers := [("Auth",
              CryptoUtil.encrypt P w.page.config.authToken env.ivAuthToken key),
            ("Device", w.page.config.deviceName),
            ("User-Agent", "HeartbeatPWA-ServiceWorker")],
          body := none } ∧
      App.beatRequest (App.saveConfig P env w).1.page.config =
        { url := w.page.config.serverUrl ++ "/api/beat", method := "POST",
          headers := [("Auth", w.page.config.authToken),
            ("Device", w.page.config.deviceName)],
          body := none } ∧
      (ServiceWorker.sendHeartbeat benv (App.saveConfig P env w).1).world.requests =
        w.requests ∧
      (ServiceWorker.sendHeartbeat benv (App.saveConfig P env w).1).rejected =
        some { statusCode := none } := by
  obtain ⟨key, -, -, hk, hc, -, hs, -, hr⟩ := App.saveConfig_eq P env w hdb
  have ht : truthy w.page.config.authToken = true := by simpa [truthy] using htoken
  have hrun := ServiceWorker.sendHeartbeat_refused benv (App.saveConfig P env w).1
    (by rw [App.saveConfig_database, hver]; decide)
  refine ⟨key, App.configToSave P env key w.page.config, hk, hs, ?_, ?_, ?_, ?_, ?_, ?_⟩
  · simp [App.configToSave, ht]
  · simp [App.configToSave, ht]
  · simp [ServiceWorker.beatRequest, App.configToSave, ht]
  · rw [hc]; rfl
  · rw [hrun]; exact hr
  · rw [hrun]

/-- C24, at the failing input, with the stand-in primitives: after `saveConfig`
of `scenarioConfig` (token `tok123`) the stored `authToken` is not `tok123`,
and the worker's run issues no request. -/
theorem worker_sends_ciphertext_witness :
    ((App.saveConfig scenarioPrimitives scenarioSave scenarioKeyed).1.store.settings.map
      (fun st => decide (st.authToken = "tok123"))) = some false ∧
    (ServiceWorker.sendHeartbeat (scenarioBeat 1700000001000 (FetchResult.response 200))
      (App.saveConfig scenarioPrimitives scenarioSave scenarioKeyed).1).world.requests = [] := by
  obtain ⟨key, st, -, -, -, -, -, -, h7, -⟩ :=
    worker_sends_ciphertext scenarioPrimitives scenarioSave scenarioKeyed
      (scenarioBeat 1700000001000 (FetchResult.response 200)) rfl rfl (by decide)
  exact ⟨by decide, h7⟩

/-! ## Opening the database from both contexts -/

/-- An open at a version not below the database's succeeds and leaves the
database at the requested version. -/
theorem indexedDBOpen_some (r : Nat) (f : List String → List String) (d : Database)
    (h : d.version ≤ r) : ∃ d', indexedDBOpen r f d = some d' ∧ d'.version = r := by
  unfold indexedDBOpen
  by_cases h2 : d.version < r
  · exact ⟨{ version := r, objectStores := f d.objectStores },
      by simp [Nat.not_lt.mpr h, h2], rfl⟩
  · exact ⟨d, by simp [Nat.not_lt.mpr h, h2], by omega⟩

/-- An open at a version below the database's is refused. -/
theorem indexedDBOpen_none (r : Nat) (f : List String → List String) (d : Database)
    (h : r < d.version) : indexedDBOpen r f d = none := by
  unfold indexedDBOpen
  simp [h]

/-- C22 fails on the code: once the page's `initDB` has opened the database (it
is then at version 2), the worker's `openDB`, which asks for version 1, is
refused. In the other order both opens succeed, and either open leaves the
contents of the stores as they are. -/
theorem worker_open_fails_after_page (w : World) (hpage : (App.initDB w).2 = true) :
    (App.initDB w).1.database.version = 2 ∧
    (ServiceWorker.openDB (App.initDB w).1).2 = false ∧
    ((ServiceWorker.openDB w).2 = true →
      (App.initDB (ServiceWorker.openDB w).1).2 = true) ∧
    (App.initDB w).1.store = w.store ∧ (ServiceWorker.openDB w).1.store = w.store := by
  have hv : w.database.version ≤ 2 := by
    by_contra h
    have hn := indexedDBOpen_none 2 createMissingStores w.database (by omega)
    unfold App.initDB at hpage
    rw [hn] at hpage
    simp at hpage
  obtain ⟨d2, hd2, hd2v⟩ := indexedDBOpen_some 2 createMissingStores w.database hv
  have hinit : App.initDB w =
      ({ w with database := d2, page := { w.page with db := true } }, true) := by
    unfold App.initDB; rw [hd2]
  refine ⟨?_, ?_, ?_, ?_, ?_⟩
  · rw [hinit]; exact hd2v
  · rw [hinit]
    unfold ServiceWorker.openDB
    rw [indexedDBOpen_none 1 createMissingStores d2 (by omega)]
  · intro hw
    have hv1 : w.database.version ≤ 1 := by
      by_contra h
      have hn := indexedDBOpen_none 1 createMissingStores w.database (by omega)
      unfold ServiceWorker.openDB at hw
      rw [hn] at hw
      simp at hw
    obtain ⟨d1, hd1, hd1v⟩ := indexedDBOpen_some 1 createMissingStores w.database hv1
    have hopen : ServiceWorker.openDB w = ({ w with database := d1 }, true) := by
      unfold ServiceWorker.openDB; rw [hd1]
    rw [hopen]
    obtain ⟨d3, hd3, -⟩ := indexedDBOpen_some 2 createMissingStores d1 (by omega)
    unfold App.initDB
    simp only [hd3]
  · rw [hinit]
  · unfold ServiceWorker.openDB
    cases indexedDBOpen 1 createMissingStores w.database <;> rfl

/-- C22, at the failing input: on a first visit `initDB` creates the database
at version 2 with its three stores, after which the worker's `openDB` is
refused. -/
theorem worker_open_fails_after_page_witness :
    (App.initDB scenarioFirstVisit).1.database =
      { version := 2, objectStores := ["config", "logs", "stats"] } ∧
    (ServiceWorker.openDB (App.initDB scenarioFirstVisit).1).2 = false :=
  ⟨by decide, (worker_open_fails_after_page scenarioFirstVisit (by decide)).2.1⟩

/-! ## The heartbeat timer -/

namespace App

/-- `startHeartbeat` from consistent timers: the old timer is gone, one tick is
started, and the one timer scheduled is the new one, of period 60000 ms. -/
theorem startHeartbeat_timers (w : World) (h : TimersConsistent w) :
    (startHeartbeat w).timers = [{ handle := w.nextTimerId, period := 60000 }] ∧
    (startHeartbeat w).page.heartbeatInterval = some w.nextTimerId ∧
    (startHeartbeat w).nextTimerId = w.nextTimerId + 1 ∧
    (startHeartbeat w).ticksStarted = w.ticksStarted + 1 ∧
    (startHeartbeat w).page.statusText = "Monitoring" ∧
    TimersConsistent (startHeartbeat w) := by
  obtain ⟨ht, hn, hh⟩ := h
  have hmain : (startHeartbeat w).timers = [{ handle := w.nextTimerId, period := 60000 }] ∧
      (startHeartbeat w).page.heartbeatInterval = some w.nextTimerId ∧
      (startHeartbeat w).nextTimerId = w.nextTimerId + 1 ∧
      (startHeartbeat w).ticksStarted = w.ticksStarted + 1 ∧
      (startHeartbeat w).page.statusText = "Monitoring" := by
    unfold startHeartbeat updateStatus
    cases hi : w.page.heartbeatInterval with
    | none =>
      rw [hi] at ht
      simp [ht]
    | some handle =>
      have hpos : handle ≠ 0 := Nat.pos_iff_ne_zero.mp (hh handle hi)
      rw [hi] at ht
      simp [ht, hpos]
  obtain ⟨h1, h2, h3, h4, h5⟩ := hmain
  refine ⟨h1, h2, h3, h4, h5, ?_, ?_, ?_⟩
  · rw [h1, h2]; rfl
  · rw [h3]; omega
  · intro x hx
    rw [h2] at hx
    cases hx
    exact hn

/-- `stopHeartbeat` from consistent timers: no timer is scheduled, the handle
is cleared and the status is `Disabled`. -/
theorem stopHeartbeat_timers (w : World) (h : TimersConsistent w) :
    (stopHeartbeat w).timers = [] ∧
    (stopHeartbeat w).page.heartbeatInterval = none ∧
    (stopHeartbeat w).page.statusText = "Disabled" ∧
    (stopHeartbeat w).page.statusDotClass = ["status-dot"] ∧
    (stopHeartbeat w).ticksStarted = w.ticksStarted ∧
    TimersConsistent (stopHeartbeat w) := by
  obtain ⟨ht, hn, hh⟩ := h
  have hmain : (stopHeartbeat w).timers = [] ∧
      (stopHeartbeat w).page.heartbeatInterval = none ∧
      (stopHeartbeat w).page.statusText = "Disabled" ∧
      (stopHeartbeat w).page.statusDotClass = ["status-dot"] ∧
      (stopHeartbeat w).ticksStarted = w.ticksStarted ∧
      (stopHeartbeat w).nextTimerId = w.nextTimerId := by
    unfold stopHeartbeat updateStatus
    cases hi : w.page.heartbeatInterval with
    | none =>
      rw [hi] at ht
      simp [ht, hi]
    | some handle =>
      have hpos : handle ≠ 0 := Nat.pos_iff_ne_zero.mp (hh handle hi)
      rw [hi] at ht
      simp [ht, hpos]
  obtain ⟨h1, h2, h3, h4, h5, h6⟩ := hmain
  refine ⟨h1, h2, h3, h4, h5, ?_, ?_, ?_⟩
  · rw [h1, h2]; rfl
  · rw [h6]; exact hn
  · intro x hx
    rw [h2] at hx
    cases hx

/-- Every sequence of `startHeartbeat` and `stopHeartbeat` calls keeps the
timers consistent. -/
theorem timerCalls_consistent (calls : List TimerCall) :
    ∀ w : World, TimersConsistent w → TimersConsistent (timerCalls w calls) := by
  induction calls with
  | nil => intro w h; exact h
  | cons c cs ih =>
    intro w h
    simp only [timerCalls]
    apply ih
    cases c with
    | start => exact (startHeartbeat_timers w h).2.2.2.2.2
    | stop => exact (stopHeartbeat_timers w h).2.2.2.2.2

/-- C26: from a page whose timers are consistent (as on a freshly loaded page,
which has none), after any sequence of `startHeartbeat` and `stopHeartbeat`
calls at most one recurring timer is scheduled; a `stopHeartbeat` then leaves
none (no handle in `heartbeatInterval`, status `Disabled`), and a
`startHeartbeat` then starts one immediate tick and leaves exactly one timer,
of period 60000 ms, whose handle is in `heartbeatInterval`. -/
theorem at_most_one_timer (w : World) (calls : List TimerCall) (h : TimersConsistent w) :
    (timerCalls w calls).timers.length ≤ 1 ∧
    (∀ t ∈ (timerCalls w calls).timers, t.period = 60000) ∧
    ((stopHeartbeat (timerCalls w calls)).timers = [] ∧
      (stopHeartbeat (timerCalls w calls)).page.heartbeatInterval = none ∧
      (stopHeartbeat (timerCalls w calls)).page.statusText = "Disabled") ∧
    ((startHeartbeat (timerCalls w calls)).timers =
        [{ handle := (timerCalls w calls).nextTimerId, period := 60000 }] ∧
      (startHeartbeat (timerCalls w calls)).page.heartbeatInterval =
        some (timerCalls w calls).nextTimerId ∧
      (startHeartbeat (timerCalls w calls)).ticksStarted =
        (timerCalls w calls).ticksStarted + 1) := by
  have hc := timerCalls_consistent calls w h
  obtain ⟨s1, s2, s3, -, -, -⟩ := stopHeartbeat_timers _ hc
  obtain ⟨t1, t2, -, t4, -, -⟩ := startHeartbeat_timers _ hc
  refine ⟨?_, ?_, ⟨s1, s2, s3⟩, ⟨t1, t2, t4⟩⟩
  · rw [hc.1]
    cases (timerCalls w calls).page.heartbeatInterval <;> simp
  · intro t ht
    rw [hc.1] at ht
    cases hi : (timerCalls w calls).page.heartbeatInterval with
    | none => rw [hi] at ht; simp at ht
    | some handle =>
      rw [hi] at ht
      simp at ht
      rw [ht]

/-- C26, at a concrete input: on `scenarioWorld`, start, start, stop, start
leave exactly one timer, of period 60000 ms. -/
theorem at_most_one_timer_witness :
    (timerCalls scenarioWorld
      [TimerCall.start, TimerCall.start, TimerCall.stop, TimerCall.start]).timers =
      [{ handle := 3, period := 60000 }] ∧
    (timerCalls scenarioWorld
      [TimerCall.start, TimerCall.start, TimerCall.stop, TimerCall.start]).timers.length ≤ 1 :=
  ⟨by decide, (at_most_one_timer scenarioWorld
    [TimerCall.start, TimerCall.start, TimerCall.stop, TimerCall.start]
    ⟨by decide, by decide, by intro h hh; cases hh⟩).1⟩

end App

/-! ## Page startup -/

namespace App

/-- `updateUIFromConfig` with an enabled configuration and consistent timers
starts one tick and leaves exactly the new timer. -/
theorem updateUIFromConfig_timers (w : World) (hen : w.page.config.enabled = true)
    (h : TimersConsistent w) :
    (updateUIFromConfig w).timers = [{ handle := w.nextTimerId, period := 60000 }] ∧
    (updateUIFromConfig w).page.heartbeatInterval = some w.nextTimerId ∧
    (updateUIFromConfig w).nextTimerId = w.nextTimerId + 1 ∧
    (updateUIFromConfig w).ticksStarted = w.ticksStarted + 1 := by
  obtain ⟨t1, t2, t3, t4, -, -⟩ := startHeartbeat_timers
    { w with page := { w.page with
        inputServerUrl := w.page.config.serverUrl,
        inputAuthToken := w.page.config.authToken,
        inputDeviceName := w.page.config.deviceName,
        inputVapidPublicKey := w.page.config.vapidPublicKey,
        enableToggleActive := true } } ⟨h.1, h.2.1, h.2.2⟩
  unfold updateUIFromConfig
  simp only [hen, if_true]
  exact ⟨t1, t2, t3, t4⟩

/-- `loadStored` touches the page only, apart from what `updateUIFromConfig`
does, and keeps the connection and the counter of the page. -/
theorem loadStored_frame (P : Primitives) (key : CryptoKey) (st : StoredConfig) (w : World) :
    (loadStored P key st w).page.db = w.page.db ∧
    (loadStored P key st w).page.beatCount = w.page.beatCount ∧
    (loadStored P key st w).store = w.store ∧
    (loadStored P key st w).requests = w.requests := by
  unfold loadStored
  obtain ⟨-, h2, h3, -, h5, -, h7⟩ := updateUIFromConfig_frame
    { w with page := { w.page with config :=
      { serverUrl := if truthy st.serverUrl then st.serverUrl else w.page.config.serverUrl,
        deviceName := if truthy st.deviceName then st.deviceName else w.page.config.deviceName,
        enabled := st.enabled || w.page.config.enabled,
        activityDetection := st.activityDetection,
        pushEnabled := st.pushEnabled || w.page.config.pushEnabled,
        authToken :=
          if st.authTokenEncrypted && truthy st.authToken then
            (CryptoUtil.decrypt P st.authToken key).getD ""
          else st.authToken,
        vapidPublicKey :=
          if st.vapidKeyEncrypted && truthy st.vapidPublicKey then
            (CryptoUtil.decrypt P st.vapidPublicKey key).getD ""
          else st.vapidPublicKey } } }
  exact ⟨h2, h3, h5, h7⟩

/-- `loadStored` with an enabled stored record and consistent timers starts
one tick and leaves exactly the new timer. -/
theorem loadStored_timers (P : Primitives) (key : CryptoKey) (st : StoredConfig) (w : World)
    (hen : st.enabled = true) (h : TimersConsistent w) :
    (loadStored P key st w).timers = [{ handle := w.nextTimerId, period := 60000 }] ∧
    (loadStored P key st w).page.heartbeatInterval = some w.nextTimerId ∧
    (loadStored P key st w).nextTimerId = w.nextTimerId + 1 ∧
    (loadStored P key st w).ticksStarted = w.ticksStarted + 1 ∧
    (loadStored P key st w).page.config.enabled = true := by
  have hc := loadStored_config P key st w
  unfold loadStored at hc ⊢
  obtain ⟨t1, t2, t3, t4⟩ := updateUIFromConfig_timers
    { w with page := { w.page with config :=
      { serverUrl := if truthy st.serverUrl then st.serverUrl else w.page.config.serverUrl,
        deviceName := if truthy st.deviceName then st.deviceName else w.page.config.deviceName,
        enabled := st.enabled || w.page.config.enabled,
        activityDetection := st.activityDetection,
        pushEnabled := st.pushEnabled || w.page.config.pushEnabled,
        authToken :=
          if st.authTokenEncrypted && truthy st.authToken then
            (CryptoUtil.decrypt P st.authToken key).getD ""
          else st.authToken,
        vapidPublicKey :=
          if st.vapidKeyEncrypted && truthy st.vapidPublicKey then
            (CryptoUtil.decrypt P st.vapidPublicKey key).getD ""
          else st.vapidPublicKey } } } (by simp [hen]) ⟨h.1, h.2.1, h.2.2⟩
  refine ⟨t1, t2, t3, t4, ?_⟩
  rw [hc]
  simp [hen]

/-- `loadMirror` touches the page's configuration only. -/
theorem loadMirror_eq (w : World) :
    ∃ c : Config, loadMirror w = { w with page := { w.page with config := c } } := by
  unfold loadMirror
  cases w.localStorage.config with
  | none => exact ⟨w.page.config, rfl⟩
  | some m => exact ⟨_, rfl⟩

/-- `loadConfig` on a page with an open connection and a key, whose timers are
consistent, with an enabled stored record: one tick is started, exactly the
new timer is scheduled, the configuration is enabled and the page's counter is
the stored one. -/
theorem loadConfig_timers (P : Primitives) (generated key : CryptoKey) (w : World)
    (st : StoredConfig) (hdb : w.page.db = true) (hk : w.page.cryptoKey = some key)
    (hst : w.store.settings = some st) (hen : st.enabled = true) (h : TimersConsistent w) :
    (loadConfig P generated w).timers = [{ handle := w.nextTimerId, period := 60000 }] ∧
    (loadConfig P generated w).page.heartbeatInterval = some w.nextTimerId ∧
    (loadConfig P generated w).nextTimerId = w.nextTimerId + 1 ∧
    (loadConfig P generated w).ticksStarted = w.ticksStarted + 1 ∧
    (loadConfig P generated w).page.config.enabled = true ∧
    (loadConfig P generated w).page.db = true ∧
    (loadConfig P generated w).page.beatCount = w.store.beatCount.getD w.page.beatCount ∧
    (loadConfig P generated w).store = w.store ∧
    (loadConfig P generated w).requests = w.requests := by
  obtain ⟨c, hmir⟩ := loadMirror_eq w
  have m1 : (loadMirror w).page.db = true := by rw [hmir]; exact hdb
  have m2 : (loadMirror w).store = w.store := by rw [hmir]
  have m3 : (loadMirror w).nextTimerId = w.nextTimerId := by rw [hmir]
  have m4 : (loadMirror w).ticksStarted = w.ticksStarted := by rw [hmir]
  have m5 : (loadMirror w).page.beatCount = w.page.beatCount := by rw [hmir]
  have m6 : (loadMirror w).requests = w.requests := by rw [hmir]
  have m7 : TimersConsistent (loadMirror w) := by rw [hmir]; exact ⟨h.1, h.2.1, h.2.2⟩
  have m8 : (loadMirror w).store.settings = some st := by rw [m2]; exact hst
  obtain ⟨t1, t2, t3, t4, t5⟩ := loadStored_timers P key st (loadMirror w) hen m7
  obtain ⟨f1, f2, f3, f4⟩ := loadStored_frame P key st (loadMirror w)
  have hrun : loadConfig P generated w =
      refreshLogDisplay (loadBeatCount (loadStored P key st (loadMirror w))) := by
    unfold loadConfig
    simp only [hk, m1, if_true, m8]
  rw [hrun]
  simp only [refreshLogDisplay_eq, loadBeatCount_eq]
  rw [m3] at t1 t2 t3
  rw [m4] at t4
  refine ⟨t1, t2, t3, t4, t5, f1.trans m1, ?_, f3.trans m2, f4.trans m6⟩
  simp only [f1, f2, f3, m1, m2, m5, if_true]

end App

/-- C30: on a page load (`reload`) over a database the page can open, holding a
stored configuration record whose `enabled` flag is true, with no timer handle
0 in use, the `DOMContentLoaded` handler calls `startHeartbeat` twice: two
immediate `sendHeartbeat()` runs are started (`ticksStarted` grows by 2), and
exactly one recurring timer, of period 60000 ms, remains scheduled (the second
one; the first was cleared). The handler itself sends nothing and leaves the
stores as they are, the page's counter being the stored one; when the two runs
then complete as successful deliveries, the page's counter and the stored
counter have both risen by 2, and the one timer is still the only one. -/
theorem startup_starts_heartbeat_twice (P : Primitives) (generated : CryptoKey)
    (loadedAt : Int) (w : World) (st : StoredConfig)
    (hver : w.database.version ≤ 2) (hst : w.store.settings = some st)
    (hen : st.enabled = true) (hid : 0 < w.nextTimerId) :
    (App.onDOMContentLoaded P generated (reload loadedAt w)).ticksStarted =
      w.ticksStarted + 2 ∧
    (App.onDOMContentLoaded P generated (reload loadedAt w)).timers =
      [{ handle := w.nextTimerId + 1, period := 60000 }] ∧
    (App.onDOMContentLoaded P generated (reload loadedAt w)).page.heartbeatInterval =
      some (w.nextTimerId + 1) ∧
    (App.onDOMContentLoaded P generated (reload loadedAt w)).requests = w.requests ∧
    (App.onDOMContentLoaded P generated (reload loadedAt w)).store = w.store ∧
    (App.onDOMContentLoaded P generated (reload loadedAt w)).page.beatCount =
      w.store.beatCount.getD 0 ∧
    ∀ env1 env2 : App.TickEnv,
      allSucceed (App.onDOMContentLoaded P generated (reload loadedAt w))
        [Delivery.foreground env1, Delivery.foreground env2] = true →
      (deliverAll (App.onDOMContentLoaded P generated (reload loadedAt w))
        [Delivery.foreground env1, Delivery.foreground env2]).page.beatCount =
        w.store.beatCount.getD 0 + 2 ∧
      (deliverAll (App.onDOMContentLoaded P generated (reload loadedAt w))
        [Delivery.foreground env1, Delivery.foreground env2]).store.beatCount =
        some (w.store.beatCount.getD 0 + 2) := by
  obtain ⟨d2, hd2, -⟩ := indexedDBOpen_some 2 createMissingStores w.database hver
  obtain ⟨w1, hw1, hinit⟩ : ∃ w1 : World,
      w1 = { reload loadedAt w with
        database := d2, page := { (reload loadedAt w).page with db := true } } ∧
      App.initDB (reload loadedAt w) = (w1, true) := by
    refine ⟨_, rfl, ?_⟩
    unfold App.initDB
    have : (reload loadedAt w).database = w.database := rfl
    rw [this, hd2]
  obtain ⟨text, hkey⟩ := CryptoUtil.initializeKey_frame P generated w1
  have k1 : (CryptoUtil.initializeKey P generated w1).1.page.db = true := by rw [hkey, hw1]
  have k2 : (CryptoUtil.initializeKey P generated w1).1.page.cryptoKey =
      some (CryptoUtil.initializeKey P generated w1).2 := by rw [hkey]
  have k3 : (CryptoUtil.initializeKey P generated w1).1.store = w.store := by
    rw [hkey, hw1]; rfl
  have k4 : (CryptoUtil.initializeKey P generated w1).1.nextTimerId = w.nextTimerId := by
    rw [hkey, hw1]; rfl
  have k5 : (CryptoUtil.initializeKey P generated w1).1.ticksStarted = w.ticksStarted := by
    rw [hkey, hw1]; rfl
  have k6 : (CryptoUtil.initializeKey P generated w1).1.requests = w.requests := by
    rw [hkey, hw1]; rfl
  have k7 : (CryptoUtil.initializeKey P generated w1).1.page.beatCount = 0 := by
    rw [hkey, hw1]; rfl
  have k8 : App.TimersConsistent (CryptoUtil.initializeKey P generated w1).1 := by
    rw [hkey, hw1]
    exact ⟨rfl, hid, fun x hx => by cases hx⟩
  obtain ⟨l1, l2, l3, l4, l5, -, l7, l8, l9⟩ := App.loadConfig_timers P generated _
    (CryptoUtil.initializeKey P generated w1).1 st k1 k2 (by rw [k3]; exact hst) hen k8
  rw [k4] at l1 l2 l3
  rw [k5] at l4
  rw [k3, k7] at l7
  rw [k3] at l8
  rw [k6] at l9
  have hcons : App.TimersConsistent
      (App.loadConfig P generated (CryptoUtil.initializeKey P generated w1).1) := by
    refine ⟨?_, ?_, ?_⟩
    · rw [l1, l2]; rfl
    · rw [l3]; exact Nat.succ_pos _
    · intro x hx
      rw [l2] at hx
      cases hx
      exact hid
  obtain ⟨s1, s2, -, s4, -, -⟩ := App.startHeartbeat_timers _ hcons
  obtain ⟨-, -, g3, -, g5, -, g7⟩ := App.startHeartbeat_frame
    (App.loadConfig P generated (CryptoUtil.initializeKey P generated w1).1)
  have hrun : App.onDOMContentLoaded P generated (reload loadedAt w) =
      App.startHeartbeat
        (App.loadConfig P generated (CryptoUtil.initializeKey P generated w1).1) := by
    unfold App.onDOMContentLoaded
    simp only [hinit, if_true, l5]
  have hcount : (App.onDOMContentLoaded P generated (reload loadedAt w)).page.beatCount =
      w.store.beatCount.getD 0 := by
    rw [hrun, g3, l7]
  have hstore : (App.onDOMContentLoaded P generated (reload loadedAt w)).store = w.store := by
    rw [hrun, g5, l8]
  refine ⟨?_, ?_, ?_, ?_, hstore, hcount, ?_⟩
  · rw [hrun, s4, l4]
  · rw [hrun, s1, l3]
  · rw [hrun, s2, l3]
  · rw [hrun, g7, l9]
  · intro env1 env2 hok
    have h := deliverAll_counter [Delivery.foreground env1, Delivery.foreground env2]
      (App.onDOMContentLoaded P generated (reload loadedAt w)) hok
      (by intro d hd; simp at hd; rcases hd with rfl | rfl <;> rfl)
      (by rw [hcount, hstore])
    rw [hstore] at h
    refine ⟨?_, h.2.2 (by simp)⟩
    rw [h.2.1, h.1]
    rfl

/-- C30, at a concrete input, with the stand-in primitives: on `scenarioRevisit`
(stored counter 7) the handler starts two runs and leaves the one timer with
handle 2; two successful runs then leave the counter at 9. -/
theorem startup_starts_heartbeat_twice_witness :
    (App.onDOMContentLoaded scenarioPrimitives otherKey scenarioRevisit).ticksStarted = 2 ∧
    (App.onDOMContentLoaded scenarioPrimitives otherKey scenarioRevisit).timers =
      [{ handle := 2, period := 60000 }] ∧
    allSucceed (App.onDOMContentLoaded scenarioPrimitives otherKey scenarioRevisit)
      [Delivery.foreground (scenarioTick 1700000500100 (FetchResult.response 200)),
       Delivery.foreground (scenarioTick 1700000500200 (FetchResult.response 200))] = true ∧
    (deliverAll (App.onDOMContentLoaded scenarioPrimitives otherKey scenarioRevisit)
      [Delivery.foreground (scenarioTick 1700000500100 (FetchResult.response 200)),
       Delivery.foreground (scenarioTick 1700000500200 (FetchResult.response 200))]
      ).store.beatCount = some 9 :=
  have h := startup_starts_heartbeat_twice scenarioPrimitives otherKey 1700000500000
    scenarioEarlierVisit
    (App.configToSave scenarioPrimitives scenarioSave scenarioKey scenarioConfig)
    (by decide) rfl rfl (by decide)
  have hok : allSucceed (App.onDOMContentLoaded scenarioPrimitives otherKey scenarioRevisit)
      [Delivery.foreground (scenarioTick 1700000500100 (FetchResult.response 200)),
       Delivery.foreground (scenarioTick 1700000500200 (FetchResult.response 200))] = true := by
    decide
  ⟨h.1, h.2.1, hok, (h.2.2.2.2.2.2 _ _ hok).2⟩

/-! ## Push subscription manager -/

theorem unsent_refl (w : World) : Unsent w w := ⟨rfl, rfl, rfl, rfl, rfl, rfl⟩

theorem unsent_trans (a b c : World) (h1 : Unsent a b) (h2 : Unsent b c) : Unsent a c :=
  ⟨h2.config.trans h1.config, h2.db.trans h1.db, h2.cryptoKey.trans h1.cryptoKey,
    h2.settings.trans h1.settings, h2.stored.trans h1.stored, h2.requests.trans h1.requests⟩

namespace App

@[simp] theorem log_config (env : PushEnv) (site : Nat) (m : String) (w : World) :
    (env.log site m w).page.config = w.page.config := by
  unfold PushEnv.log; rw [addLog_eq]

@[simp] theorem log_db (env : PushEnv) (site : Nat) (m : String) (w : World) :
    (env.log site m w).page.db = w.page.db := by
  unfold PushEnv.log; rw [addLog_eq]

@[simp] theorem log_cryptoKey (env : PushEnv) (site : Nat) (m : String) (w : World) :
    (env.log site m w).page.cryptoKey = w.page.cryptoKey := by
  unfold PushEnv.log; rw [addLog_eq]

@[simp] theorem log_settings (env : PushEnv) (site : Nat) (m : String) (w : World) :
    (env.log site m w).store.settings = w.store.settings := by
  unfold PushEnv.log; rw [addLog_eq]

@[simp] theorem log_localStorage (env : PushEnv) (site : Nat) (m : String) (w : World) :
    (env.log site m w).localStorage = w.localStorage := by
  unfold PushEnv.log; rw [addLog_eq]

@[simp] theorem log_requests (env : PushEnv) (site : Nat) (m : String) (w : World) :
    (env.log site m w).requests = w.requests := by
  unfold PushEnv.log; rw [addLog_eq]

@[simp] theorem log_pushSubscription (env : PushEnv) (site : Nat) (m : String) (w : World) :
    (env.log site m w).pushSubscription = w.pushSubscription := by
  unfold PushEnv.log; rw [addLog_eq]

@[simp] theorem log_pushTrace (env : PushEnv) (site : Nat) (m : String) (w : World) :
    (env.log site m w).pushTrace = w.pushTrace := by
  unfold PushEnv.log; rw [addLog_eq]

@[simp] theorem log_controller (env : PushEnv) (site : Nat) (m : String) (w : World) :
    (env.log site m w).controller = w.controller := by
  unfold PushEnv.log; rw [addLog_eq]

@[simp] theorem log_registration (env : PushEnv) (site : Nat) (m : String) (w : World) :
    (env.log site m w).registration = w.registration := by
  unfold PushEnv.log; rw [addLog_eq]

/-- A log sends, configures and saves nothing. -/
theorem log_unsent (env : PushEnv) (site : Nat) (m : String) (w : World) :
    Unsent w (env.log site m w) :=
  ⟨by simp, by simp, by simp, by simp, by simp, by simp⟩

/-- The wait for the active worker sends nothing and leaves the subscription;
it ends with the registration, or never when the worker does not activate. -/
theorem awaitActive_spec (env : PushEnv) (reg : SwRegistration) (w : World) :
    Unsent w (awaitActive env reg w).1 ∧
    (awaitActive env reg w).1.pushSubscription = w.pushSubscription ∧
    (awaitActive env reg w).1.pushTrace = w.pushTrace ∧
    ((∃ r, (awaitActive env reg w).2 = Completion.value r) ∨
      ((awaitActive env reg w).2 = Completion.pending ∧ env.activates = false)) := by
  unfold awaitActive
  by_cases h1 : (reg.active || w.controller) = true
  · rw [if_pos h1]
    exact ⟨unsent_refl w, rfl, rfl, Or.inl ⟨_, rfl⟩⟩
  · rw [if_neg h1]
    by_cases h2 : env.activates = true
    · rw [if_pos h2]
      exact ⟨⟨rfl, rfl, rfl, rfl, rfl, rfl⟩, rfl, rfl, Or.inl ⟨_, rfl⟩⟩
    · rw [if_neg h2]
      exact ⟨unsent_refl w, rfl, rfl, Or.inr ⟨rfl, by simpa using h2⟩⟩

/-- Obtaining the registration and awaiting its worker sends nothing and leaves
the subscription; it ends with a registration, with the error of `register`,
or never. -/
theorem obtainRegistration_spec (env : PushEnv) (w : World) :
    Unsent w (obtainRegistration env w).1 ∧
    (obtainRegistration env w).1.pushSubscription = w.pushSubscription ∧
    (obtainRegistration env w).1.pushTrace = w.pushTrace ∧
    ((∃ r, (obtainRegistration env w).2 = Completion.value r) ∨
      (∃ m, (obtainRegistration env w).2 = Completion.threw m) ∨
      ((obtainRegistration env w).2 = Completion.pending ∧
        (env.activates = false ∨ (w.controller = true ∧ w.registration = none)))) := by
  obtain ⟨D, hD⟩ : ∃ D : Prop,
      D = (env.activates = false ∨ (w.controller = true ∧ w.registration = none)) := ⟨_, rfl⟩
  rw [← hD]
  have hstep : ∀ (reg : SwRegistration) (v : World), Unsent w v →
      v.pushSubscription = w.pushSubscription → v.pushTrace = w.pushTrace →
      Unsent w (awaitActive env reg v).1 ∧
      (awaitActive env reg v).1.pushSubscription = w.pushSubscription ∧
      (awaitActive env reg v).1.pushTrace = w.pushTrace ∧
      ((∃ r, (awaitActive env reg v).2 = Completion.value r) ∨
        (∃ m, (awaitActive env reg v).2 = Completion.threw m) ∨
        ((awaitActive env reg v).2 = Completion.pending ∧ D)) := by
    intro reg v hu hs ht
    obtain ⟨a1, a2, a3, a4⟩ := awaitActive_spec env reg v
    refine ⟨unsent_trans _ _ _ hu a1, a2.trans hs, a3.trans ht, ?_⟩
    rcases a4 with h | ⟨h, h2⟩
    · exact Or.inl h
    · exact Or.inr (Or.inr ⟨h, by rw [hD]; exact Or.inl h2⟩)
  have hlog2 : ∀ (s1 s2 : Nat) (m1 m2 : String),
      Unsent w (env.log s2 m2 (env.log s1 m1 w)) ∧
      (env.log s2 m2 (env.log s1 m1 w)).pushSubscription = w.pushSubscription ∧
      (env.log s2 m2 (env.log s1 m1 w)).pushTrace = w.pushTrace := by
    intro s1 s2 m1 m2
    exact ⟨⟨by simp, by simp, by simp, by simp, by simp, by simp⟩, by simp, by simp⟩
  have hlog3 : ∀ (s1 s2 s3 : Nat) (m1 m2 m3 : String),
      Unsent w (env.log s3 m3 (env.log s2 m2 (env.log s1 m1 w))) ∧
      (env.log s3 m3 (env.log s2 m2 (env.log s1 m1 w))).pushSubscription =
        w.pushSubscription ∧
      (env.log s3 m3 (env.log s2 m2 (env.log s1 m1 w))).pushTrace = w.pushTrace := by
    intro s1 s2 s3 m1 m2 m3
    exact ⟨⟨by simp, by simp, by simp, by simp, by simp, by simp⟩, by simp, by simp⟩
  unfold obtainRegistration
  by_cases hc : w.controller = true
  · simp only [log_controller, hc, if_true, log_registration]
    cases hr : w.registration with
    | none =>
      simp only
      obtain ⟨u1, u2, u3⟩ := hlog2 2 3 "Getting service worker registration..."
        "Service worker already controlling page"
      refine ⟨u1, u2, u3, Or.inr (Or.inr ⟨trivial, ?_⟩)⟩
      rw [hD]
      exact Or.inr ⟨hc, hr⟩
    | some reg =>
      simp only [Bool.or_true, if_true]
      obtain ⟨u1, u2, u3⟩ := hlog3 2 3 6 "Getting service worker registration..."
        "Service worker already controlling page" "Service worker already active"
      exact ⟨u1, u2, u3, Or.inl ⟨reg, rfl⟩⟩
  · have hc2 : w.controller = false := by simpa using hc
    simp only [log_controller, hc2, Bool.false_eq_true, if_false, log_registration,
      Bool.or_false]
    cases hr : w.registration with
    | none =>
      simp only
      cases hreg : env.registered with
      | error m =>
        simp only
        obtain ⟨u1, u2, u3⟩ := hlog2 2 4 "Getting service worker registration..."
          "No service worker found, registering..."
        exact ⟨u1, u2, u3, Or.inr (Or.inl ⟨m, rfl⟩)⟩
      | ok reg =>
        simp only
        refine hstep reg _ ⟨by simp, by simp, by simp, by simp, by simp, by simp⟩ ?_ ?_ <;> simp
    | some reg =>
      simp only
      by_cases ha : reg.active = true
      · rw [if_pos ha]
        obtain ⟨u1, u2, u3⟩ := hlog2 2 6 "Getting service worker registration..."
          "Service worker already active"
        exact ⟨u1, u2, u3, Or.inl ⟨reg, rfl⟩⟩
      · rw [if_neg ha]
        obtain ⟨u1, u2, u3⟩ := hlog2 2 7 "Getting service worker registration..."
          "Waiting for service worker to activate..."
        exact hstep reg _ u1 u2 u3

/-- Lines 608-656 send nothing and leave the subscription; they end with a
registration, with the error of `register`, or never. -/
theorem acquireRegistration_spec (env : PushEnv) (w : World) :
    Unsent w (acquireRegistration env w).1 ∧
    (acquireRegistration env w).1.pushSubscription = w.pushSubscription ∧
    (acquireRegistration env w).1.pushTrace = w.pushTrace ∧
    ((∃ r, (acquireRegistration env w).2 = Completion.value r) ∨
      (∃ m, (acquireRegistration env w).2 = Completion.threw m) ∨
      ((acquireRegistration env w).2 = Completion.pending ∧
        (env.activates = false ∨ (w.controller = true ∧ w.registration = none)))) := by
  obtain ⟨o1, o2, o3, o4⟩ := obtainRegistration_spec env w
  unfold acquireRegistration
  generalize obtainRegistration env w = a at o1 o2 o3 o4
  obtain ⟨w1, c⟩ := a
  cases c with
  | value reg =>
    exact ⟨unsent_trans _ _ _ o1 (log_unsent _ _ _ _), by simpa using o2, by simpa using o3,
      Or.inl ⟨reg, rfl⟩⟩
  | returned =>
    rcases o4 with ⟨r, h⟩ | ⟨m, h⟩ | ⟨h, -⟩ <;> simp at h
  | threw m => exact ⟨o1, o2, o3, Or.inr (Or.inl ⟨m, rfl⟩)⟩
  | pending =>
    rcases o4 with ⟨r, h⟩ | ⟨m, h⟩ | ⟨-, h⟩
    · simp at h
    · simp at h
    · exact ⟨o1, o2, o3, Or.inr (Or.inr ⟨rfl, h⟩)⟩

/-- The check of the existing subscription sends nothing. -/
theorem checkExisting_unsent (env : PushEnv) (w : World) :
    Unsent w (checkExisting env w).1 := by
  unfold checkExisting
  simp only [log_pushSubscription]
  cases w.pushSubscription with
  | none => exact ⟨by simp, by simp, by simp, by simp, by simp, by simp⟩
  | some sub =>
    simp only
    cases effectiveKeys sub with
    | none =>
      exact ⟨by simp [unsubscribeBrowser], by simp [unsubscribeBrowser],
        by simp [unsubscribeBrowser], by simp [unsubscribeBrowser],
        by simp [unsubscribeBrowser], by simp [unsubscribeBrowser]⟩
    | some keys =>
      simp only
      by_cases hk : (!truthy keys.p256dh || !truthy keys.auth) = true
      · rw [if_pos hk]
        exact ⟨by simp [unsubscribeBrowser], by simp [unsubscribeBrowser],
          by simp [unsubscribeBrowser], by simp [unsubscribeBrowser],
          by simp [unsubscribeBrowser], by simp [unsubscribeBrowser]⟩
      · rw [if_neg hk]
        exact ⟨by simp, by simp, by simp, by simp, by simp, by simp⟩

/-- Without an existing subscription the check leaves none. -/
theorem checkExisting_none (env : PushEnv) (w : World) (h : w.pushSubscription = none) :
    (checkExisting env w).2 = none ∧ (checkExisting env w).1.pushSubscription = none ∧
    (checkExisting env w).1.pushTrace = w.pushTrace := by
  unfold checkExisting
  simp [h]

/-- An existing subscription carrying both keys is kept, and not unsubscribed. -/
theorem checkExisting_valid (env : PushEnv) (w : World) (sub : PushSubscription)
    (h : w.pushSubscription = some sub) (hk : hasBothKeys sub = true) :
    (checkExisting env w).2 = some sub ∧ (checkExisting env w).1.pushSubscription = some sub ∧
    (checkExisting env w).1.pushTrace = w.pushTrace := by
  unfold checkExisting
  unfold hasBothKeys at hk
  simp only [log_pushSubscription, h]
  cases he : effectiveKeys sub with
  | none => rw [he] at hk; simp at hk
  | some keys =>
    rw [he] at hk
    simp only [Bool.and_eq_true] at hk
    simp [hk.1, hk.2, h]

/-- An existing subscription lacking a key or the keys object is unsubscribed. -/
theorem checkExisting_invalid (env : PushEnv) (w : World) (sub : PushSubscription)
    (h : w.pushSubscription = some sub) (hk : hasBothKeys sub = false) :
    (checkExisting env w).2 = none ∧ (checkExisting env w).1.pushSubscription = none ∧
    (checkExisting env w).1.pushTrace = w.pushTrace ++ [PushOp.unsubscribe sub.endpoint] := by
  unfold checkExisting
  unfold hasBothKeys at hk
  simp only [log_pushSubscription, h]
  cases he : effectiveKeys sub with
  | none => simp [unsubscribeBrowser]
  | some keys =>
    rw [he] at hk
    have hk2 : (!truthy keys.p256dh || !truthy keys.auth) = true := by
      cases h1 : truthy keys.p256dh <;> cases h2 : truthy keys.auth <;> simp_all
    simp only [hk2, if_true]
    simp [unsubscribeBrowser]

/-- Creating a subscription sends nothing; it never throws past its own
`catch` block and always settles. -/
theorem createSubscription_unsent (env : PushEnv) (w : World) :
    Unsent w (createSubscription env w).1 ∧
    ((createSubscription env w).2 = Completion.returned ∨
      ∃ s, (createSubscription env w).2 = Completion.value s) := by
  unfold createSubscription
  by_cases hv : truthy w.page.config.vapidPublicKey = true
  · simp only [hv, Bool.not_true, Bool.false_eq_true, if_false, log_config]
    cases urlBase64ToUint8Array w.page.config.vapidPublicKey with
    | none =>
      exact ⟨⟨by simp, by simp, by simp, by simp, by simp, by simp⟩, Or.inl rfl⟩
    | some key =>
      simp only
      cases env.created with
      | error m =>
        simp only
        refine ⟨?_, Or.inl trivial⟩
        by_cases hs : env.keysSupported = true
        · simp only [hs, if_true]
          exact ⟨by simp, by simp, by simp, by simp, by simp, by simp⟩
        · simp only [hs, if_false]
          exact ⟨by simp, by simp, by simp, by simp, by simp, by simp⟩
      | ok sub =>
        simp only
        refine ⟨?_, Or.inr ⟨sub, rfl⟩⟩
        by_cases hs : env.keysSupported = true
        · simp only [hs, if_true]
          cases sub.keys <;>
            exact ⟨by simp, by simp, by simp, by simp, by simp, by simp⟩
        · simp only [hs, if_false]
          cases sub.keys <;>
            exact ⟨by simp, by simp, by simp, by simp, by simp, by simp⟩
  · have hv2 : truthy w.page.config.vapidPublicKey = false := by simpa using hv
    simp only [hv2, Bool.not_false, if_true]
    exact ⟨log_unsent _ _ _ _, Or.inl trivial⟩

/-- The push manager and the subscription after `createSubscription`. -/
theorem createSubscription_push (env : PushEnv) (w : World) :
    (∀ s, (createSubscription env w).2 = Completion.value s →
      env.created = Except.ok s ∧ (createSubscription env w).1.pushSubscription = some s ∧
      ∃ key, urlBase64ToUint8Array w.page.config.vapidPublicKey = some key ∧
        (createSubscription env w).1.pushTrace = w.pushTrace ++ [PushOp.subscribe key]) ∧
    ((createSubscription env w).2 = Completion.returned →
      (createSubscription env w).1.pushSubscription = w.pushSubscription ∧
      ((createSubscription env w).1.pushTrace = w.pushTrace ∨
        ∃ key, (createSubscription env w).1.pushTrace =
          w.pushTrace ++ [PushOp.subscribe key])) := by
  unfold createSubscription
  by_cases hv : truthy w.page.config.vapidPublicKey = true
  · simp only [hv, Bool.not_true, Bool.false_eq_true, if_false, log_config]
    cases hkey : urlBase64ToUint8Array w.page.config.vapidPublicKey with
    | none =>
      refine ⟨fun s h => by simp at h, fun _ => ⟨by simp, Or.inl (by simp)⟩⟩
    | some key =>
      simp only
      cases hcr : env.created with
      | error m =>
        simp only
        refine ⟨fun s h => by simp at h, fun _ => ?_⟩
        by_cases hs : env.keysSupported = true
        · simp only [hs, if_true]
          exact ⟨by simp, Or.inr ⟨key, by simp⟩⟩
        · simp only [hs, if_false]
          exact ⟨by simp, Or.inr ⟨key, by simp⟩⟩
      | ok sub =>
        simp only
        refine ⟨fun s h => ?_, fun h => by simp at h⟩
        have hs : sub = s := by simpa using h
        subst hs
        refine ⟨rfl, ?_, key, rfl, ?_⟩
        · cases sub.keys <;> simp
        · by_cases hs : env.keysSupported = true
          · simp only [hs, if_true]
            cases sub.keys <;> simp
          · simp only [hs, if_false]
            cases sub.keys <;> simp
  · have hv2 : truthy w.page.config.vapidPublicKey = false := by simpa using hv
    simp only [hv2, Bool.not_false, if_true]
    exact ⟨fun s h => by simp at h, fun _ => ⟨by simp, Or.inl (by simp)⟩⟩

/-- With a VAPID key that converts and a browser that grants the subscription,
`createSubscription` calls `pushManager.subscribe` and completes with the new
subscription. -/
theorem createSubscription_ok (env : PushEnv) (w : World) (key : Bytes)
    (sub : PushSubscription) (hv : truthy w.page.config.vapidPublicKey = true)
    (hkey : urlBase64ToUint8Array w.page.config.vapidPublicKey = some key)
    (hcr : env.created = Except.ok sub) :
    (createSubscription env w).2 = Completion.value sub := by
  unfold createSubscription
  simp only [hv, Bool.not_true, Bool.false_eq_true, if_false, log_config, hkey, hcr]

/-- `saveConfig` leaves the requests, the configuration of the page and the
push subscription as they are. -/
theorem saveConfig_frame (P : Primitives) (env : SaveEnv) (w : World) :
    (saveConfig P env w).1.pushSubscription = w.pushSubscription ∧
    (saveConfig P env w).1.pushTrace = w.pushTrace ∧
    (saveConfig P env w).1.requests = w.requests ∧
    (saveConfig P env w).1.page.config = w.page.config := by
  unfold saveConfig
  cases hk : w.page.cryptoKey with
  | some key => by_cases hdb : w.page.db = true <;> simp [hdb]
  | none =>
    obtain ⟨text, hinit⟩ := CryptoUtil.initializeKey_frame P env.generated w
    simp only [hinit]
    by_cases hdb : w.page.db = true <;> simp [hdb]

/-- Without a connection `saveConfig` rejects and writes no record. -/
theorem saveConfig_closed (P : Primitives) (env : SaveEnv) (w : World)
    (hdb : w.page.db = false) :
    (saveConfig P env w).2 = false ∧ (saveConfig P env w).1.store = w.store ∧
    (saveConfig P env w).1.localStorage.config = w.localStorage.config := by
  unfold saveConfig
  cases hk : w.page.cryptoKey with
  | some key => simp [hdb]
  | none =>
    obtain ⟨text, hinit⟩ := CryptoUtil.initializeKey_frame P env.generated w
    simp only [hinit]
    simp [hdb]

/-- The debug logs send nothing and leave the subscription. -/
theorem describeSubscription_unsent (env : PushEnv) (sub : PushSubscription) (w : World) :
    Unsent w (describeSubscription env sub w) ∧
    (describeSubscription env sub w).pushSubscription = w.pushSubscription ∧
    (describeSubscription env sub w).pushTrace = w.pushTrace := by
  unfold describeSubscription
  by_cases h : sub.keys.isSome = true
  · simp only [h, if_true]
    exact ⟨⟨by simp, by simp, by simp, by simp, by simp, by simp⟩, by simp, by simp⟩
  · simp only [h, if_false]
    exact ⟨⟨by simp, by simp, by simp, by simp, by simp, by simp⟩, by simp, by simp⟩

/-- What `confirmSubscription` leaves: `pushEnabled` is set; on an open
connection the configuration is saved and the subscription returned, and
without one the rejection of `saveConfig` is thrown. -/
theorem confirmSubscription_spec (P : Primitives) (env : PushEnv) (sub : PushSubscription)
    (w : World) :
    (confirmSubscription P env sub w).1.page.config =
      { w.page.config with pushEnabled := true } ∧
    (confirmSubscription P env sub w).1.requests = w.requests ∧
    (confirmSubscription P env sub w).1.pushSubscription = w.pushSubscription ∧
    (confirmSubscription P env sub w).1.pushTrace = w.pushTrace ∧
    (w.page.db = true →
      (confirmSubscription P env sub w).2 = Completion.value sub ∧
      ∃ key : CryptoKey, (∀ k, w.page.cryptoKey = some k → key = k) ∧
        (confirmSubscription P env sub w).1.store.settings =
          some (configToSave P env.save key { w.page.config with pushEnabled := true }) ∧
        (confirmSubscription P env sub w).1.localStorage.config =
          some (sanitizedConfig { w.page.config with pushEnabled := true })) ∧
    (w.page.db = false →
      (confirmSubscription P env sub w).2 = Completion.threw env.saveError ∧
      (confirmSubscription P env sub w).1.store.settings = w.store.settings ∧
      (confirmSubscription P env sub w).1.localStorage.config = w.localStorage.config) := by
  obtain ⟨v, hv⟩ : ∃ v : World, v =
      { env.log 33 "Push subscription registered with server" w with
        page := { (env.log 33 "Push subscription registered with server" w).page with
          config := { (env.log 33 "Push subscription registered with server" w).page.config with
            pushEnabled := true } } } := ⟨_, rfl⟩
  have v1 : v.page.config = { w.page.config with pushEnabled := true } := by rw [hv]; simp
  have v2 : v.requests = w.requests := by rw [hv]; simp
  have v3 : v.pushSubscription = w.pushSubscription := by rw [hv]; simp
  have v4 : v.pushTrace = w.pushTrace := by rw [hv]; simp
  have v5 : v.page.db = w.page.db := by rw [hv]; simp
  have v6 : v.page.cryptoKey = w.page.cryptoKey := by rw [hv]; simp
  have v7 : v.store.settings = w.store.settings := by rw [hv]; simp
  have v8 : v.localStorage = w.localStorage := by rw [hv]; simp
  have hrun : confirmSubscription P env sub w =
      (if (saveConfig P env.save v).2 then ((saveConfig P env.save v).1, Completion.value sub)
       else ((saveConfig P env.save v).1, Completion.threw env.saveError)) := by
    unfold confirmSubscription
    rw [hv]
  obtain ⟨f1, f2, f3, f4⟩ := saveConfig_frame P env.save v
  have hfst : (confirmSubscription P env sub w).1 = (saveConfig P env.save v).1 := by
    rw [hrun]; split_ifs <;> rfl
  refine ⟨by rw [hfst, f4, v1], by rw [hfst, f3, v2], by rw [hfst, f1, v3],
    by rw [hfst, f2, v4], ?_, ?_⟩
  · intro hdb
    obtain ⟨key, hk, s1, -, -, -, s5, s6, -⟩ := saveConfig_eq P env.save v (by rw [v5, hdb])
    refine ⟨by rw [hrun, s1]; rfl, key, fun k h => hk k (by rw [v6, h]), ?_, ?_⟩
    · rw [hfst, s5, v1]
    · rw [hfst, s6, v1]
  · intro hdb
    obtain ⟨c1, c2, c3⟩ := saveConfig_closed P env.save v (by rw [v5, hdb])
    refine ⟨by rw [hrun, c1]; rfl, ?_, ?_⟩
    · rw [hfst, c2, v7]
    · rw [hfst, c3, v8]

/-- `registerWithServer` never touches the browser's subscription. -/
theorem registerWithServer_frame (P : Primitives) (env : PushEnv) (sub : PushSubscription)
    (w : World) :
    (registerWithServer P env sub w).1.pushSubscription = w.pushSubscription ∧
    (registerWithServer P env sub w).1.pushTrace = w.pushTrace := by
  obtain ⟨-, d2, d3⟩ := describeSubscription_unsent env sub w
  unfold registerWithServer
  cases effectiveKeys sub with
  | none => simp [d2, d3]
  | some keys =>
    simp only
    by_cases hk : (!truthy keys.p256dh || !truthy keys.auth) = true
    · rw [if_pos hk]; simp [d2, d3]
    · rw [if_neg hk]
      cases env.fetch with
      | networkError m => simp [d2, d3]
      | response status =>
        simp only
        by_cases hok : responseOk status = true
        · rw [if_pos hok]
          obtain ⟨-, -, c3, c4, -, -⟩ := confirmSubscription_spec P env sub
            { env.log 32 "Registering subscription with server..."
                (env.log 31
                  ("Keys validation passed - p256dh: " ++ presence keys.p256dh ++ ", auth: " ++
                    presence keys.auth) (describeSubscription env sub w)) with
              requests :=
                (env.log 32 "Registering subscription with server..."
                  (env.log 31
                    ("Keys validation passed - p256dh: " ++ presence keys.p256dh ++
                      ", auth: " ++ presence keys.auth)
                    (describeSubscription env sub w))).requests ++
                [pushSubscribeRequest
                  (env.log 32 "Registering subscription with server..."
                    (env.log 31
                      ("Keys validation passed - p256dh: " ++ presence keys.p256dh ++
                        ", auth: " ++ presence keys.auth)
                      (describeSubscription env sub w))).page.config sub keys] }
          rw [c3, c4]
          simp [d2, d3]
        · rw [if_neg hok]; simp [d2, d3]

/-- A subscription lacking a key or the keys object is not sent: the function
returns `null` and nothing is sent, configured or saved. -/
theorem registerWithServer_invalid (P : Primitives) (env : PushEnv) (sub : PushSubscription)
    (w : World) (hk : hasBothKeys sub = false) :
    Unsent w (registerWithServer P env sub w).1 ∧
    (registerWithServer P env sub w).2 = Completion.returned := by
  obtain ⟨d1, -, -⟩ := describeSubscription_unsent env sub w
  unfold registerWithServer
  unfold hasBothKeys at hk
  cases he : effectiveKeys sub with
  | none => exact ⟨unsent_trans _ _ _ d1 (log_unsent _ _ _ _), rfl⟩
  | some keys =>
    rw [he] at hk
    have hk2 : (!truthy keys.p256dh || !truthy keys.auth) = true := by
      cases h1 : truthy keys.p256dh <;> cases h2 : truthy keys.auth <;> simp_all
    simp only [hk2, if_true]
    exact ⟨unsent_trans _ _ _ d1 (log_unsent _ _ _ _), trivial⟩

/-- A subscription carrying both keys is sent with these keys; `pushEnabled` is
set and saved exactly when the server answers with a 2xx status. -/
theorem registerWithServer_valid (P : Primitives) (env : PushEnv) (sub : PushSubscription)
    (w : World) (hk : hasBothKeys sub = true) :
    ∃ keys, effectiveKeys sub = some keys ∧ keys.p256dh ≠ "" ∧ keys.auth ≠ "" ∧
      (registerWithServer P env sub w).1.requests =
        w.requests ++ [pushSubscribeRequest w.page.config sub keys] ∧
      (∀ m, env.fetch = FetchResult.networkError m →
        (registerWithServer P env sub w).2 = Completion.threw m ∧
        (registerWithServer P env sub w).1.page.config = w.page.config ∧
        (registerWithServer P env sub w).1.store.settings = w.store.settings ∧
        (registerWithServer P env sub w).1.localStorage = w.localStorage) ∧
      (∀ status, env.fetch = FetchResult.response status → responseOk status = false →
        (registerWithServer P env sub w).2 = Completion.returned ∧
        (registerWithServer P env sub w).1.page.config = w.page.config ∧
        (registerWithServer P env sub w).1.store.settings = w.store.settings ∧
        (registerWithServer P env sub w).1.localStorage = w.localStorage) ∧
      (∀ status, env.fetch = FetchResult.response status → responseOk status = true →
        (registerWithServer P env sub w).1.page.config =
          { w.page.config with pushEnabled := true } ∧
        (w.page.db = true →
          (registerWithServer P env sub w).2 = Completion.value sub ∧
          ∃ key : CryptoKey, (∀ k, w.page.cryptoKey = some k → key = k) ∧
            (registerWithServer P env sub w).1.store.settings =
              some (configToSave P env.save key { w.page.config with pushEnabled := true }) ∧
            (registerWithServer P env sub w).1.localStorage.config =
              some (sanitizedConfig { w.page.config with pushEnabled := true })) ∧
        (w.page.db = false →
          (registerWithServer P env sub w).2 = Completion.threw env.saveError ∧
          (registerWithServer P env sub w).1.store.settings = w.store.settings ∧
          (registerWithServer P env sub w).1.localStorage.config = w.localStorage.config)) := by
  obtain ⟨d1, -, -⟩ := describeSubscription_unsent env sub w
  unfold hasBothKeys at hk
  cases he : effectiveKeys sub with
  | none => rw [he] at hk; simp at hk
  | some keys =>
    rw [he] at hk
    simp only [Bool.and_eq_true] at hk
    have hk2 : (!truthy keys.p256dh || !truthy keys.auth) = false := by simp [hk.1, hk.2]
    obtain ⟨v, hv⟩ : ∃ v : World, v =
        { env.log 32 "Registering subscription with server..."
            (env.log 31
              ("Keys validation passed - p256dh: " ++ presence keys.p256dh ++ ", auth: " ++
                presence keys.auth) (describeSubscription env sub w)) with
          requests :=
            (env.log 32 "Registering subscription with server..."
              (env.log 31
                ("Keys validation passed - p256dh: " ++ presence keys.p256dh ++
                  ", auth: " ++ presence keys.auth)
                (describeSubscription env sub w))).requests ++
            [pushSubscribeRequest
              (env.log 32 "Registering subscription with server..."
                (env.log 31
                  ("Keys validation passed - p256dh: " ++ presence keys.p256dh ++
                    ", auth: " ++ presence keys.auth)
                  (describeSubscription env sub w))).page.config sub keys] } := ⟨_, rfl⟩
    have v1 : v.page.config = w.page.config := by rw [hv]; simp [d1.config]
    have v2 : v.requests = w.requests ++ [pushSubscribeRequest w.page.config sub keys] := by
      rw [hv]; simp [d1.config, d1.requests]
    have v5 : v.page.db = w.page.db := by rw [hv]; simp [d1.db]
    have v6 : v.page.cryptoKey = w.page.cryptoKey := by rw [hv]; simp [d1.cryptoKey]
    have v7 : v.store.settings = w.store.settings := by rw [hv]; simp [d1.settings]
    have v8 : v.localStorage = w.localStorage := by rw [hv]; simp [d1.stored]
    have hrun : registerWithServer P env sub w =
        (match env.fetch with
         | FetchResult.networkError message => (v, Completion.threw message)
         | FetchResult.response status =>
           if responseOk status then confirmSubscription P env sub v
           else
             (env.log 34
               ("Failed to register push subscription: " ++ toString status ++ " - " ++
                 env.errorText) v, Completion.returned)) := by
      rw [hv]
      unfold registerWithServer
      simp only [he, hk2, Bool.false_eq_true, if_false]
    have t1 : truthy keys.p256dh = true → keys.p256dh ≠ "" := by
      intro h; simpa [truthy] using h
    have t2 : truthy keys.auth = true → keys.auth ≠ "" := by
      intro h; simpa [truthy] using h
    refine ⟨keys, rfl, t1 hk.1, t2 hk.2, ?_, ?_, ?_, ?_⟩
    · rw [hrun]
      cases env.fetch with
      | networkError m => exact v2
      | response status =>
        simp only
        by_cases hok : responseOk status = true
        · rw [if_pos hok, (confirmSubscription_spec P env sub v).2.1, v2]
        · rw [if_neg hok]; simp [v2]
    · intro m hf
      rw [hrun, hf]
      exact ⟨rfl, v1, v7, v8⟩
    · intro status hf hok
      rw [hrun, hf]
      simp only [hok, Bool.false_eq_true, if_false]
      exact ⟨trivial, by simp [v1], by simp [v7], by simp [v8]⟩
    · intro status hf hok
      rw [hrun, hf]
      simp only [hok, if_true]
      obtain ⟨c1, -, -, -, c5, c6⟩ := confirmSubscription_spec P env sub v
      refine ⟨by rw [c1, v1], ?_, ?_⟩
      · intro hdb
        obtain ⟨r1, key, hkey, r2, r3⟩ := c5 (by rw [v5, hdb])
        exact ⟨r1, key, fun k h => hkey k (by rw [v6, h]), by rw [r2, v1], by rw [r3, v1]⟩
      · intro hdb
        obtain ⟨r1, r2, r3⟩ := c6 (by rw [v5, hdb])
        exact ⟨r1, by rw [r2, v7], by rw [r3, v8]⟩

/-- A subscription the check keeps is the existing one, carrying both keys. -/
theorem checkExisting_some (env : PushEnv) (w : World) (sub : PushSubscription)
    (h : (checkExisting env w).2 = some sub) :
    w.pushSubscription = some sub ∧ hasBothKeys sub = true := by
  cases hs : w.pushSubscription with
  | none => rw [(checkExisting_none env w hs).1] at h; simp at h
  | some old =>
    cases hk : hasBothKeys old with
    | false => rw [(checkExisting_invalid env w old hs hk).1] at h; simp at h
    | true =>
      rw [(checkExisting_valid env w old hs hk).1] at h
      have : old = sub := by simpa using h
      subst this
      exact ⟨rfl, hk⟩

/-- The `try` block when the registration is not obtained. -/
theorem subscribeBody_threw (P : Primitives) (env : PushEnv) (w : World) (m : String)
    (hA : (acquireRegistration env w).2 = Completion.threw m) :
    subscribeBody P env w = ((acquireRegistration env w).1, Completion.threw m) := by
  unfold subscribeBody
  generalize acquireRegistration env w = a at hA
  obtain ⟨w1, c⟩ := a
  simp only at hA
  subst hA
  rfl

/-- The `try` block when the wait for the worker never ends. -/
theorem subscribeBody_pending (P : Primitives) (env : PushEnv) (w : World)
    (hA : (acquireRegistration env w).2 = Completion.pending) :
    subscribeBody P env w = ((acquireRegistration env w).1, Completion.pending) := by
  unfold subscribeBody
  generalize acquireRegistration env w = a at hA
  obtain ⟨w1, c⟩ := a
  simp only at hA
  subst hA
  rfl

/-- The `try` block when an existing subscription is kept. -/
theorem subscribeBody_existing (P : Primitives) (env : PushEnv) (w : World)
    (reg : SwRegistration) (sub : PushSubscription)
    (hA : (acquireRegistration env w).2 = Completion.value reg)
    (hC : (checkExisting env (acquireRegistration env w).1).2 = some sub) :
    subscribeBody P env w =
      registerWithServer P env sub
        (env.log 25 "Using existing push subscription"
          (checkExisting env (acquireRegistration env w).1).1) := by
  unfold subscribeBody
  generalize acquireRegistration env w = a at hA hC
  obtain ⟨w1, c⟩ := a
  simp only at hA hC
  subst hA
  simp only
  generalize checkExisting env w1 = b at hC
  obtain ⟨w2, o⟩ := b
  simp only at hC
  subst hC
  rfl

/-- The `try` block when a subscription is created. -/
theorem subscribeBody_created (P : Primitives) (env : PushEnv) (w : World)
    (reg : SwRegistration) (sub : PushSubscription)
    (hA : (acquireRegistration env w).2 = Completion.value reg)
    (hC : (checkExisting env (acquireRegistration env w).1).2 = none)
    (hK : (createSubscription env (checkExisting env (acquireRegistration env w).1).1).2 =
      Completion.value sub) :
    subscribeBody P env w =
      registerWithServer P env sub
        (createSubscription env (checkExisting env (acquireRegistration env w).1).1).1 := by
  unfold subscribeBody
  generalize acquireRegistration env w = a at hA hC hK
  obtain ⟨w1, c⟩ := a
  simp only at hA hC hK
  subst hA
  simp only
  generalize checkExisting env w1 = b at hC hK
  obtain ⟨w2, o⟩ := b
  simp only at hC hK
  subst hC
  simp only
  generalize createSubscription env w2 = k at hK
  obtain ⟨w3, c3⟩ := k
  simp only at hK
  subst hK
  rfl

/-- The `try` block when no subscription is created. -/
theorem subscribeBody_not_created (P : Primitives) (env : PushEnv) (w : World)
    (reg : SwRegistration)
    (hA : (acquireRegistration env w).2 = Completion.value reg)
    (hC : (checkExisting env (acquireRegistration env w).1).2 = none)
    (hK : (createSubscription env (checkExisting env (acquireRegistration env w).1).1).2 =
      Completion.returned) :
    subscribeBody P env w =
      ((createSubscription env (checkExisting env (acquireRegistration env w).1).1).1,
        Completion.returned) := by
  unfold subscribeBody
  generalize acquireRegistration env w = a at hA hC hK
  obtain ⟨w1, c⟩ := a
  simp only at hA hC hK
  subst hA
  simp only
  generalize checkExisting env w1 = b at hC hK
  obtain ⟨w2, o⟩ := b
  simp only at hC hK
  subst hC
  simp only
  generalize createSubscription env w2 = k at hK
  obtain ⟨w3, c3⟩ := k
  simp only at hK
  subst hK
  rfl

/-- What `subscribeToPushNotifications` makes of its `try` block on a platform
with service workers and push: the `catch` block logs only. -/
theorem subscribe_of_body (P : Primitives) (env : PushEnv) (w : World)
    (hsup : (!w.serviceWorker || !w.pushManager) = false) :
    Unsent (subscribeBody P env w).1 (subscribeToPushNotifications P env w).1 ∧
    (subscribeToPushNotifications P env w).1.pushSubscription =
      (subscribeBody P env w).1.pushSubscription ∧
    (subscribeToPushNotifications P env w).1.pushTrace =
      (subscribeBody P env w).1.pushTrace ∧
    (subscribeToPushNotifications P env w).2 =
      (match (subscribeBody P env w).2 with
       | Completion.value s => some (some s)
       | Completion.returned => some none
       | Completion.threw _ => some none
       | Completion.pending => none) := by
  unfold subscribeToPushNotifications
  simp only [hsup, Bool.false_eq_true, if_false]
  generalize subscribeBody P env w = b
  obtain ⟨v, c⟩ := b
  cases c with
  | value s => exact ⟨unsent_refl _, rfl, rfl, rfl⟩
  | returned => exact ⟨unsent_refl _, rfl, rfl, rfl⟩
  | threw m => exact ⟨log_unsent _ _ _ _, by simp, by simp, rfl⟩
  | pending => exact ⟨unsent_refl _, rfl, rfl, rfl⟩

/-- The runs of `subscribeToPushNotifications`: either nothing is sent,
configured or saved and the result is not a subscription (it is `null` unless
the wait for the worker never ends), or the browser's subscription, carrying
both keys, is sent with these keys, and `pushEnabled` is set exactly on a 2xx
answer. -/
theorem subscribe_cases (P : Primitives) (env : PushEnv) (w : World)
    (r : World × Option (Option PushSubscription))
    (hr : r = subscribeToPushNotifications P env w) :
    (Unsent w r.1 ∧ (∀ s, r.2 ≠ some (some s)) ∧
      ((acquireRegistration env w).2 ≠ Completion.pending → r.2 = some none)) ∨
    (∃ sub keys, r.1.pushSubscription = some sub ∧ effectiveKeys sub = some keys ∧
      keys.p256dh ≠ "" ∧ keys.auth ≠ "" ∧
      r.1.requests = w.requests ++ [pushSubscribeRequest w.page.config sub keys] ∧
      ((∀ status, env.fetch = FetchResult.response status → responseOk status = false) →
        r.2 = some none ∧ r.1.page.config = w.page.config ∧
        r.1.store.settings = w.store.settings ∧ r.1.localStorage = w.localStorage) ∧
      (∀ status, env.fetch = FetchResult.response status → responseOk status = true →
        r.1.page.config = { w.page.config with pushEnabled := true } ∧
        (w.page.db = true →
          r.2 = some (some sub) ∧
          ∃ key : CryptoKey, (∀ k, w.page.cryptoKey = some k → key = k) ∧
            r.1.store.settings =
              some (configToSave P env.save key { w.page.config with pushEnabled := true }) ∧
            r.1.localStorage.config =
              some (sanitizedConfig { w.page.config with pushEnabled := true })) ∧
        (w.page.db = false →
          r.2 = some none ∧ r.1.store.settings = w.store.settings ∧
          r.1.localStorage.config = w.localStorage.config))) := by
  by_cases hsup : (!w.serviceWorker || !w.pushManager) = true
  · left
    have : r = (env.log 1 "Push notifications not supported" w, some none) := by
      rw [hr]; unfold subscribeToPushNotifications; rw [if_pos hsup]
    rw [this]
    exact ⟨log_unsent _ _ _ _, fun s h => by simp at h, fun _ => rfl⟩
  have hsup2 : (!w.serviceWorker || !w.pushManager) = false := by simpa using hsup
  obtain ⟨b1, b2, -, b4⟩ := subscribe_of_body P env w hsup2
  rw [← hr] at b1 b2 b4
  have hsent : ∀ (v : World) (sub : PushSubscription), Unsent w v →
      v.pushSubscription = some sub →
      subscribeBody P env w = registerWithServer P env sub v →
      (Unsent w r.1 ∧ (∀ s, r.2 ≠ some (some s)) ∧
        ((acquireRegistration env w).2 ≠ Completion.pending → r.2 = some none)) ∨
      (∃ sub keys, r.1.pushSubscription = some sub ∧ effectiveKeys sub = some keys ∧
        keys.p256dh ≠ "" ∧ keys.auth ≠ "" ∧
        r.1.requests = w.requests ++ [pushSubscribeRequest w.page.config sub keys] ∧
        ((∀ status, env.fetch = FetchResult.response status → responseOk status = false) →
          r.2 = some none ∧ r.1.page.config = w.page.config ∧
          r.1.store.settings = w.store.settings ∧ r.1.localStorage = w.localStorage) ∧
        (∀ status, env.fetch = FetchResult.response status → responseOk status = true →
          r.1.page.config = { w.page.config with pushEnabled := true } ∧
          (w.page.db = true →
            r.2 = some (some sub) ∧
            ∃ key : CryptoKey, (∀ k, w.page.cryptoKey = some k → key = k) ∧
              r.1.store.settings =
                some (configToSave P env.save key
                  { w.page.config with pushEnabled := true }) ∧
              r.1.localStorage.config =
                some (sanitizedConfig { w.page.config with pushEnabled := true })) ∧
          (w.page.db = false →
            r.2 = some none ∧ r.1.store.settings = w.store.settings ∧
            r.1.localStorage.config = w.localStorage.config))) := by
    intro v sub hu hs hbody
    rw [hbody] at b1 b2 b4
    cases hk : hasBothKeys sub with
    | false =>
      left
      obtain ⟨i1, i2⟩ := registerWithServer_invalid P env sub v hk
      rw [i2] at b4
      exact ⟨unsent_trans _ _ _ (unsent_trans _ _ _ hu i1) b1,
        fun s h => by rw [b4] at h; simp at h, fun _ => b4⟩
    | true =>
      right
      obtain ⟨keys, k1, k2, k3, k4, k5, k6, k7⟩ := registerWithServer_valid P env sub v hk
      obtain ⟨f1, -⟩ := registerWithServer_frame P env sub v
      refine ⟨sub, keys, by rw [b2, f1, hs], k1, k2, k3, ?_, ?_, ?_⟩
      · rw [b1.requests, k4, hu.requests, hu.config]
      · intro hno
        cases hf : env.fetch with
        | networkError m =>
          obtain ⟨n1, n2, n3, n4⟩ := k5 m hf
          rw [n1] at b4
          exact ⟨b4, by rw [b1.config, n2, hu.config], by rw [b1.settings, n3, hu.settings],
            by rw [b1.stored, n4, hu.stored]⟩
        | response status =>
          obtain ⟨n1, n2, n3, n4⟩ := k6 status hf (hno status hf)
          rw [n1] at b4
          exact ⟨b4, by rw [b1.config, n2, hu.config], by rw [b1.settings, n3, hu.settings],
            by rw [b1.stored, n4, hu.stored]⟩
      · intro status hf hok
        obtain ⟨o1, o2, o3⟩ := k7 status hf hok
        refine ⟨by rw [b1.config, o1, hu.config], ?_, ?_⟩
        · intro hdb
          obtain ⟨p1, key, p2, p3, p4⟩ := o2 (by rw [hu.db, hdb])
          rw [p1] at b4
          exact ⟨b4, key, fun k h => p2 k (by rw [hu.cryptoKey, h]),
            by rw [b1.settings, p3, hu.config], by rw [b1.stored, p4, hu.config]⟩
        · intro hdb
          obtain ⟨p1, p2, p3⟩ := o3 (by rw [hu.db, hdb])
          rw [p1] at b4
          exact ⟨b4, by rw [b1.settings, p2, hu.settings], by rw [b1.stored, p3, hu.stored]⟩
  obtain ⟨a1, a2, -, a4⟩ := acquireRegistration_spec env w
  rcases a4 with ⟨reg, hA⟩ | ⟨m, hA⟩ | ⟨hA, -⟩
  · obtain hcu := checkExisting_unsent env (acquireRegistration env w).1
    cases hC : (checkExisting env (acquireRegistration env w).1).2 with
    | some sub =>
      obtain ⟨c1, c2⟩ := checkExisting_some env _ sub hC
      refine hsent _ sub
        (unsent_trans _ _ _ (unsent_trans _ _ _ a1 hcu) (log_unsent _ _ _ _)) ?_
        (subscribeBody_existing P env w reg sub hA hC)
      rw [log_pushSubscription]
      exact (checkExisting_valid env _ sub c1 c2).2.1
    | none =>
      obtain ⟨k1, k2⟩ := createSubscription_unsent env
        (checkExisting env (acquireRegistration env w).1).1
      rcases k2 with hK | ⟨s, hK⟩
      · left
        rw [subscribeBody_not_created P env w reg hA hC hK] at b1 b4
        exact ⟨unsent_trans _ _ _ (unsent_trans _ _ _ (unsent_trans _ _ _ a1 hcu) k1) b1,
          fun s h => by rw [b4] at h; simp at h, fun _ => b4⟩
      · exact hsent _ s (unsent_trans _ _ _ (unsent_trans _ _ _ a1 hcu) k1)
          ((createSubscription_push env _).1 s hK).2.1
          (subscribeBody_created P env w reg s hA hC hK)
  · left
    rw [subscribeBody_threw P env w m hA] at b1 b4
    exact ⟨unsent_trans _ _ _ a1 b1, fun s h => by rw [b4] at h; simp at h, fun _ => b4⟩
  · left
    rw [subscribeBody_pending P env w hA] at b1 b4
    exact ⟨unsent_trans _ _ _ a1 b1, fun s h => by rw [b4] at h; simp at h,
      fun h => absurd hA h⟩

/-- C17: in every run of `subscribeToPushNotifications` either no request is
issued, or exactly one is, the POST to `serverUrl/api/push-subscribe`, whose
body carries the keys of the browser's subscription, `p256dh` and `auth` both
non-empty. At the validation (lines 749-753) a subscription lacking the keys
object or either key makes the function return `null` with nothing sent,
configured or saved; and whenever the run ends on a browser subscription
lacking a key, no request was issued, the configuration (`pushEnabled`
included) is as before, and the result is `null` (provided the wait for the
worker ends at all). -/
theorem push_subscribe_sends_both_keys (P : Primitives) (env : PushEnv) (w : World) :
    ((subscribeToPushNotifications P env w).1.requests = w.requests ∨
      ∃ sub keys, (subscribeToPushNotifications P env w).1.pushSubscription = some sub ∧
        effectiveKeys sub = some keys ∧ keys.p256dh ≠ "" ∧ keys.auth ≠ "" ∧
        (subscribeToPushNotifications P env w).1.requests =
          w.requests ++ [pushSubscribeRequest w.page.config sub keys]) ∧
    (∀ (sub : PushSubscription) (v : World), hasBothKeys sub = false →
      (registerWithServer P env sub v).2 = Completion.returned ∧
      (registerWithServer P env sub v).1.requests = v.requests ∧
      (registerWithServer P env sub v).1.page.config = v.page.config) ∧
    (∀ sub, (subscribeToPushNotifications P env w).1.pushSubscription = some sub →
      hasBothKeys sub = false →
      (subscribeToPushNotifications P env w).1.requests = w.requests ∧
      (subscribeToPushNotifications P env w).1.page.config = w.page.config ∧
      (∀ s, (subscribeToPushNotifications P env w).2 ≠ some (some s)) ∧
      ((acquireRegistration env w).2 ≠ Completion.pending →
        (subscribeToPushNotifications P env w).2 = some none)) := by
  have hcases := subscribe_cases P env w _ rfl
  refine ⟨?_, ?_, ?_⟩
  · rcases hcases with ⟨h1, -, -⟩ | ⟨sub, keys, h1, h2, h3, h4, h5, -, -⟩
    · exact Or.inl h1.requests
    · exact Or.inr ⟨sub, keys, h1, h2, h3, h4, h5⟩
  · intro sub v hk
    obtain ⟨i1, i2⟩ := registerWithServer_invalid P env sub v hk
    exact ⟨i2, i1.requests, i1.config⟩
  · intro sub hs hk
    rcases hcases with ⟨h1, h2, h3⟩ | ⟨sub2, keys, h1, h2, h3, h4, -, -, -⟩
    · exact ⟨h1.requests, h1.config, h2, h3⟩
    · exfalso
      rw [hs] at h1
      have hsub : sub = sub2 := by simpa using h1
      subst hsub
      unfold hasBothKeys at hk
      rw [h2] at hk
      have t1 : truthy keys.p256dh = true := by simpa [truthy] using h3
      have t2 : truthy keys.auth = true := by simpa [truthy] using h4
      simp [t1, t2] at hk

/-- C19: `subscribeToPushNotifications` returns the subscription only when the
server answers the push-subscribe request with a 2xx status, and then
`config.pushEnabled` is true and the configuration is saved (the stored
record and the `localStorage` record are those of the configuration with
`pushEnabled` set). When the server answers with another status or the request
fails by a network error, and whenever no request was issued at all, the result
is not a subscription (it is `null`, provided the wait for the worker ends at
all) and the configuration, the stored record and `localStorage` are as
before. -/
theorem push_enabled_only_on_ack (P : Primitives) (env : PushEnv) (w : World) :
    (∀ s, (subscribeToPushNotifications P env w).2 = some (some s) →
      ∃ status, env.fetch = FetchResult.response status ∧ responseOk status = true ∧
        (subscribeToPushNotifications P env w).1.page.config =
          { w.page.config with pushEnabled := true } ∧
        (subscribeToPushNotifications P env w).1.pushSubscription = some s ∧
        ∃ key : CryptoKey, (∀ k, w.page.cryptoKey = some k → key = k) ∧
          (subscribeToPushNotifications P env w).1.store.settings =
            some (configToSave P env.save key { w.page.config with pushEnabled := true }) ∧
          (subscribeToPushNotifications P env w).1.localStorage.config =
            some (sanitizedConfig { w.page.config with pushEnabled := true })) ∧
    (((∀ status, env.fetch = FetchResult.response status → responseOk status = false) ∨
        (subscribeToPushNotifications P env w).1.requests = w.requests) →
      (∀ s, (subscribeToPushNotifications P env w).2 ≠ some (some s)) ∧
      ((acquireRegistration env w).2 ≠ Completion.pending →
        (subscribeToPushNotifications P env w).2 = some none) ∧
      (subscribeToPushNotifications P env w).1.page.config = w.page.config ∧
      (subscribeToPushNotifications P env w).1.store.settings = w.store.settings ∧
      (subscribeToPushNotifications P env w).1.localStorage = w.localStorage) := by
  have hcases := subscribe_cases P env w _ rfl
  refine ⟨?_, ?_⟩
  · intro s hs
    rcases hcases with ⟨-, h2, -⟩ | ⟨sub, keys, h1, -, -, -, -, h6, h7⟩
    · exact absurd hs (h2 s)
    · cases hf : env.fetch with
      | networkError m =>
        have hno : ∀ status, env.fetch = FetchResult.response status →
            responseOk status = false := by
          intro status h; rw [hf] at h; cases h
        rw [(h6 hno).1] at hs
        simp at hs
      | response status =>
        cases hok : responseOk status with
        | false =>
          have hno : ∀ st, env.fetch = FetchResult.response st → responseOk st = false := by
            intro st h
            rw [hf] at h
            cases h
            exact hok
          rw [(h6 hno).1] at hs
          simp at hs
        | true =>
          obtain ⟨o1, o2, o3⟩ := h7 status hf hok
          cases hdb : w.page.db with
          | false =>
            rw [(o3 hdb).1] at hs
            simp at hs
          | true =>
            obtain ⟨p1, key, p2, p3, p4⟩ := o2 hdb
            rw [p1] at hs
            have hsub : sub = s := by simpa using hs
            subst hsub
            exact ⟨status, rfl, hok, o1, h1, key, p2, p3, p4⟩
  · intro hfail
    rcases hcases with ⟨h1, h2, h3⟩ | ⟨sub, keys, -, -, -, -, h5, h6, -⟩
    · exact ⟨h2, h3, h1.config, h1.settings, h1.stored⟩
    · rcases hfail with hno | hreq
      · obtain ⟨n1, n2, n3, n4⟩ := h6 hno
        exact ⟨fun s h => by rw [n1] at h; simp at h, fun _ => n1, n2, n3, n4⟩
      · rw [hreq] at h5
        simp at h5

/-- C19, at concrete inputs, with the stand-in primitives: on
`scenarioStaleSubscription` a 201 answer makes the function return the new
subscription with `pushEnabled` set and stored, and a 500 answer makes it
return `null` with `pushEnabled` and the stored record as before. -/
theorem push_enabled_only_on_ack_scenario :
    (subscribeToPushNotifications scenarioPrimitives
      (scenarioPush 1700000000500 (Except.ok scenarioSubscription) (FetchResult.response 201))
      scenarioStaleSubscription).2 = some (some scenarioSubscription) ∧
    (subscribeToPushNotifications scenarioPrimitives
      (scenarioPush 1700000000500 (Except.ok scenarioSubscription) (FetchResult.response 201))
      scenarioStaleSubscription).1.page.config.pushEnabled = true ∧
    ((subscribeToPushNotifications scenarioPrimitives
      (scenarioPush 1700000000500 (Except.ok scenarioSubscription) (FetchResult.response 201))
      scenarioStaleSubscription).1.store.settings.map (fun c => c.pushEnabled)) = some true ∧
    (subscribeToPushNotifications scenarioPrimitives
      (scenarioPush 1700000000500 (Except.ok scenarioSubscription) (FetchResult.response 500))
      scenarioStaleSubscription).2 = some none ∧
    (subscribeToPushNotifications scenarioPrimitives
      (scenarioPush 1700000000500 (Except.ok scenarioSubscription) (FetchResult.response 500))
      scenarioStaleSubscription).1.page.config.pushEnabled = false ∧
    (subscribeToPushNotifications scenarioPrimitives
      (scenarioPush 1700000000500 (Except.ok scenarioSubscription) (FetchResult.response 500))
      scenarioStaleSubscription).1.store.settings = scenarioStaleSubscription.store.settings := by
  refine ⟨?_, ?_, ?_, ?_, ?_, ?_⟩ <;> decide

/-- C18: on a platform with service workers and push, once the registration is
obtained, with an existing subscription `old`:
* when `old` lacks the keys object, the `p256dh` key or the `auth` key and a
  VAPID public key is configured, `old` is unsubscribed first; when moreover
  the VAPID key converts and the browser grants a subscription `s`, the calls
  on the push manager are exactly that `unsubscribe` and one `subscribe` with
  the converted key, `s` is the browser's subscription, and `s` is validated
  before it is sent: lacking a key it is not sent and the result is `null`,
  carrying both it is sent with its keys;
* when `old` carries both keys it is reused: nothing is unsubscribed or
  subscribed, and `old` is what is sent. -/
theorem push_subscribe_replaces_invalid (P : Primitives) (env : PushEnv) (w : World)
    (reg : SwRegistration) (old : PushSubscription)
    (hsw : w.serviceWorker = true) (hpm : w.pushManager = true)
    (hA : (acquireRegistration env w).2 = Completion.value reg)
    (hs : w.pushSubscription = some old) :
    (hasBothKeys old = false → truthy w.page.config.vapidPublicKey = true →
      (∃ rest, (subscribeToPushNotifications P env w).1.pushTrace =
        w.pushTrace ++ PushOp.unsubscribe old.endpoint :: rest) ∧
      (∀ key s, urlBase64ToUint8Array w.page.config.vapidPublicKey = some key →
        env.created = Except.ok s →
        (subscribeToPushNotifications P env w).1.pushTrace =
          w.pushTrace ++ [PushOp.unsubscribe old.endpoint, PushOp.subscribe key] ∧
        (subscribeToPushNotifications P env w).1.pushSubscription = some s ∧
        (hasBothKeys s = false →
          (subscribeToPushNotifications P env w).1.requests = w.requests ∧
          (subscribeToPushNotifications P env w).2 = some none) ∧
        (hasBothKeys s = true →
          ∃ keys, effectiveKeys s = some keys ∧ keys.p256dh ≠ "" ∧ keys.auth ≠ "" ∧
            (subscribeToPushNotifications P env w).1.requests =
              w.requests ++ [pushSubscribeRequest w.page.config s keys]))) ∧
    (hasBothKeys old = true →
      (subscribeToPushNotifications P env w).1.pushTrace = w.pushTrace ∧
      (subscribeToPushNotifications P env w).1.pushSubscription = some old ∧
      ∃ keys, effectiveKeys old = some keys ∧
        (subscribeToPushNotifications P env w).1.requests =
          w.requests ++ [pushSubscribeRequest w.page.config old keys]) := by
  have hsup : (!w.serviceWorker || !w.pushManager) = false := by simp [hsw, hpm]
  obtain ⟨b1, b2, b3, b4⟩ := subscribe_of_body P env w hsup
  obtain ⟨a1, a2, a3, -⟩ := acquireRegistration_spec env w
  have hcu := checkExisting_unsent env (acquireRegistration env w).1
  refine ⟨?_, ?_⟩
  · intro hk hv
    obtain ⟨c1, c2, c3⟩ := checkExisting_invalid env (acquireRegistration env w).1 old
      (by rw [a2, hs]) hk
    rw [a3] at c3
    obtain ⟨k1, k2⟩ := createSubscription_unsent env
      (checkExisting env (acquireRegistration env w).1).1
    obtain ⟨q1, q2⟩ := createSubscription_push env
      (checkExisting env (acquireRegistration env w).1).1
    have hcfg : (checkExisting env (acquireRegistration env w).1).1.page.config =
        w.page.config := by rw [hcu.config, a1.config]
    refine ⟨?_, ?_⟩
    · rcases k2 with hK | ⟨s, hK⟩
      · rw [subscribeBody_not_created P env w reg hA c1 hK] at b3
        rw [b3]
        rcases (q2 hK).2 with h | ⟨key, h⟩
        · exact ⟨[], by rw [h, c3]⟩
        · exact ⟨[PushOp.subscribe key], by rw [h, c3]; simp⟩
      · rw [subscribeBody_created P env w reg s hA c1 hK] at b3
        rw [b3, (registerWithServer_frame P env s _).2]
        obtain ⟨-, -, key, -, h⟩ := q1 s hK
        exact ⟨[PushOp.subscribe key], by rw [h, c3]; simp⟩
    · intro key s hkey hcr
      have hK := createSubscription_ok env
        (checkExisting env (acquireRegistration env w).1).1 key s
        (by rw [hcfg]; exact hv) (by rw [hcfg]; exact hkey) hcr
      obtain ⟨-, p2, key2, p3, p4⟩ := q1 s hK
      rw [hcfg, hkey] at p3
      have hkk : key = key2 := by simpa using p3
      subst hkk
      have hbody := subscribeBody_created P env w reg s hA c1 hK
      rw [hbody] at b1 b2 b3 b4
      obtain ⟨f1, f2⟩ := registerWithServer_frame P env s
        (createSubscription env (checkExisting env (acquireRegistration env w).1).1).1
      have hu : Unsent w
          (createSubscription env (checkExisting env (acquireRegistration env w).1).1).1 :=
        unsent_trans _ _ _ (unsent_trans _ _ _ a1 hcu) k1
      refine ⟨by rw [b3, f2, p4, c3]; simp, by rw [b2, f1, p2], ?_, ?_⟩
      · intro hks
        obtain ⟨i1, i2⟩ := registerWithServer_invalid P env s
          (createSubscription env (checkExisting env (acquireRegistration env w).1).1).1 hks
        rw [i2] at b4
        exact ⟨by rw [b1.requests, i1.requests, hu.requests], b4⟩
      · intro hks
        obtain ⟨keys, v1, v2, v3, v4, -, -, -⟩ := registerWithServer_valid P env s
          (createSubscription env (checkExisting env (acquireRegistration env w).1).1).1 hks
        exact ⟨keys, v1, v2, v3, by rw [b1.requests, v4, hu.requests, hu.config]⟩
  · intro hk
    obtain ⟨c1, c2, c3⟩ := checkExisting_valid env (acquireRegistration env w).1 old
      (by rw [a2, hs]) hk
    rw [a3] at c3
    have hbody := subscribeBody_existing P env w reg old hA c1
    rw [hbody] at b1 b2 b3 b4
    obtain ⟨f1, f2⟩ := registerWithServer_frame P env old
      (env.log 25 "Using existing push subscription"
        (checkExisting env (acquireRegistration env w).1).1)
    have hu : Unsent w (env.log 25 "Using existing push subscription"
        (checkExisting env (acquireRegistration env w).1).1) :=
      unsent_trans _ _ _ (unsent_trans _ _ _ a1 hcu) (log_unsent _ _ _ _)
    obtain ⟨keys, v1, -, -, v4, -, -, -⟩ := registerWithServer_valid P env old
      (env.log 25 "Using existing push subscription"
        (checkExisting env (acquireRegistration env w).1).1) hk
    refine ⟨by rw [b3, f2, log_pushTrace, c3], by rw [b2, f1, log_pushSubscription, c2],
      keys, v1, by rw [b1.requests, v4, hu.requests, hu.config]⟩

/-- C18, at a concrete input, with the stand-in primitives: on
`scenarioStaleSubscription`, whose subscription lacks the `auth` key, the old
subscription is unsubscribed, a new one is created with the converted VAPID
key, and the new one is what is sent. -/
theorem push_subscribe_replaces_invalid_witness :
    (subscribeToPushNotifications scenarioPrimitives
      (scenarioPush 1700000000500 (Except.ok scenarioSubscription) (FetchResult.response 201))
      scenarioStaleSubscription).1.pushTrace =
      [PushOp.unsubscribe "https://push.example/old", PushOp.subscribe [1, 2, 3]] ∧
    (subscribeToPushNotifications scenarioPrimitives
      (scenarioPush 1700000000500 (Except.ok scenarioSubscription) (FetchResult.response 201))
      scenarioStaleSubscription).1.pushSubscription = some scenarioSubscription :=
  have h := ((push_subscribe_replaces_invalid scenarioPrimitives
    (scenarioPush 1700000000500 (Except.ok scenarioSubscription) (FetchResult.response 201))
    scenarioStaleSubscription { active := true, waiting := false } scenarioSubscriptionNoAuth
    (by decide) (by decide) rfl (by decide)).1 (by decide) (by decide)).2
    [1, 2, 3] scenarioSubscription (by decide) rfl
  ⟨h.1, h.2.1⟩

/-- On a page with a registration, server and token configured and a
subscription `sub`, a network error of the push-unsubscribe request leaves the
browser unsubscribed and the request issued, and leaves the configuration,
the stored record and `localStorage` as they were. -/
theorem unsubscribe_after_network_error (P : Primitives) (env : PushEnv) (w : World)
    (reg : SwRegistration) (sub : PushSubscription) (m : String)
    (hsw : w.serviceWorker = true) (hreg : w.registration = some reg)
    (hsub : w.pushSubscription = some sub)
    (hurl : truthy w.page.config.serverUrl = true)
    (htoken : truthy w.page.config.authToken = true)
    (hf : env.fetch = FetchResult.networkError m) :
    (unsubscribeFromPushNotifications P env w).pushSubscription = none ∧
    (unsubscribeFromPushNotifications P env w).pushTrace =
      w.pushTrace ++ [PushOp.unsubscribe sub.endpoint] ∧
    (unsubscribeFromPushNotifications P env w).requests =
      w.requests ++ [pushUnsubscribeRequest w.page.config sub] ∧
    (unsubscribeFromPushNotifications P env w).page.config = w.page.config ∧
    (unsubscribeFromPushNotifications P env w).store.settings = w.store.settings ∧
    (unsubscribeFromPushNotifications P env w).localStorage = w.localStorage := by
  unfold unsubscribeFromPushNotifications
  simp [hsw, hreg, hsub, unsubscribeBrowser, hurl, htoken, hf]

/-- C20 fails on the code: on `scenarioPushEnabled` (a subscription exists,
`pushEnabled` is set, server and token are configured) a network error of the
push-unsubscribe request leaves the browser unsubscribed but `pushEnabled`
true, in the page and in both stored records, the error being logged; a 500
answer to the same request clears `pushEnabled` and saves it. -/
theorem unsubscribe_network_error_keeps_push_enabled :
    (unsubscribeFromPushNotifications scenarioPrimitives
      (scenarioPush 1700000000500 (Except.ok scenarioSubscription)
        (FetchResult.networkError "Failed to fetch"))
      scenarioPushEnabled).pushSubscription = none ∧
    (unsubscribeFromPushNotifications scenarioPrimitives
      (scenarioPush 1700000000500 (Except.ok scenarioSubscription)
        (FetchResult.networkError "Failed to fetch"))
      scenarioPushEnabled).page.config.pushEnabled = true ∧
    ((unsubscribeFromPushNotifications scenarioPrimitives
      (scenarioPush 1700000000500 (Except.ok scenarioSubscription)
        (FetchResult.networkError "Failed to fetch"))
      scenarioPushEnabled).store.settings.map (fun c => c.pushEnabled)) = some true ∧
    ((unsubscribeFromPushNotifications scenarioPrimitives
      (scenarioPush 1700000000500 (Except.ok scenarioSubscription)
        (FetchResult.networkError "Failed to fetch"))
      scenarioPushEnabled).localStorage.config.map (fun c => c.pushEnabled)) = some true ∧
    (unsubscribeFromPushNotifications scenarioPrimitives
      (scenarioPush 1700000000500 (Except.ok scenarioSubscription)
        (FetchResult.networkError "Failed to fetch"))
      scenarioPushEnabled).store.logs =
      [⟨"Push unsubscribe error: Failed to fetch", 1700000000500⟩] ∧
    (unsubscribeFromPushNotifications scenarioPrimitives
      (scenarioPush 1700000000500 (Except.ok scenarioSubscription) (FetchResult.response 500))
      scenarioPushEnabled).pushSubscription = none ∧
    (unsubscribeFromPushNotifications scenarioPrimitives
      (scenarioPush 1700000000500 (Except.ok scenarioSubscription) (FetchResult.response 500))
      scenarioPushEnabled).page.config.pushEnabled = false ∧
    ((unsubscribeFromPushNotifications scenarioPrimitives
      (scenarioPush 1700000000500 (Except.ok scenarioSubscription) (FetchResult.response 500))
      scenarioPushEnabled).store.settings.map (fun c => c.pushEnabled)) = some false := by
  refine ⟨?_, ?_, ?_, ?_, ?_, ?_, ?_, ?_⟩ <;> decide

end App
end Heartbeat
